import Mathlib

/-!
# PortAudio AUHAL host API (`src/hostapi/coreaudio/pa_mac_core.c`)

A shallow embedding of the stream runtime of the CoreAudio backend: parameter
validation and resource acquisition in `OpenStream`, the audio-unit setup of
`OpenAndSetupOneAudioUnit`, the rollback in `CloseStream`, the control-plane
calls `StartStream`, `StopStream`, `AbortStream`, the realtime callback
`AudioIOProc`, and the device list built by `gatherDeviceInfo` and
`PaMacCore_Initialize`.

Conventions of the embedding.

* Machine integers are `Int`/`Nat`; the 16-bit `OSErr` variables of the source
  are made explicit with `toOSErr`.
* `double` values (sample rates, latencies, `AudioValueRange`) are rationals.
* Pointers and opaque handles are natural numbers, `0` being `NULL`.
* Every call into the platform or into a PortAudio helper that is not part of
  this file appends a `Call` to the trace of the `World`; what the callee
  answers is an explicit argument (a *reply*), so every theorem that
  quantifies over the replies covers every behaviour of the platform.
* The `World` also keeps the list of resources currently held, so leaks and
  double releases are observable.
* `assert`s of the source are taken to hold and are not modelled.
* The initialisation of the device list is modelled on the fields of the host
  API alone, without trace; its C arrays are maps from the index.
-/

namespace PaMacCore

set_option autoImplicit false

/-! ## Constants of `portaudio.h`, `pa_mac_core.h` and `pa_mac_core_internal.h` -/

/-- `PaError` is a C `int`. -/
abbrev PaError := Int

def paNoError : PaError := 0
def paUnanticipatedHostError : PaError := -9999
def paInvalidChannelCount : PaError := -9998
def paInvalidSampleRate : PaError := -9997
def paInvalidDevice : PaError := -9996
def paInvalidFlag : PaError := -9995
def paSampleFormatNotSupported : PaError := -9994
def paInsufficientMemory : PaError := -9992
def paFormatIsSupported : PaError := 0

def paNoDevice : Int := -1
def paUseHostApiSpecificDeviceSpecification : Int := -2

def paFloat32 : Nat := 0x00000001
def paCustomFormat : Nat := 0x00010000
def paNonInterleaved : Nat := 0x80000000

def paClipOff : Nat := 0x00000001
def paPlatformSpecificFlags : Nat := 0xFFFF0000

def paFramesPerBufferUnspecified : Nat := 0

def paContinue : Int := 0
def paComplete : Int := 1
def paAbort : Int := 2

def paInputUnderflow : Nat := 0x00000001
def paInputOverflow : Nat := 0x00000002

def paMacCorePlayNice : Nat := 0x00
def paMacCore_ChangeDeviceParameters : Nat := 0x01
def paMacCore_FailIfConversionRequired : Nat := 0x02

def kAudioDeviceUnknown : Nat := 0
def noErr : Int := 0

def OUTPUT_ELEMENT : Nat := 0
def INPUT_ELEMENT : Nat := 1

def RING_BUFFER_ADVANCE_DENOMINATOR : Nat := 4
def RING_BUFFER_EMPTY : Int := 1000

/-- The value a 32-bit `OSStatus` has once it is stored in a variable of the
16-bit type `OSErr` (`OSErr result` in `OpenAndSetupOneAudioUnit`,
`StartStream`, `StopStream`, `OSErr err` in `AudioIOProc`). -/
def toOSErr (status : Int) : Int := (status + 32768) % 65536 - 32768

/-- Conversion of a `double` to `long`: truncation toward zero. -/
def truncToLong (q : ℚ) : Int := Int.tdiv q.num q.den

/-- `MAX( a, b )` of `pa_mac_core_utilities.h` with a `long` first argument and
a `double` second one, assigned back to a `long`. -/
def MAX (a : Int) (b : ℚ) : Int := if (a : ℚ) < b then truncToLong b else a

/-- `MIN( a, b )` with a `long` first argument and a `double` second one,
assigned back to a `long`. -/
def MIN (a : Int) (b : ℚ) : Int := if (a : ℚ) < b then a else truncToLong b

/-! ## The platform: calls, resources, world -/

inductive Property where
  | EnableInputOutput
  | CurrentDevice
  | RenderQuality
  | StreamFormat
  | MaximumFramesPerSlice
  | SetRenderCallback
  | SetInputCallback
  deriving DecidableEq, Repr

inductive Scope where
  | Global
  | Input
  | Output
  deriving DecidableEq, Repr

/-- The calls `pa_mac_core.c` makes outside of itself, with the arguments that
matter here. -/
inductive Call where
  | FindNextComponent
  | OpenAComponent (unit : Nat)
  | CloseComponent (unit : Nat)
  | AudioUnitSetProperty (unit : Nat) (p : Property) (scope : Scope) (element : Nat)
  | AudioUnitGetProperty (unit : Nat) (p : Property) (scope : Scope) (element : Nat)
  | AudioUnitInitialize (unit : Nat)
  | AudioUnitUninitialize (unit : Nat)
  | AudioOutputUnitStart (unit : Nat)
  | AudioOutputUnitStop (unit : Nat)
  | AudioUnitReset (unit : Nat) (scope : Scope) (element : Nat)
  | AudioUnitRender (unit : Nat) (element : Nat) (inNumberFrames : Nat)
  | AudioConverterNew (converter : Nat)
  | AudioConverterSetProperty (converter : Nat)
  | AudioConverterReset (converter : Nat)
  | AudioConverterDispose (converter : Nat)
  | AudioConverterFillBuffer (converter : Nat) (size : Nat)
  | AudioDeviceGetProperty (device : Nat)
  | AudioDeviceGetCurrentTime (device : Nat)
  | setBestFramesPerBuffer (device : Nat) (isOutput : Bool) (requested : Nat)
  | setBestSampleRateForDevice (device : Nat) (isOutput : Bool) (requireExact : Bool)
  | computeRingBufferSize
  | PaUtil_AllocateMemory (p : Nat)
  | PaUtil_FreeMemory (p : Nat)
  | calloc (p : Nat)
  | free (p : Nat)
  | PaUtil_InitializeStreamRepresentation (callbackInterface : Bool)
  | PaUtil_TerminateStreamRepresentation
  | PaUtil_InitializeCpuLoadMeasurer
  | PaUtil_BeginCpuLoadMeasurement
  | PaUtil_EndCpuLoadMeasurement (framesProcessed : Nat)
  | initializeBlioRingBuffers
  | destroyBlioRingBuffers
  | resetBlioRingBuffers
  | waitUntilBlioWriteBufferIsFlushed
  | PaUtil_InitializeBufferProcessor (inputChannelCount outputChannelCount : Int)
      (framesPerBuffer maxHostFrames : Nat) (unknownHostBufferSize : Bool)
  | PaUtil_TerminateBufferProcessor
  | PaUtil_ResetBufferProcessor
  | PaUtil_BeginBufferProcessing (xrunFlags : Nat)
  | PaUtil_SetInputFrameCount (frames : Nat)
  | PaUtil_SetInterleavedInputChannels (data : Nat) (channels : Nat)
  | PaUtil_Set2ndInputFrameCount (frames : Nat)
  | PaUtil_Set2ndInterleavedInputChannels (data : Nat) (channels : Nat)
  | PaUtil_SetOutputFrameCount (frames : Nat)
  | PaUtil_SetInterleavedOutputChannels (channels : Nat)
  | PaUtil_EndBufferProcessing
  | memcpy (dstOffset : Nat) (size : Nat)
  | bzero (dstOffset : Nat) (size : Nat)
  deriving DecidableEq, Repr

/-- What a stream can hold between `OpenStream` and `CloseStream`. -/
inductive Resource where
  | streamObject (p : Nat)
  | streamRepresentation
  | audioUnit (unit : Nat)
  | converter (converter : Nat)
  | memory (p : Nat)
  | blioBuffers
  | bufferProcessor
  deriving DecidableEq, Repr

/-- The world outside the stream: the calls made so far (oldest first), the
resources held, and the source of fresh handles and addresses. -/
structure World where
  trace : List Call
  held : List Resource
  fresh : Nat
  deriving DecidableEq, Repr

namespace World

def empty : World := ⟨[], [], 0⟩

def log (w : World) (c : Call) : World := { w with trace := w.trace ++ [c] }

def acquire (w : World) (r : Resource) : World := { w with held := r :: w.held }

def release (w : World) (r : Resource) : World := { w with held := w.held.erase r }

/-- The handle or address the next successful allocation returns; never `0`. -/
def next (w : World) : Nat := w.fresh + 1

def bump (w : World) : World := { w with fresh := w.fresh + 1 }

end World

/-! ## Data model -/

structure PaStreamParameters where
  device : Int
  channelCount : Int
  sampleFormat : Nat
  suggestedLatency : ℚ
  /-- `NULL`, or the `flags` of the `paMacCoreStreamInfo` pointed to. -/
  hostApiSpecificStreamInfo : Option Nat
  deriving DecidableEq, Repr

structure PaDeviceInfo where
  maxInputChannels : Int
  maxOutputChannels : Int
  deriving DecidableEq, Repr, Inhabited

/-- The host API singleton: the table of `PaDeviceInfo` and the platform ids
of the devices, indexed alike by the PortAudio device index. -/
structure PaMacAUHAL where
  deviceInfos : List PaDeviceInfo
  devIds : List Nat
  deriving DecidableEq, Repr

/-- `hostApi->deviceInfos[ device ]`. -/
def PaMacAUHAL.deviceInfo (hostApi : PaMacAUHAL) (device : Int) : PaDeviceInfo :=
  hostApi.deviceInfos.getD device.toNat default

/-- `auhalHostApi->devIds[ device ]`. -/
def PaMacAUHAL.devId (hostApi : PaMacAUHAL) (device : Int) : Nat :=
  hostApi.devIds.getD device.toNat kAudioDeviceUnknown

inductive StreamState where
  | STOPPED
  | CALLBACK_STOPPED
  | STOPPING
  | ACTIVE
  deriving DecidableEq, Repr

open StreamState

/-- Modelled from the spec: the ring buffer of §4.1 (`ringbuffer.c` is not
under `src/`), a byte FIFO whose indices wrap at twice the buffer size. -/
structure RingBuffer where
  bufferSize : Nat
  writeIndex : Nat
  readIndex : Nat
  buffer : Nat
  deriving DecidableEq, Repr

/-- `stream->inputAudioBufferList.mBuffers[0]`. -/
structure AudioBuffer where
  mNumberChannels : Nat
  mDataByteSize : Nat
  mData : Nat
  deriving DecidableEq, Repr

/-- Modelled from the spec: the blocking-I/O facade (`pa_mac_core_blocking.c`
is not under `src/`); only whether its ring buffers are allocated is kept. -/
structure PaMacBlio where
  allocated : Bool
  deriving DecidableEq, Repr

/-- `PaMacCoreStream` (declared in `pa_mac_core_internal.h`), with the fields
`pa_mac_core.c` reads and writes. -/
structure PaMacCoreStream where
  /-- Address of the stream object itself. -/
  self : Nat
  bufferProcessorIsInitialized : Bool
  inputUnit : Nat
  outputUnit : Nat
  inputDevice : Nat
  outputDevice : Nat
  inputFramesPerBuffer : Nat
  outputFramesPerBuffer : Nat
  inputRingBuffer : RingBuffer
  inputSRConverter : Nat
  inputAudioBufferList : AudioBuffer
  blio : PaMacBlio
  userInChan : Int
  userOutChan : Int
  sampleRate : ℚ
  xrunFlags : Nat
  isTimeSet : Bool
  state : StreamState
  deriving DecidableEq, Repr

/-! ## Ring buffer operations used outside the realtime callback -/

/-- Modelled from the spec: `RingBuffer_Flush` of §4.1 (`ringbuffer.c` is not
under `src/`): resets both indices. -/
def RingBuffer_Flush (rbuf : RingBuffer) : RingBuffer :=
  { rbuf with writeIndex := 0, readIndex := 0 }

/-- Modelled from the spec: `RingBuffer_Init` of §4.1 (`ringbuffer.c` is not
under `src/`): attaches the memory, records the size and resets the indices. -/
def RingBuffer_Init (numBytes : Nat) (dataPtr : Nat) : RingBuffer :=
  RingBuffer_Flush { bufferSize := numBytes, writeIndex := 0, readIndex := 0, buffer := dataPtr }

/-- Modelled from the spec: `RingBuffer_AdvanceWriteIndex` of §4.1
(`ringbuffer.c` is not under `src/`): commits `numBytes` written bytes; the
index wraps at twice the buffer size. -/
def RingBuffer_AdvanceWriteIndex (rbuf : RingBuffer) (numBytes : Nat) : RingBuffer :=
  { rbuf with writeIndex := (rbuf.writeIndex + numBytes) % (2 * rbuf.bufferSize) }

/-- Modelled from the spec: `RingBuffer_AdvanceReadIndex` of §4.1
(`ringbuffer.c` is not under `src/`). -/
def RingBuffer_AdvanceReadIndex (rbuf : RingBuffer) (numBytes : Nat) : RingBuffer :=
  { rbuf with readIndex := (rbuf.readIndex + numBytes) % (2 * rbuf.bufferSize) }

/-- Modelled from the spec: `RingBuffer_GetReadAvailable` of §4.1
(`ringbuffer.c` is not under `src/`): the distance from the read index to the
write index, modulo twice the buffer size. -/
def RingBuffer_GetReadAvailable (rbuf : RingBuffer) : Nat :=
  (rbuf.writeIndex + 2 * rbuf.bufferSize - rbuf.readIndex % (2 * rbuf.bufferSize))
    % (2 * rbuf.bufferSize)

/-- Modelled from the spec: `RingBuffer_GetWriteAvailable` of §4.1
(`ringbuffer.c` is not under `src/`). -/
def RingBuffer_GetWriteAvailable (rbuf : RingBuffer) : Nat :=
  rbuf.bufferSize - RingBuffer_GetReadAvailable rbuf

/-! ## Opening one audio unit -/

/-- What the platform and the helpers of `pa_mac_core_utilities.c` answer
during one run of `OpenAndSetupOneAudioUnit`, one field per call site (each is
executed at most once per run). An `Int` is the `OSStatus`/`ComponentResult`
returned; `0` is success. -/
structure UnitReplies where
  /-- `FindNextComponent` found the AUHAL component. -/
  findNextComponent : Bool
  openAComponent : Int
  enableInput : Int
  disableOutput : Int
  setInputDevice : Int
  setOutputDevice : Int
  /-- Result of `setBestFramesPerBuffer` and the value it stores. -/
  setBestFramesPerBuffer : PaError
  actualFramesPerBuffer : Nat
  setBestSampleRateForDevice : PaError
  setRenderQuality : Int
  setOutputStreamFormat : Int
  getInputStreamFormat : Int
  setInputStreamFormat : Int
  setOutputMaximumFramesPerSlice : Int
  getOutputMaximumFramesPerSlice : Int
  /-- The value `AudioUnitGetProperty` reads back into
  `*actualOutputFramesPerBuffer`. -/
  outputMaximumFramesPerSlice : Nat
  setInputMaximumFramesPerSlice : Int
  getSourceFormat : Int
  /-- `sourceFormat.mSampleRate` as read back from the unit. -/
  sourceSampleRate : ℚ
  audioConverterNew : Int
  audioConverterSetProperty : Int
  setCallback : Int
  setInputCallback : Int
  audioUnitInitialize : Int

/-- The locals and out-parameters of `OpenAndSetupOneAudioUnit` while it runs.
`failed` records that control has reached the label `error`. -/
structure Setup where
  world : World
  audioUnit : Nat
  srConverter : Nat
  audioDevice : Nat
  actualInputFramesPerBuffer : Nat
  actualOutputFramesPerBuffer : Nat
  result : Int
  paResult : PaError
  failed : Bool
  deriving DecidableEq, Repr

namespace Setup

/-- Statements after a `goto error` are not executed. -/
def step (s : Setup) (f : Setup → Setup) : Setup := if s.failed then s else f s

/-- `#define ERR_WRAP(mac_err) do { result = mac_err ; line = __LINE__ ;
if ( result != noErr ) goto error ; } while(0)`, `result` being an `OSErr`. -/
def ERR_WRAP (s : Setup) (c : Call) (mac_err : Int) : Setup :=
  s.step fun s =>
    { s with world := s.world.log c, result := toOSErr mac_err,
             failed := toOSErr mac_err != noErr }

/-- `paResult = ...; if( paResult ) goto error;`. -/
def paCheck (s : Setup) (c : Call) (paResult : PaError) : Setup :=
  s.step fun s =>
    { s with world := s.world.log c, paResult := paResult, failed := paResult != paNoError }

/-- `*audioDevice = device;`. -/
def setAudioDevice (s : Setup) (device : Nat) : Setup :=
  s.step fun s => { s with audioDevice := device }

/-- `result = 0;` (line 726). -/
def clearResult (s : Setup) : Setup := s.step fun s => { s with result := 0 }

/-- `*actualInputFramesPerBuffer = frames;`. -/
def setActualInput (s : Setup) (frames : Nat) : Setup :=
  s.step fun s => { s with actualInputFramesPerBuffer := frames }

/-- `*actualOutputFramesPerBuffer = frames;`. -/
def setActualOutput (s : Setup) (frames : Nat) : Setup :=
  s.step fun s => { s with actualOutputFramesPerBuffer := frames }

/-- `*actualOutputFramesPerBuffer = *actualInputFramesPerBuffer;`. -/
def copyActualInputToOutput (s : Setup) : Setup :=
  s.step fun s => { s with actualOutputFramesPerBuffer := s.actualInputFramesPerBuffer }

end Setup

/-- What `OpenAndSetupOneAudioUnit` returns and leaves in its out-parameters. -/
structure UnitResult where
  paResult : PaError
  audioUnit : Nat
  srConverter : Nat
  audioDevice : Nat
  actualInputFramesPerBuffer : Nat
  actualOutputFramesPerBuffer : Nat
  world : World
  deriving DecidableEq, Repr

/-- `OpenAndSetupOneAudioUnit`, first part: enabling and disabling the I/O
endpoints and binding the unit to the device(s). -/
def OpenAndSetupOneAudioUnit.setDevices
    (inStreamParams outStreamParams : Option PaStreamParameters)
    (auhalHostApi : PaMacAUHAL) (r : UnitReplies) (unit : Nat) (s : Setup) : Setup :=
  /- -- if there is input, we have to explicitly enable input -- -/
  (if inStreamParams.isSome then
      s.ERR_WRAP (Call.AudioUnitSetProperty unit Property.EnableInputOutput Scope.Input INPUT_ELEMENT)
        r.enableInput
    else s)
  /- -- if there is no output, we must explicitly disable output -- -/
  |> (fun s => if outStreamParams.isNone then
      s.ERR_WRAP (Call.AudioUnitSetProperty unit Property.EnableInputOutput Scope.Output OUTPUT_ELEMENT)
        r.disableOutput
    else s)
  /- -- set the devices -- -/
  |> (fun s => match inStreamParams with
    | some p =>
      (s.setAudioDevice (auhalHostApi.devId p.device)).ERR_WRAP
        (Call.AudioUnitSetProperty unit Property.CurrentDevice Scope.Global INPUT_ELEMENT)
        r.setInputDevice
    | none => s)
  |> (fun s => match outStreamParams with
    | some p =>
      (s.setAudioDevice (auhalHostApi.devId p.device)).ERR_WRAP
        (Call.AudioUnitSetProperty unit Property.CurrentDevice Scope.Global OUTPUT_ELEMENT)
        r.setOutputDevice
    | none => s)
  /- -- set format -- -/
  |> (fun s => s.clearResult)

/-- `macInputStreamFlags` / `macOutputStreamFlags`: the user's API specific
flags if they set any, `paMacCorePlayNice` otherwise. -/
def macStreamFlags (streamParams : Option PaStreamParameters) : Nat :=
  match streamParams with
  | some p => p.hostApiSpecificStreamInfo.getD paMacCorePlayNice
  | none => paMacCorePlayNice

/-- `OpenAndSetupOneAudioUnit`, second part: frames per buffer and sample
rate of the device ("set device format first, but only touch the device if the
user asked"). -/
def OpenAndSetupOneAudioUnit.setDeviceFormat
    (inStreamParams outStreamParams : Option PaStreamParameters)
    (requestedFramesPerBuffer : Nat) (hasActualIn hasActualOut : Bool)
    (r : UnitReplies) (s : Setup) : Setup :=
  (if inStreamParams.isSome then
      ((s.paCheck
          (Call.setBestFramesPerBuffer s.audioDevice false requestedFramesPerBuffer)
          r.setBestFramesPerBuffer).setActualInput r.actualFramesPerBuffer)
      |> (fun s =>
        if macStreamFlags inStreamParams &&& paMacCore_ChangeDeviceParameters != 0 then
          s.paCheck (Call.setBestSampleRateForDevice s.audioDevice false
              (macStreamFlags inStreamParams &&& paMacCore_FailIfConversionRequired != 0))
            r.setBestSampleRateForDevice
        else s)
      |> (fun s =>
        if hasActualIn && hasActualOut then s.copyActualInputToOutput else s)
    else s)
  |> (fun s => if outStreamParams.isSome && inStreamParams.isNone then
      ((s.paCheck
          (Call.setBestFramesPerBuffer s.audioDevice true requestedFramesPerBuffer)
          r.setBestFramesPerBuffer).setActualOutput r.actualFramesPerBuffer)
      |> (fun s =>
        if macStreamFlags outStreamParams &&& paMacCore_ChangeDeviceParameters != 0 then
          s.paCheck (Call.setBestSampleRateForDevice s.audioDevice true
              (macStreamFlags outStreamParams &&& paMacCore_FailIfConversionRequired != 0))
            r.setBestSampleRateForDevice
        else s)
    else s)

/-- `OpenAndSetupOneAudioUnit`, third part: render quality, stream formats
and `MaximumFramesPerSlice` of the unit. -/
def OpenAndSetupOneAudioUnit.setUnitFormat
    (inStreamParams outStreamParams : Option PaStreamParameters)
    (r : UnitReplies) (unit : Nat) (s : Setup) : Setup :=
  /- -- set the quality of the output converter -- -/
  (if outStreamParams.isSome then
      s.ERR_WRAP (Call.AudioUnitSetProperty unit Property.RenderQuality Scope.Global OUTPUT_ELEMENT)
        r.setRenderQuality
    else s)
  /- now set the format on the Audio Units. -/
  |> (fun s => if outStreamParams.isSome then
      s.ERR_WRAP (Call.AudioUnitSetProperty unit Property.StreamFormat Scope.Input OUTPUT_ELEMENT)
        r.setOutputStreamFormat
    else s)
  |> (fun s => if inStreamParams.isSome then
      (s.ERR_WRAP (Call.AudioUnitGetProperty unit Property.StreamFormat Scope.Input INPUT_ELEMENT)
        r.getInputStreamFormat).ERR_WRAP
        (Call.AudioUnitSetProperty unit Property.StreamFormat Scope.Output INPUT_ELEMENT)
        r.setInputStreamFormat
    else s)
  /- set the maximumFramesPerSlice -/
  |> (fun s => if outStreamParams.isSome then
      ((s.ERR_WRAP
        (Call.AudioUnitSetProperty unit Property.MaximumFramesPerSlice Scope.Input OUTPUT_ELEMENT)
        r.setOutputMaximumFramesPerSlice).setActualOutput
        r.outputMaximumFramesPerSlice).ERR_WRAP
        (Call.AudioUnitGetProperty unit Property.MaximumFramesPerSlice Scope.Global OUTPUT_ELEMENT)
        r.getOutputMaximumFramesPerSlice
    else s)
  |> (fun s => if inStreamParams.isSome then
      s.ERR_WRAP
        (Call.AudioUnitSetProperty unit Property.MaximumFramesPerSlice Scope.Output INPUT_ELEMENT)
        r.setInputMaximumFramesPerSlice
    else s)

/-- `AudioConverterNew( &sourceFormat, &desiredFormat, srConverter )` answering
`status`: a converter is created, and `*srConverter` written, on success. -/
def Setup.audioConverterNew (s : Setup) (status : Int) : Setup :=
  (s.step fun s =>
    if status = 0 then
      { s with srConverter := s.world.next,
               world := (s.world.bump).acquire (Resource.converter s.world.next) }
    else s)
  |> (fun s => s.ERR_WRAP (Call.AudioConverterNew s.srConverter) status)

/-- `OpenAndSetupOneAudioUnit`, fourth part: the sample-rate converter, the
callbacks and the initialisation of the unit. -/
def OpenAndSetupOneAudioUnit.setConverterAndCallbacks
    (inStreamParams outStreamParams : Option PaStreamParameters) (sampleRate : ℚ)
    (r : UnitReplies) (unit : Nat) (s : Setup) : Setup :=
  /- -- if we have input, we may need to setup an SR converter -- -/
  (if inStreamParams.isSome then
      (s.ERR_WRAP
        (Call.AudioUnitGetProperty unit Property.StreamFormat Scope.Output INPUT_ELEMENT)
        r.getSourceFormat)
      |> (fun s =>
        if sampleRate ≠ r.sourceSampleRate then
          /- create our converter -/
          (s.audioConverterNew r.audioConverterNew)
          /- Set quality -/
          |> (fun s =>
            s.ERR_WRAP (Call.AudioConverterSetProperty s.srConverter)
              r.audioConverterSetProperty)
        else s)
    else s)
  /- -- set IOProc (callback) -- -/
  |> (fun s => s.ERR_WRAP
    (Call.AudioUnitSetProperty unit
      (if outStreamParams.isSome then Property.SetRenderCallback else Property.SetInputCallback)
      Scope.Output (if outStreamParams.isSome then OUTPUT_ELEMENT else INPUT_ELEMENT))
    r.setCallback)
  |> (fun s =>
    if inStreamParams.isSome && outStreamParams.isSome && s.srConverter != 0 then
      s.ERR_WRAP (Call.AudioUnitSetProperty unit Property.SetInputCallback Scope.Output INPUT_ELEMENT)
        r.setInputCallback
    else s)
  /- initialize the audio unit -/
  |> (fun s => s.ERR_WRAP (Call.AudioUnitInitialize unit) r.audioUnitInitialize)

/-- The end of `OpenAndSetupOneAudioUnit`: `return paNoError`, or the code
after the label `error`. -/
def OpenAndSetupOneAudioUnit.finish (setError : Int → PaError) (s : Setup) : UnitResult :=
  if !s.failed then
    ⟨paNoError, s.audioUnit, s.srConverter, s.audioDevice, s.actualInputFramesPerBuffer,
      s.actualOutputFramesPerBuffer, s.world⟩
  else
    /- error: CloseComponent( *audioUnit ); *audioUnit = NULL; -/
    ⟨if s.result != 0 then setError s.result else s.paResult, 0, s.srConverter, s.audioDevice,
      s.actualInputFramesPerBuffer, s.actualOutputFramesPerBuffer,
      (s.world.log (Call.CloseComponent s.audioUnit)).release (Resource.audioUnit s.audioUnit)⟩

/-- `OpenAndSetupOneAudioUnit`. `hasActualIn`, `hasActualOut` tell whether the
pointers `actualInputFramesPerBuffer`, `actualOutputFramesPerBuffer` are
non-`NULL`; the values pointed to start at `0`, as `*srConverter` does
(`OpenStream` pre-nulls them). `setError` is `PaMacCore_SetError`
(`pa_mac_core_utilities.c`), taken as a parameter. -/
def OpenAndSetupOneAudioUnit (setError : Int → PaError)
    (inStreamParams outStreamParams : Option PaStreamParameters)
    (requestedFramesPerBuffer : Nat) (hasActualIn hasActualOut : Bool)
    (auhalHostApi : PaMacAUHAL) (sampleRate : ℚ)
    (r : UnitReplies) (w : World) : UnitResult :=
  /- -- handle the degenerate case -- -/
  if inStreamParams.isNone && outStreamParams.isNone then
    ⟨paNoError, 0, 0, kAudioDeviceUnknown, 0, 0, w⟩
  /- -- find the component -- -/
  else if !r.findNextComponent then
    ⟨paUnanticipatedHostError, 0, 0, kAudioDeviceUnknown, 0, 0, w.log Call.FindNextComponent⟩
  /- -- open it -- -/
  else if toOSErr r.openAComponent != noErr then
    ⟨setError (toOSErr r.openAComponent), 0, 0, kAudioDeviceUnknown, 0, 0,
      (w.log Call.FindNextComponent).log (Call.OpenAComponent 0)⟩
  else
    OpenAndSetupOneAudioUnit.finish setError
      (OpenAndSetupOneAudioUnit.setConverterAndCallbacks inStreamParams outStreamParams
        sampleRate r w.next
        (OpenAndSetupOneAudioUnit.setUnitFormat inStreamParams outStreamParams r w.next
          (OpenAndSetupOneAudioUnit.setDeviceFormat inStreamParams outStreamParams
            requestedFramesPerBuffer hasActualIn hasActualOut r
            (OpenAndSetupOneAudioUnit.setDevices inStreamParams outStreamParams auhalHostApi r
              w.next
              ⟨(((w.log Call.FindNextComponent).bump).log (Call.OpenAComponent w.next)).acquire
                  (Resource.audioUnit w.next),
                w.next, 0, kAudioDeviceUnknown, 0, 0, toOSErr r.openAComponent, paNoError,
                false⟩))))

/-! ## CloseStream -/

/-- `if( c ) { calls }` where the calls release the resource `r`: a resource
counts as released once its release call has been issued. -/
def World.releaseIf (w : World) (c : Prop) [Decidable c] (calls : List Call) (r : Resource) :
    World :=
  { trace := if c then w.trace ++ calls else w.trace
    held := if c then w.held.erase r else w.held
    fresh := w.fresh }

/-- Modelled from the spec: `destroyBlioRingBuffers` (`pa_mac_core_blocking.c`
is not under `src/`), "destroy blocking-I/O ring buffers". `reply` is the
`PaError` it returns; the buffers count as released when it reports no
error. -/
def destroyBlioRingBuffers (blio : PaMacBlio) (reply : PaError) (w : World) : World :=
  (w.log Call.destroyBlioRingBuffers).releaseIf (reply = paNoError ∧ blio.allocated = true) []
    Resource.blioBuffers

/-- `CloseStream`, lines 1854-1857: what follows `if( result ) return result;`. -/
def CloseStream.terminate (stream : PaMacCoreStream) (w : World) : World :=
  (((w.releaseIf (stream.bufferProcessorIsInitialized = true)
      [Call.PaUtil_TerminateBufferProcessor] Resource.bufferProcessor).log
    Call.PaUtil_TerminateStreamRepresentation).release Resource.streamRepresentation).log
    (Call.PaUtil_FreeMemory stream.self)
  |> (fun w => w.release (Resource.streamObject stream.self))

/-- `CloseStream`, lines 1828-1851: the units, the ring buffer memory, the
converter, the input buffer and the blocking-I/O buffers. -/
def CloseStream.release (stream : PaMacCoreStream) (destroyBlio : PaError) (w : World) : World :=
  (w.releaseIf (stream.outputUnit ≠ 0 ∧ stream.outputUnit ≠ stream.inputUnit)
    [Call.AudioUnitUninitialize stream.outputUnit, Call.CloseComponent stream.outputUnit]
    (Resource.audioUnit stream.outputUnit))
  |> (fun w => w.releaseIf (stream.inputUnit ≠ 0)
    [Call.AudioUnitUninitialize stream.inputUnit, Call.CloseComponent stream.inputUnit]
    (Resource.audioUnit stream.inputUnit))
  |> (fun w => w.releaseIf (stream.inputRingBuffer.buffer ≠ 0)
    [Call.free stream.inputRingBuffer.buffer] (Resource.memory stream.inputRingBuffer.buffer))
  |> (fun w => w.releaseIf (stream.inputSRConverter ≠ 0)
    [Call.AudioConverterDispose stream.inputSRConverter]
    (Resource.converter stream.inputSRConverter))
  |> (fun w => w.releaseIf (stream.inputAudioBufferList.mData ≠ 0)
    [Call.free stream.inputAudioBufferList.mData]
    (Resource.memory stream.inputAudioBufferList.mData))
  |> (fun w => destroyBlioRingBuffers stream.blio destroyBlio w)

/-- `CloseStream`. `destroyBlio` is what `destroyBlioRingBuffers` returns. The
stream object is not returned: it is freed, or unreachable after the early
return. -/
def CloseStream (s : Option PaMacCoreStream) (destroyBlio : PaError) (w : World) :
    PaError × World :=
  match s with
  | none => (paNoError, w)
  | some stream =>
    if destroyBlio ≠ paNoError then
      /- result = destroyBlioRingBuffers( &stream->blio ); if( result ) return result; -/
      (destroyBlio, CloseStream.release stream destroyBlio w)
    else
      (paNoError, CloseStream.terminate stream (CloseStream.release stream destroyBlio w))

/-! ## OpenStream -/

/-- Reply of `AudioDeviceGetProperty( ..., kAudioDevicePropertyBufferFrameSizeRange,
... )`: the status and the `AudioValueRange` left in `audioRange`. -/
structure RangeReply where
  status : Int
  mMinimum : ℚ
  mMaximum : ℚ

/-- What the platform and the helpers answer during one `OpenStream`. -/
structure OpenReplies where
  /-- `PaUtil_AllocateMemory`: `none` for `NULL`, else the (arbitrary) content
  of the memory returned. -/
  allocateStream : Option PaMacCoreStream
  inputRange : RangeReply
  outputRange : RangeReply
  /-- Replies to the first call of `OpenAndSetupOneAudioUnit`. -/
  firstUnit : UnitReplies
  /-- Replies to the second call (two devices, or simplex). -/
  secondUnit : UnitReplies
  /-- `calloc` of the input scratch buffer returned non-`NULL`. -/
  callocScratch : Bool
  /-- Result of `computeRingBufferSize`. -/
  ringSize : Nat
  /-- `calloc` of the ring buffer memory returned non-`NULL`. -/
  callocRing : Bool
  initializeBlioRingBuffers : PaError
  initializeBufferProcessor : PaError
  /-- `destroyBlioRingBuffers` in the rollback by `CloseStream`. -/
  destroyBlioRingBuffers : PaError

/-- Lines 995-1017 of `OpenStream`: the checks on `inputParameters`; `some e`
when `OpenStream` returns `e` there. -/
def OpenStream.checkInput (hostApi : PaMacAUHAL) (inputParameters : Option PaStreamParameters) :
    Option PaError :=
  match inputParameters with
  | some p =>
    if p.device = paUseHostApiSpecificDeviceSpecification then some paInvalidDevice
    /- check that input device can support inputChannelCount -/
    else if p.channelCount > (hostApi.deviceInfo p.device).maxInputChannels then
      some paInvalidChannelCount
    else none
  | none => none

/-- Lines 1019-1041 of `OpenStream`: the checks on `outputParameters`. -/
def OpenStream.checkOutput (hostApi : PaMacAUHAL) (outputParameters : Option PaStreamParameters) :
    Option PaError :=
  match outputParameters with
  | some p =>
    if p.device = paUseHostApiSpecificDeviceSpecification then some paInvalidDevice
    else if p.channelCount > (hostApi.deviceInfo p.device).maxOutputChannels then
      some paInvalidChannelCount
    else none
  | none => none

/-- `requested = MAX( requested, parameters->suggestedLatency * sampleRate / 2 )`
when the parameters are present. -/
def OpenStream.requestedFor (requested : Int) (parameters : Option PaStreamParameters)
    (sampleRate : ℚ) : Int :=
  match parameters with
  | some p => MAX requested (p.suggestedLatency * sampleRate / 2)
  | none => requested

/-- Lines 1095-1156 of `OpenStream`, "handle paFramesPerBufferUnspecified": the
value given to `framesPerBuffer`. -/
def OpenStream.unspecifiedFramesPerBuffer
    (inputParameters outputParameters : Option PaStreamParameters) (sampleRate : ℚ)
    (inputRange outputRange : RangeReply) : Nat :=
  let requested : Int :=
    OpenStream.requestedFor (OpenStream.requestedFor 64 inputParameters sampleRate)
      outputParameters sampleRate
  let requested : Int :=
    if requested ≤ 64 then
      /- requested a realtively low latency. make sure this is in range of devices -/
      (if inputParameters.isSome ∧ inputRange.status ≠ 0 then MAX requested inputRange.mMinimum
        else requested)
      |> (fun requested =>
        if outputParameters.isSome ∧ outputRange.status ≠ 0 then
          MAX requested outputRange.mMinimum
        else requested)
    else
      /- requested a realtively high latency. make sure this is in range of devices -/
      (min requested 1024)
      |> (fun requested =>
        if inputParameters.isSome ∧ inputRange.status ≠ 0 then MIN requested inputRange.mMaximum
        else requested)
      |> (fun requested =>
        if outputParameters.isSome ∧ outputRange.status ≠ 0 then
          MIN requested outputRange.mMaximum
        else requested)
  /- -- double check ranges -- -/
  let requested : Int := if requested > 1024 then 1024 else requested
  let requested : Int := if requested < 64 then 64 else requested
  requested.toNat

/-- The two `AudioDeviceGetProperty` queries of the same lines. -/
def OpenStream.logRangeQueries (auhalHostApi : PaMacAUHAL)
    (inputParameters outputParameters : Option PaStreamParameters) (w : World) : World :=
  (match inputParameters with
    | some p => w.log (Call.AudioDeviceGetProperty (auhalHostApi.devId p.device))
    | none => w)
  |> (fun w => match outputParameters with
    | some p => w.log (Call.AudioDeviceGetProperty (auhalHostApi.devId p.device))
    | none => w)

/-- `framesPerBuffer` after lines 1095-1156. -/
def OpenStream.resolveFramesPerBuffer
    (inputParameters outputParameters : Option PaStreamParameters) (sampleRate : ℚ)
    (framesPerBuffer : Nat) (inputRange outputRange : RangeReply) : Nat :=
  if framesPerBuffer = paFramesPerBufferUnspecified then
    OpenStream.unspecifiedFramesPerBuffer inputParameters outputParameters sampleRate
      inputRange outputRange
  else framesPerBuffer

/-- The stream and the world while `OpenStream` runs; `failed` records that
control has reached the label `error`, with `result` set. -/
structure Opening where
  result : PaError
  failed : Bool
  stream : PaMacCoreStream
  world : World

namespace Opening

def step (o : Opening) (f : Opening → Opening) : Opening := if o.failed then o else f o

/-- `result = e; goto error;`. -/
def fail (o : Opening) (e : PaError) : Opening := { o with result := e, failed := true }

/-- `result = ...; if( result != paNoError ) goto error;`. -/
def check (o : Opening) (e : PaError) : Opening :=
  { o with result := e, failed := e != paNoError }

end Opening

/-- Lines 1060-1092 of `OpenStream`: the fields are pre-nulled "so that if we
fail, we know what hasn't been touched", then the stream representation and
the CPU load measurer are initialised. `garbage` is the content of the fresh
memory, `self` its address. -/
def OpenStream.prepare (garbage : PaMacCoreStream) (streamCallback : Bool) (w : World) :
    Opening :=
  { result := paNoError
    failed := false
    stream :=
      { garbage with
        self := w.next
        inputAudioBufferList := { garbage.inputAudioBufferList with mData := 0 }
        inputRingBuffer := { garbage.inputRingBuffer with buffer := 0 }
        blio := { allocated := false }
        inputSRConverter := 0
        inputUnit := 0
        outputUnit := 0
        inputFramesPerBuffer := 0
        outputFramesPerBuffer := 0
        bufferProcessorIsInitialized := false }
    world :=
      (((((w.bump).log (Call.PaUtil_AllocateMemory w.next)).acquire
        (Resource.streamObject w.next)).log
        (Call.PaUtil_InitializeStreamRepresentation streamCallback)).acquire
        Resource.streamRepresentation).log Call.PaUtil_InitializeCpuLoadMeasurer }

/-- Lines 1158-1205 of `OpenStream`, "Now we actually open and setup streams". -/
def OpenStream.openUnits (setError : Int → PaError) (auhalHostApi : PaMacAUHAL)
    (inputParameters outputParameters : Option PaStreamParameters) (sampleRate : ℚ)
    (framesPerBuffer : Nat) (r : OpenReplies) (o : Opening) : Opening :=
  if inputParameters.isSome ∧ outputParameters.isSome ∧
      outputParameters.map (·.device) = inputParameters.map (·.device) then
    /- full duplex. One device. -/
    (OpenAndSetupOneAudioUnit setError inputParameters outputParameters framesPerBuffer
      true true auhalHostApi sampleRate r.firstUnit o.world)
    |> (fun u =>
      ({ o with
          world := u.world
          stream :=
            { o.stream with
              inputFramesPerBuffer := u.actualInputFramesPerBuffer
              outputFramesPerBuffer := u.actualOutputFramesPerBuffer
              inputUnit := u.audioUnit
              inputSRConverter := u.srConverter
              inputDevice := u.audioDevice
              outputUnit := u.audioUnit
              outputDevice := u.audioDevice } } : Opening).check u.paResult)
  else
    /- full duplex, different devices OR simplex -/
    (OpenAndSetupOneAudioUnit setError none outputParameters framesPerBuffer
      false true auhalHostApi sampleRate r.firstUnit o.world)
    |> (fun u =>
      ({ o with
          world := u.world
          stream :=
            { o.stream with
              outputFramesPerBuffer := u.actualOutputFramesPerBuffer
              outputUnit := u.audioUnit
              outputDevice := u.audioDevice } } : Opening).check u.paResult)
    |> (fun o => o.step fun o =>
      (OpenAndSetupOneAudioUnit setError inputParameters none framesPerBuffer
        true false auhalHostApi sampleRate r.secondUnit o.world)
      |> (fun u =>
        ({ o with
            world := u.world
            stream :=
              { o.stream with
                inputFramesPerBuffer := u.actualInputFramesPerBuffer
                inputUnit := u.audioUnit
                inputSRConverter := u.srConverter
                inputDevice := u.audioDevice } } : Opening).check u.paResult))

/-- Lines 1232-1265 of `OpenStream`: the ring buffer, needed "if input and
output devs are different or we are doing SR conversion". -/
def OpenStream.allocateRing (r : OpenReplies) (o : Opening) : Opening :=
  if (o.stream.outputUnit ≠ 0 ∧ o.stream.inputUnit ≠ o.stream.outputUnit)
      ∨ o.stream.inputSRConverter ≠ 0 then
    if !r.callocRing then
      ({ o with world := (o.world.log Call.computeRingBufferSize).log (Call.calloc 0) } :
        Opening).fail paInsufficientMemory
    else
      { o with
        world := ((((o.world.log Call.computeRingBufferSize).bump).log
          (Call.calloc o.world.next)).acquire (Resource.memory o.world.next))
        stream :=
          { o.stream with
            inputRingBuffer :=
              /- advance the read point a little, so we are reading from the
                 middle of the buffer -/
              if o.stream.outputUnit ≠ 0 then
                RingBuffer_AdvanceWriteIndex (RingBuffer_Init (r.ringSize * 4) o.world.next)
                  (r.ringSize * 4 / RING_BUFFER_ADVANCE_DENOMINATOR)
              else RingBuffer_Init (r.ringSize * 4) o.world.next } }
  else o

/-- Lines 1207-1266 of `OpenStream`: the `AudioBufferList` used for input and
the ring buffer. -/
def OpenStream.allocateInputBuffers (inputChannelCount : Int) (r : OpenReplies) (o : Opening) :
    Opening :=
  if o.stream.inputUnit ≠ 0 then
    if !r.callocScratch then
      ({ o with
          world := o.world.log (Call.calloc 0)
          stream :=
            { o.stream with
              inputAudioBufferList :=
                { mNumberChannels := inputChannelCount.toNat
                  mDataByteSize :=
                    o.stream.inputFramesPerBuffer * inputChannelCount.toNat * 4
                  mData := 0 } } } : Opening).fail paInsufficientMemory
    else
      OpenStream.allocateRing r
        { o with
          world := (((o.world.bump).log (Call.calloc o.world.next)).acquire
            (Resource.memory o.world.next))
          stream :=
            { o.stream with
              inputAudioBufferList :=
                { mNumberChannels := inputChannelCount.toNat
                  mDataByteSize :=
                    o.stream.inputFramesPerBuffer * inputChannelCount.toNat * 4
                  mData := o.world.next } } }
  else o

/-- Lines 1268-1313 of `OpenStream`: the blocking-I/O ring buffers (only when
no callback was given) and the buffer processor. -/
def OpenStream.initializeProcessors (inputChannelCount outputChannelCount : Int)
    (framesPerBuffer : Nat) (streamCallback : Bool) (r : OpenReplies) (o : Opening) : Opening :=
  /- -- initialize Blio Buffer Processors -- -/
  (if !streamCallback then
      if r.initializeBlioRingBuffers = paNoError then
        ({ o with
            world := (((o.world.log Call.computeRingBufferSize).log
              Call.initializeBlioRingBuffers).acquire Resource.blioBuffers)
            stream := { o.stream with blio := { allocated := true } } } : Opening).check
          r.initializeBlioRingBuffers
      else
        ({ o with
            world := (o.world.log Call.computeRingBufferSize).log
              Call.initializeBlioRingBuffers } : Opening).check r.initializeBlioRingBuffers
    else o)
  /- -- initialize Buffer Processor -- -/
  |> (fun o => o.step fun o =>
    (({ o with
        world := o.world.log
          (Call.PaUtil_InitializeBufferProcessor inputChannelCount outputChannelCount
            framesPerBuffer
            (if o.stream.outputFramesPerBuffer > o.stream.inputFramesPerBuffer then
              o.stream.outputFramesPerBuffer
            else o.stream.inputFramesPerBuffer)
            (o.stream.inputSRConverter != 0)) } : Opening).check
      r.initializeBufferProcessor)
    |> (fun o => o.step fun o =>
      { o with
        world := o.world.acquire Resource.bufferProcessor
        stream := { o.stream with bufferProcessorIsInitialized := true } }))

/-- What `OpenStream` returns: its result, and the value written to `*s`
(`none` when `*s` is not written). -/
structure OpenResult where
  result : PaError
  s : Option PaMacCoreStream
  world : World

/-- Lines 1060-1156 of `OpenStream`: the stream after the pre-nulling, with
the range queries of "handle paFramesPerBufferUnspecified" made. -/
def OpenStream.started (hostApi : PaMacAUHAL)
    (inputParameters outputParameters : Option PaStreamParameters) (framesPerBuffer : Nat)
    (streamCallback : Bool) (garbage : PaMacCoreStream) (w : World) : Opening :=
  if framesPerBuffer = paFramesPerBufferUnspecified then
    { OpenStream.prepare garbage streamCallback w with
      world := OpenStream.logRangeQueries hostApi inputParameters outputParameters
        (OpenStream.prepare garbage streamCallback w).world }
  else OpenStream.prepare garbage streamCallback w

/-- `OpenStream` from the pre-nulling of the fresh stream to the
initialisation of the buffer processor (lines 1060-1313): everything that can
`goto error`. `garbage` is the content of the memory `PaUtil_AllocateMemory`
returned. -/
def OpenStream.acquire (setError : Int → PaError) (hostApi : PaMacAUHAL)
    (inputParameters outputParameters : Option PaStreamParameters) (sampleRate : ℚ)
    (framesPerBuffer : Nat) (streamCallback : Bool) (r : OpenReplies)
    (garbage : PaMacCoreStream) (w : World) : Opening :=
  (OpenStream.started hostApi inputParameters outputParameters framesPerBuffer streamCallback
    garbage w)
  |> (OpenStream.openUnits setError hostApi inputParameters outputParameters sampleRate
      (OpenStream.resolveFramesPerBuffer inputParameters outputParameters sampleRate
        framesPerBuffer r.inputRange r.outputRange) r)
  |> (fun o => o.step
      (OpenStream.allocateInputBuffers
        ((inputParameters.map (·.channelCount)).getD 0) r))
  |> (fun o => o.step
      (OpenStream.initializeProcessors
        ((inputParameters.map (·.channelCount)).getD 0)
        ((outputParameters.map (·.channelCount)).getD 0)
        (OpenStream.resolveFramesPerBuffer inputParameters outputParameters sampleRate
          framesPerBuffer r.inputRange r.outputRange) streamCallback r))

/-- `OpenStream` from the allocation of the stream on (lines 1047-1342).
`streamCallback` tells whether the callback pointer is non-`NULL`. -/
def OpenStream.open (setError : Int → PaError) (hostApi : PaMacAUHAL)
    (inputParameters outputParameters : Option PaStreamParameters) (sampleRate : ℚ)
    (framesPerBuffer : Nat) (streamCallback : Bool) (r : OpenReplies) (w : World) :
    OpenResult :=
  match r.allocateStream with
  | none =>
    /- result = paInsufficientMemory; goto error; with stream == NULL -/
    ⟨paInsufficientMemory, none,
      (CloseStream none r.destroyBlioRingBuffers (w.log (Call.PaUtil_AllocateMemory 0))).2⟩
  | some garbage =>
    (OpenStream.acquire setError hostApi inputParameters outputParameters sampleRate
      framesPerBuffer streamCallback r garbage w)
    |> (fun o =>
      if !o.failed then
        /- lines 1327-1337 -/
        ⟨o.result,
          some { o.stream with
            sampleRate := sampleRate
            userInChan := (inputParameters.map (·.channelCount)).getD 0
            userOutChan := (outputParameters.map (·.channelCount)).getD 0
            isTimeSet := false
            state := STOPPED
            xrunFlags := 0 },
          o.world⟩
      else
        /- error: CloseStream( stream ); return result; -/
        ⟨o.result, none, (CloseStream (some o.stream) r.destroyBlioRingBuffers o.world).2⟩)

/-- `OpenStream`. -/
def OpenStream (setError : Int → PaError) (hostApi : PaMacAUHAL)
    (inputParameters outputParameters : Option PaStreamParameters) (sampleRate : ℚ)
    (framesPerBuffer : Nat) (streamFlags : Nat) (streamCallback : Bool)
    (r : OpenReplies) (w : World) : OpenResult :=
  match OpenStream.checkInput hostApi inputParameters with
  | some e => ⟨e, none, w⟩
  | none =>
    match OpenStream.checkOutput hostApi outputParameters with
    | some e => ⟨e, none, w⟩
    | none =>
      /- validate platform specific flags -/
      if streamFlags &&& paPlatformSpecificFlags ≠ 0 then ⟨paInvalidFlag, none, w⟩
      else
        OpenStream.open setError hostApi inputParameters outputParameters sampleRate
          framesPerBuffer streamCallback r w

/-! ## IsFormatSupported -/

/-- The checks of `IsFormatSupported` on one direction (lines 499-518 for the
input, 524-544 for the output); `maxChannels` is the device's maximum for that
direction. -/
def IsFormatSupported.check (parameters : Option PaStreamParameters)
    (maxChannels : Int → Int) : Option PaError :=
  match parameters with
  | some p =>
    /- this implementation doesn't support any custom sample formats -/
    if p.sampleFormat &&& paCustomFormat ≠ 0 then some paSampleFormatNotSupported
    else if p.device = paUseHostApiSpecificDeviceSpecification then some paInvalidDevice
    else if p.channelCount > maxChannels p.device then some paInvalidChannelCount
    else none
  | none => none

/-- `IsFormatSupported`: the standard checks, then "the following code opens
the device with the requested parameters to see if it works". `closeReply` is
what `destroyBlioRingBuffers` answers in the final `CloseStream`. -/
def IsFormatSupported (setError : Int → PaError) (hostApi : PaMacAUHAL)
    (inputParameters outputParameters : Option PaStreamParameters) (sampleRate : ℚ)
    (r : OpenReplies) (closeReply : PaError) (w : World) : PaError × World :=
  match IsFormatSupported.check inputParameters
      (fun d => (hostApi.deviceInfo d).maxInputChannels) with
  | some e => (e, w)
  | none =>
    match IsFormatSupported.check outputParameters
        (fun d => (hostApi.deviceInfo d).maxOutputChannels) with
    | some e => (e, w)
    | none =>
      (OpenStream setError hostApi inputParameters outputParameters sampleRate 1024 0 true r w)
      |> (fun o =>
        if o.result ≠ paNoError then (o.result, o.world)
        else (paFormatIsSupported, (CloseStream o.s closeReply o.world).2))

/-! ## StartStream, StopStream, AbortStream -/

/-- A control-plane call in progress; `returned` is `some e` once the function
has executed `return e`. -/
structure Control where
  stream : PaMacCoreStream
  world : World
  returned : Option PaError
  deriving DecidableEq, Repr

namespace Control

def step (c : Control) (f : Control → Control) : Control :=
  match c.returned with
  | some _ => c
  | none => f c

/-- `#define ERR_WRAP(mac_err) do { result = mac_err ; if ( result != noErr )
return ERR(result) ; } while(0)` of `StartStream` and `StopStream`, `result`
being an `OSErr` and `ERR` being `PaMacCore_SetError`. -/
def ERR_WRAP (c : Control) (setError : Int → PaError) (call : Call) (mac_err : Int) : Control :=
  c.step fun c =>
    { c with
      world := c.world.log call
      returned := if toOSErr mac_err != noErr then some (setError (toOSErr mac_err)) else none }

/-- The value returned, `paNoError` when the end of the function is reached. -/
def result (c : Control) : PaError := c.returned.getD paNoError

end Control

/-- Platform statuses during one `StartStream`. -/
structure StartReplies where
  audioConverterReset : Int
  startInput : Int
  startOutput : Int
  deriving DecidableEq, Repr

/-- `StartStream`. -/
def StartStream (setError : Int → PaError) (stream : PaMacCoreStream) (r : StartReplies)
    (w : World) : Control :=
  (⟨stream, w.log Call.PaUtil_ResetBufferProcessor, none⟩ : Control)
  |> (fun c => if c.stream.inputSRConverter ≠ 0 then
      c.ERR_WRAP setError (Call.AudioConverterReset c.stream.inputSRConverter)
        r.audioConverterReset
    else c)
  /- -- start -- -/
  |> (fun c => c.step fun c => { c with stream := { c.stream with state := ACTIVE } })
  |> (fun c => if c.stream.inputUnit ≠ 0 then
      c.ERR_WRAP setError (Call.AudioOutputUnitStart c.stream.inputUnit) r.startInput
    else c)
  |> (fun c =>
    if c.stream.outputUnit ≠ 0 ∧ c.stream.outputUnit ≠ c.stream.inputUnit then
      c.ERR_WRAP setError (Call.AudioOutputUnitStart c.stream.outputUnit) r.startOutput
    else c)

/-- Platform statuses during one `StopStream`, one field per call site, and
the result of `resetBlioRingBuffers`. -/
structure StopReplies where
  /-- Lines 1913-1915: input and output share one unit. -/
  stopShared : Int
  resetSharedInput : Int
  resetSharedOutput : Int
  /-- Lines 1921-1922. -/
  stopInput : Int
  resetInput : Int
  /-- Lines 1926-1927. -/
  stopOutput : Int
  resetOutput : Int
  resetBlioRingBuffers : PaError
  deriving DecidableEq, Repr

/-- `StopStream`, lines 1909-1929: "stop and reset". -/
def StopStream.stopAndReset (setError : Int → PaError) (r : StopReplies) (c : Control) :
    Control :=
  if c.stream.inputUnit = c.stream.outputUnit ∧ c.stream.inputUnit ≠ 0 then
    ((c.ERR_WRAP setError (Call.AudioOutputUnitStop c.stream.inputUnit) r.stopShared).ERR_WRAP
      setError (Call.AudioUnitReset c.stream.inputUnit Scope.Global 1)
      r.resetSharedInput).ERR_WRAP
      setError (Call.AudioUnitReset c.stream.inputUnit Scope.Global 0) r.resetSharedOutput
  else
    (if c.stream.inputUnit ≠ 0 then
        (c.ERR_WRAP setError (Call.AudioOutputUnitStop c.stream.inputUnit) r.stopInput).ERR_WRAP
          setError (Call.AudioUnitReset c.stream.inputUnit Scope.Global 1) r.resetInput
      else c)
    |> (fun c => if c.stream.outputUnit ≠ 0 then
        (c.ERR_WRAP setError (Call.AudioOutputUnitStop c.stream.outputUnit)
          r.stopOutput).ERR_WRAP
          setError (Call.AudioUnitReset c.stream.outputUnit Scope.Global 0) r.resetOutput
      else c)

/-- `StopStream`, lines 1930-1941: the ring buffer is flushed, zeroed and its
write index advanced again. -/
def StopStream.resetRing (stream : PaMacCoreStream) : PaMacCoreStream :=
  if stream.inputRingBuffer.buffer ≠ 0 then
    { stream with
      inputRingBuffer :=
        if stream.outputUnit ≠ 0 then
          RingBuffer_AdvanceWriteIndex (RingBuffer_Flush stream.inputRingBuffer)
            (stream.inputRingBuffer.bufferSize / RING_BUFFER_ADVANCE_DENOMINATOR)
        else RingBuffer_Flush stream.inputRingBuffer }
  else stream

/-- `StopStream`, lines 1930-1944: the ring buffer is reset, then
`stream->xrunFlags = 0; stream->state = STOPPED;`. -/
def StopStream.markStopped (c : Control) : Control :=
  c.step fun c =>
    { c with stream := { StopStream.resetRing c.stream with xrunFlags := 0, state := STOPPED } }

/-- `StopStream`, lines 1946-1948: `paErr = resetBlioRingBuffers( &stream->blio );
if( paErr ) return paErr;`. -/
def StopStream.resetBlocking (r : StopReplies) (c : Control) : Control :=
  c.step fun c =>
    { c with
      world := c.world.log Call.resetBlioRingBuffers
      returned :=
        if r.resetBlioRingBuffers ≠ paNoError then some r.resetBlioRingBuffers else none }

/-- `StopStream` up to the call of `resetBlioRingBuffers` (lines 1895-1944). -/
def StopStream.untilBlocking (setError : Int → PaError) (stream : PaMacCoreStream)
    (r : StopReplies) (w : World) : Control :=
  (⟨{ stream with isTimeSet := false, state := STOPPING },
    w.log Call.waitUntilBlioWriteBufferIsFlushed, none⟩ : Control)
  /- -- stop and reset -- -/
  |> (StopStream.stopAndReset setError r)
  |> StopStream.markStopped

/-- `StopStream`. -/
def StopStream (setError : Int → PaError) (stream : PaMacCoreStream) (r : StopReplies)
    (w : World) : Control :=
  StopStream.resetBlocking r (StopStream.untilBlocking setError stream r w)

/-- `AbortStream`: "We have nothing faster than StopStream." -/
def AbortStream (setError : Int → PaError) (stream : PaMacCoreStream) (r : StopReplies)
    (w : World) : Control :=
  StopStream setError stream r w

/-- `IsStreamStopped`. -/
def IsStreamStopped (stream : PaMacCoreStream) : PaError :=
  if stream.state = STOPPED then 1 else 0

/-- `IsStreamActive`: the C value of `state == ACTIVE || state == STOPPING`. -/
def IsStreamActive (stream : PaMacCoreStream) : PaError :=
  if stream.state = ACTIVE ∨ stream.state = STOPPING then 1 else 0

/-! ## The realtime callback -/

/-- The two regions `RingBuffer_GetReadRegions` hands back: byte offsets into
the buffer memory and sizes. -/
structure Regions where
  data1 : Nat
  size1 : Nat
  data2 : Nat
  size2 : Nat
  deriving DecidableEq, Repr

/-- Modelled from the spec: `RingBuffer_GetReadRegions` of §4.1 (`ringbuffer.c`
is not under `src/`): up to two contiguous regions totalling
`min(req, ReadAvailable())`, the first one starting at the read index and
ending at most at the end of the buffer. -/
def RingBuffer_GetReadRegions (rbuf : RingBuffer) (numBytes : Nat) : Regions :=
  let numBytes := min numBytes (RingBuffer_GetReadAvailable rbuf)
  let index := rbuf.readIndex % rbuf.bufferSize
  if index + numBytes > rbuf.bufferSize then
    ⟨index, rbuf.bufferSize - index, 0, numBytes - (rbuf.bufferSize - index)⟩
  else ⟨index, numBytes, 0, 0⟩

/-- Modelled from the spec: `RingBuffer_Write` (`WriteBytes` of §4.1,
`ringbuffer.c` is not under `src/`): copies up to `numBytes` bytes, never more
than the free space, commits them and returns how many were written. -/
def RingBuffer_Write (rbuf : RingBuffer) (numBytes : Nat) : Nat × RingBuffer :=
  (min numBytes (RingBuffer_GetWriteAvailable rbuf),
    RingBuffer_AdvanceWriteIndex rbuf (min numBytes (RingBuffer_GetWriteAvailable rbuf)))

/-- `ringBufferIOProc`, the supplier of the sample-rate converter: status,
`*ioDataSize` on return, and the ring buffer afterwards. -/
def ringBufferIOProc (rb : RingBuffer) (ioDataSize : Nat) : Int × Nat × RingBuffer :=
  if RingBuffer_GetReadAvailable rb = 0 then (RING_BUFFER_EMPTY, 0, rb)
  else
    (noErr, (RingBuffer_GetReadRegions rb ioDataSize).size1,
      RingBuffer_AdvanceReadIndex rb (RingBuffer_GetReadRegions rb ioDataSize).size1)

/-- What the converter does during one `AudioConverterFillBuffer`: the sizes it
asks its supplier for, in order, the status it returns when the supplier never
reported an empty ring, and the number of bytes it produced. -/
structure FillReply where
  requests : List Nat
  err : Int
  size : Nat

/-- The pulls of one `AudioConverterFillBuffer`: the supplier is called for each
request until it reports `RING_BUFFER_EMPTY`; `true` when it did. -/
def AudioConverterFillBuffer.pull (rb : RingBuffer) : List Nat → Bool × RingBuffer
  | [] => (false, rb)
  | n :: rest =>
    if (ringBufferIOProc rb n).1 = RING_BUFFER_EMPTY then (true, rb)
    else AudioConverterFillBuffer.pull (ringBufferIOProc rb n).2.2 rest

/-- Modelled from the spec: the pull protocol of §4.3 (the converter is
platform code). "If the ring is empty, the supplier returns a distinguished
`EMPTY` status, which the converter propagates up." Returns the status, the
size written back (at most the size asked for) and the ring buffer. -/
def AudioConverterFillBuffer (rb : RingBuffer) (size : Nat) (reply : FillReply) :
    Int × Nat × RingBuffer :=
  (if (AudioConverterFillBuffer.pull rb reply.requests).1 then RING_BUFFER_EMPTY else reply.err,
    min reply.size size, (AudioConverterFillBuffer.pull rb reply.requests).2)

/-- What the platform and the buffer processor answer during one run of
`AudioIOProc`, by the number of the call. -/
structure IOReplies where
  /-- Status of the `n`-th `AudioUnitRender`. -/
  render : Nat → Int
  /-- Behaviour of the converter in the `n`-th `AudioConverterFillBuffer`. -/
  fill : Nat → FillReply
  /-- `framesProcessed` and `callbackResult` of the `n`-th
  `PaUtil_EndBufferProcessing`. -/
  endProcessing : Nat → Nat × Int

/-- The stream, the world and the locals of `AudioIOProc` while it runs. -/
structure IOState where
  stream : PaMacCoreStream
  world : World
  callbackResult : Int
  framesProcessed : Nat
  inNumberFrames : Nat
  /-- Number of `AudioConverterFillBuffer` calls made so far. -/
  fills : Nat
  /-- Number of `PaUtil_EndBufferProcessing` calls made so far. -/
  ends : Nat
  deriving DecidableEq, Repr

namespace IOState

def log (st : IOState) (c : Call) : IOState := { st with world := st.world.log c }

/-- `PaUtil_BeginBufferProcessing( ..., xrunFlags ); stream->xrunFlags = 0;`. -/
def beginProcessing (st : IOState) (xrunFlags : Nat) : IOState :=
  { st with
    world := st.world.log (Call.PaUtil_BeginBufferProcessing xrunFlags)
    stream := { st.stream with xrunFlags := 0 } }

/-- `framesProcessed = PaUtil_EndBufferProcessing( ..., &callbackResult );`. -/
def endProcessing (st : IOState) (r : IOReplies) : IOState :=
  { st with
    world := st.world.log Call.PaUtil_EndBufferProcessing
    framesProcessed := (r.endProcessing st.ends).1
    callbackResult := (r.endProcessing st.ends).2
    ends := st.ends + 1 }

/-- `stream->xrunFlags |= flag;`. -/
def flag (st : IOState) (f : Nat) : IOState :=
  { st with stream := { st.stream with xrunFlags := st.stream.xrunFlags ||| f } }

def setRing (st : IOState) (rb : RingBuffer) : IOState :=
  { st with stream := { st.stream with inputRingBuffer := rb } }

end IOState

/-- What `AudioConverterFillBuffer( stream->inputSRConverter, ringBufferIOProc,
&stream->inputRingBuffer, &size, data )` returns for a buffer of `size` bytes:
status, size written back, ring buffer. -/
def IOState.fillResult (st : IOState) (size : Nat) (r : IOReplies) : Int × Nat × RingBuffer :=
  AudioConverterFillBuffer st.stream.inputRingBuffer size (r.fill st.fills)

/-- The stream after that call. -/
def IOState.fill (st : IOState) (size : Nat) (r : IOReplies) : IOState :=
  { (st.log (Call.AudioConverterFillBuffer st.stream.inputSRConverter size)).setRing
      (st.fillResult size r).2.2 with
    fills := st.fills + 1 }

/-- `setStreamStartTime`. -/
def setStreamStartTime (st : IOState) : IOState :=
  { (if st.stream.outputDevice ≠ 0 then
        st.log (Call.AudioDeviceGetCurrentTime st.stream.outputDevice)
      else if st.stream.inputDevice ≠ 0 then
        st.log (Call.AudioDeviceGetCurrentTime st.stream.inputDevice)
      else st) with
    stream := { st.stream with isTimeSet := true } }

/-- `frames = ioData->mBuffers[0].mDataByteSize;
frames /= sizeof( float ) * ioData->mBuffers[0].mNumberChannels;`. -/
def AudioIOProc.frames (ioData : AudioBuffer) : Nat :=
  ioData.mDataByteSize / (4 * ioData.mNumberChannels)

/-- `AudioIOProc`, lines 1491-1540: "Full Duplex, One Device, no SR
Conversion". -/
def AudioIOProc.duplex (ioData : AudioBuffer) (r : IOReplies) (st : IOState) : IOState :=
  (st.beginProcessing st.stream.xrunFlags)
  /- -- copy and process input data -- -/
  |> (fun st => st.log (Call.AudioUnitRender st.stream.inputUnit INPUT_ELEMENT st.inNumberFrames))
  |> (fun st => st.log (Call.PaUtil_SetInputFrameCount (AudioIOProc.frames ioData)))
  |> (fun st => st.log
      (Call.PaUtil_SetInterleavedInputChannels st.stream.inputAudioBufferList.mData
        st.stream.inputAudioBufferList.mNumberChannels))
  /- -- Copy and process output data -- -/
  |> (fun st => st.log (Call.PaUtil_SetOutputFrameCount (AudioIOProc.frames ioData)))
  |> (fun st => st.log (Call.PaUtil_SetInterleavedOutputChannels ioData.mNumberChannels))
  /- -- complete processing -- -/
  |> (fun st => st.endProcessing r)

/-- `AudioIOProc`, lines 1588-1617: render with input through the sample-rate
converter. -/
def AudioIOProc.renderConverted (frames inChan : Nat) (r : IOReplies) (st : IOState) :
    IOState :=
  (if (st.fillResult (4 * (inChan * frames)) r).1 = RING_BUFFER_EMPTY then
      /- the ring buffer callback underflowed -/
      ((st.fill (4 * (inChan * frames)) r).log
        (Call.bzero (st.fillResult (4 * (inChan * frames)) r).2.1
          (4 * (inChan * frames) - (st.fillResult (4 * (inChan * frames)) r).2.1))).flag
        paInputUnderflow
    else st.fill (4 * (inChan * frames)) r)
  |> (fun st => st.log (Call.PaUtil_SetInputFrameCount frames))
  |> (fun st => st.log (Call.PaUtil_SetInterleavedInputChannels 0 inChan))
  |> (fun st => st.endProcessing r)

/-- `AudioIOProc`, lines 1619-1679: render with input read from the ring buffer
without converter. `memcpy` and `bzero` are logged with the byte offset of
their destination in the local array `float data[frames*inChan]` (pointer
arithmetic on `data` is in units of `float`). -/
def AudioIOProc.renderFromRing (frames inChan : Nat) (r : IOReplies) (st : IOState) :
    IOState :=
  (RingBuffer_GetReadRegions st.stream.inputRingBuffer (inChan * frames * 4))
  |> (fun g =>
    if g.size1 / (4 * inChan) = frames then
      /- simplest case: all in first buffer -/
      (st.log (Call.PaUtil_SetInputFrameCount frames))
      |> (fun st => st.log (Call.PaUtil_SetInterleavedInputChannels g.data1 inChan))
      |> (fun st => st.endProcessing r)
      |> (fun st => st.setRing (RingBuffer_AdvanceReadIndex st.stream.inputRingBuffer g.size1))
    else if (g.size1 + g.size2) / (4 * inChan) < frames then
      /- we underflowed. take what data we can, zero the rest. -/
      (if g.size1 ≠ 0 then st.log (Call.memcpy 0 g.size1) else st)
      |> (fun st => if g.size2 ≠ 0 then st.log (Call.memcpy (4 * g.size1) g.size2) else st)
      |> (fun st => st.log
          (Call.bzero (4 * (g.size1 + g.size2)) (frames * 4 * inChan - g.size1 - g.size2)))
      |> (fun st => st.log (Call.PaUtil_SetInputFrameCount frames))
      |> (fun st => st.log (Call.PaUtil_SetInterleavedInputChannels 0 inChan))
      |> (fun st => st.endProcessing r)
      |> (fun st =>
        st.setRing (RingBuffer_AdvanceReadIndex st.stream.inputRingBuffer (g.size1 + g.size2)))
      /- flag underflow -/
      |> (fun st => st.flag paInputUnderflow)
    else
      /- we got all the data, but split between buffers -/
      (st.log (Call.PaUtil_SetInputFrameCount (g.size1 / (4 * inChan))))
      |> (fun st => st.log (Call.PaUtil_SetInterleavedInputChannels g.data1 inChan))
      |> (fun st => st.log (Call.PaUtil_Set2ndInputFrameCount (g.size2 / (4 * inChan))))
      |> (fun st => st.log (Call.PaUtil_Set2ndInterleavedInputChannels g.data2 inChan))
      |> (fun st => st.endProcessing r)
      |> (fun st =>
        st.setRing (RingBuffer_AdvanceReadIndex st.stream.inputRingBuffer (g.size1 + g.size2))))

/-- `AudioIOProc`, lines 1541-1687: "Output Side of Full Duplex (Separate
Devices or SR Conversion) -- OR Simplex Output". -/
def AudioIOProc.render (ioData : AudioBuffer) (r : IOReplies) (st : IOState) : IOState :=
  /- Sometimes, when stopping a duplex stream we get erroneous xrun flags, so
     if this is our last run, clear the flags. -/
  (st.beginProcessing
    (if st.stream.state = STOPPING ∨ st.stream.state = CALLBACK_STOPPED then 0
      else st.stream.xrunFlags))
  /- -- Copy and process output data -- -/
  |> (fun st => st.log (Call.PaUtil_SetOutputFrameCount (AudioIOProc.frames ioData)))
  |> (fun st => st.log (Call.PaUtil_SetInterleavedOutputChannels ioData.mNumberChannels))
  /- -- copy and process input data, and complete processing -- -/
  |> (fun st =>
    if st.stream.inputUnit ≠ 0 then
      if st.stream.inputSRConverter ≠ 0 then
        AudioIOProc.renderConverted (AudioIOProc.frames ioData)
          st.stream.inputAudioBufferList.mNumberChannels r st
      else
        AudioIOProc.renderFromRing (AudioIOProc.frames ioData)
          st.stream.inputAudioBufferList.mNumberChannels r st
    else st.endProcessing r)

/-- `AudioIOProc`, lines 1699-1708: the loop around `AudioUnitRender` on the
input side, `err` being an `OSErr`. Returns `err`, `inNumberFrames`, and the
world; `attempt` numbers the calls. -/
def AudioIOProc.captureLoop (unit : Nat) (status : Nat → Int) (attempt : Nat)
    (inNumberFrames : Nat) (w : World) : Int × Nat × World :=
  if toOSErr (status attempt) = -10874 then
    if 1 < inNumberFrames / 2 then
      AudioIOProc.captureLoop unit status (attempt + 1) (inNumberFrames / 2)
        (w.log (Call.AudioUnitRender unit INPUT_ELEMENT inNumberFrames))
    else
      (toOSErr (status attempt), inNumberFrames / 2,
        w.log (Call.AudioUnitRender unit INPUT_ELEMENT inNumberFrames))
  else
    (toOSErr (status attempt), inNumberFrames,
      w.log (Call.AudioUnitRender unit INPUT_ELEMENT inNumberFrames))
termination_by inNumberFrames
decreasing_by omega

/-- `AudioIOProc`, lines 1758-1789: one round of the loop below. -/
def AudioIOProc.convertOnce (chan : Nat) (r : IOReplies) (st : IOState) : IOState :=
  ((st.fill (4 * (chan * st.inNumberFrames)) r).log
    (Call.PaUtil_SetInputFrameCount
      ((st.fillResult (4 * (chan * st.inNumberFrames)) r).2.1 / (chan * 4))))
  |> (fun st' =>
    if (st.fillResult (4 * (chan * st.inNumberFrames)) r).2.1 / (chan * 4) ≠ 0 then
      ((st'.beginProcessing st'.stream.xrunFlags).log
        (Call.PaUtil_SetInterleavedInputChannels 0 chan)).endProcessing r
    else st')

/-- `AudioIOProc`, lines 1757-1790: "Simplex Input w/ SR Conversion", the loop
that runs "the buffer processor until we are out of data". The converter is
platform code, so the loop is bounded by `fuel`; `none` when it is used up. -/
def AudioIOProc.convertLoop (chan : Nat) (r : IOReplies) : Nat → IOState → Option IOState
  | 0, _ => none
  | fuel + 1, st =>
    (AudioIOProc.convertOnce chan r st)
    |> (fun st' =>
      if st'.callbackResult = paContinue ∧
          (st.fillResult (4 * (chan * st.inNumberFrames)) r).1 = 0 then
        AudioIOProc.convertLoop chan r fuel st'
      else some st')

/-- The stream after the loop around `AudioUnitRender`: `inNumberFrames` may
have been halved. -/
def IOState.renderInput (st : IOState) (r : IOReplies) : IOState :=
  { st with
    inNumberFrames :=
      (AudioIOProc.captureLoop st.stream.inputUnit r.render 0 st.inNumberFrames st.world).2.1
    world :=
      (AudioIOProc.captureLoop st.stream.inputUnit r.render 0 st.inNumberFrames st.world).2.2 }

/-- `AudioIOProc`, lines 1688-1792: the input side. -/
def AudioIOProc.capture (r : IOReplies) (fuel : Nat) (st : IOState) : Option IOState :=
  (st.renderInput r)
  |> (fun st =>
    if st.stream.inputSRConverter ≠ 0 ∨ st.stream.outputUnit ≠ 0 then
      /- If this is duplex or we use a converter, put the data into the ring
         buffer. -/
      if 4 * st.inNumberFrames * st.stream.inputAudioBufferList.mNumberChannels ≠
          (RingBuffer_Write st.stream.inputRingBuffer
            (4 * st.inNumberFrames * st.stream.inputAudioBufferList.mNumberChannels)).1 then
        (st.setRing (RingBuffer_Write st.stream.inputRingBuffer
          (4 * st.inNumberFrames * st.stream.inputAudioBufferList.mNumberChannels)).2).flag
          paInputOverflow
      else
        st.setRing (RingBuffer_Write st.stream.inputRingBuffer
          (4 * st.inNumberFrames * st.stream.inputAudioBufferList.mNumberChannels)).2
    else
      /- for simplex input w/o SR conversion, just pop the data into the buffer
         processor. -/
      (st.beginProcessing st.stream.xrunFlags)
      |> (fun st => st.log (Call.PaUtil_SetInputFrameCount st.inNumberFrames))
      |> (fun st => st.log
          (Call.PaUtil_SetInterleavedInputChannels st.stream.inputAudioBufferList.mData
            st.stream.inputAudioBufferList.mNumberChannels))
      |> (fun st => st.endProcessing r))
  |> (fun st =>
    if st.stream.outputUnit = 0 ∧ st.stream.inputSRConverter ≠ 0 then
      AudioIOProc.convertLoop st.stream.inputAudioBufferList.mNumberChannels r fuel st
    else some st)

/-- `AudioIOProc`, lines 1472-1488: the start time is taken at the first
invocation, and the current time of the device is queried. -/
def AudioIOProc.timing (isRender : Bool) (st : IOState) : IOState :=
  (if !st.stream.isTimeSet then setStreamStartTime st else st)
  |> (fun st =>
    if isRender then st.log (Call.AudioDeviceGetCurrentTime st.stream.outputDevice)
    else st.log (Call.AudioDeviceGetCurrentTime st.stream.inputDevice))

/-- `AudioIOProc`, lines 1491-1792: the dispatch on the bus number and on the
shape of the stream. -/
def AudioIOProc.body (isRender : Bool) (ioData : AudioBuffer) (r : IOReplies) (fuel : Nat)
    (st : IOState) : Option IOState :=
  if isRender ∧ st.stream.inputUnit = st.stream.outputUnit ∧ st.stream.inputSRConverter = 0 then
    some (AudioIOProc.duplex ioData r st)
  else if isRender then some (AudioIOProc.render ioData r st)
  else AudioIOProc.capture r fuel st

/-- `stream->isTimeSet = FALSE; stream->state = CALLBACK_STOPPED ;`. -/
def IOState.callbackStopped (st : IOState) : IOState :=
  { st with stream := { st.stream with isTimeSet := false, state := CALLBACK_STOPPED } }

/-- `if( unit ) AudioOutputUnitStop( unit );`. -/
def IOState.stopUnit (st : IOState) (unit : Nat) : IOState :=
  if unit ≠ 0 then st.log (Call.AudioOutputUnitStop unit) else st

/-- `AudioIOProc`, lines 1794-1806: `switch( callbackResult )`. -/
def AudioIOProc.onCallbackResult (st : IOState) : IOState :=
  if st.callbackResult = paComplete ∨ st.callbackResult = paAbort then
    ((st.callbackStopped).stopUnit st.stream.outputUnit).stopUnit st.stream.inputUnit
  else st

/-- `AudioIOProc`. `none` only when the converter loop of the simplex-input
case used up `fuel`. -/
def AudioIOProc (stream : PaMacCoreStream) (inBusNumber inNumberFrames : Nat)
    (ioData : AudioBuffer) (r : IOReplies) (fuel : Nat) (w : World) : Option IOState :=
  (AudioIOProc.body (inBusNumber == OUTPUT_ELEMENT) ioData r fuel
    (AudioIOProc.timing (inBusNumber == OUTPUT_ELEMENT)
      ⟨stream, w.log Call.PaUtil_BeginCpuLoadMeasurement, paContinue, 0, inNumberFrames, 0, 0⟩)).map
    fun st =>
      (AudioIOProc.onCallbackResult st)
      |> (fun st => st.log (Call.PaUtil_EndCpuLoadMeasurement st.framesProcessed))

/-! ## Initialisation of the host API: the list of devices -/

/-- What the platform answers during one `GetChannelInfo`: the statuses of
`AudioDeviceGetPropertyInfo` and of `AudioDeviceGetProperty` for
`kAudioDevicePropertyStreamConfiguration`, and the sum of `mNumberChannels`
over the buffers of the list read. -/
structure ChannelReplies where
  getPropertyInfo : Int
  getProperty : Int
  numChannels : Int
  deriving DecidableEq, Repr

/-- `GetChannelInfo`, up to the channel count (the latencies are not among the
fields of `PaDeviceInfo` kept here): the `PaError` returned and `*deviceInfo`
afterwards. `ERR` is `PaMacCore_SetError`. -/
def GetChannelInfo (setError : Int → PaError) (deviceInfo : PaDeviceInfo) (isInput : Bool)
    (r : ChannelReplies) : PaError × PaDeviceInfo :=
  if setError r.getPropertyInfo ≠ 0 then (setError r.getPropertyInfo, deviceInfo)
  else if setError r.getProperty ≠ 0 then (setError r.getProperty, deviceInfo)
  else
    (paNoError,
      if isInput then { deviceInfo with maxInputChannels := r.numChannels }
      else { deviceInfo with maxOutputChannels := r.numChannels })

/-- What the platform and the allocator answer during one
`InitializeDeviceInfo`. -/
structure DeviceReplies where
  /-- `AudioDeviceGetPropertyInfo` for `kAudioDevicePropertyDeviceName`. -/
  getNameInfo : Int
  /-- `PaUtil_GroupAllocateMemory` returned memory for the name. -/
  allocateName : Bool
  /-- `AudioDeviceGetProperty` for `kAudioDevicePropertyDeviceName`. -/
  getName : Int
  input : ChannelReplies
  output : ChannelReplies
  deriving DecidableEq, Repr

/-- `InitializeDeviceInfo`: the `PaError` returned and `*deviceInfo`
afterwards. The query of the sample rate cannot fail the function and writes
none of the fields kept here. -/
def InitializeDeviceInfo (setError : Int → PaError) (deviceInfo : PaDeviceInfo)
    (r : DeviceReplies) : PaError × PaDeviceInfo :=
  /- Get the device name.  Fail if we can't get it. -/
  if setError r.getNameInfo ≠ 0 then (setError r.getNameInfo, deviceInfo)
  else if !r.allocateName then (paInsufficientMemory, deviceInfo)
  else if setError r.getName ≠ 0 then (setError r.getName, deviceInfo)
  else
    /- Get the maximum number of input and output channels.  Fail if we can't
       get this. -/
    (GetChannelInfo setError deviceInfo true r.input)
    |> (fun i =>
      if i.1 ≠ 0 then i
      else
        (GetChannelInfo setError i.2 false r.output)
        |> (fun o => if o.1 ≠ 0 then o else (paNoError, o.2)))

/-- The fields of `PaMacAUHAL` and of its `inheritedHostApiRep` that
`PaMacCore_Initialize` fills. The C arrays are maps from the index;
`deviceInfos[ k ]`, a pointer into `deviceInfoArray`, is the index it points
at. -/
structure HostApiState where
  devIds : Nat → Nat
  devCount : Nat
  defaultIn : Nat
  defaultOut : Nat
  deviceInfoArray : Nat → PaDeviceInfo
  deviceInfos : Nat → Nat
  deviceCount : Nat
  defaultInputDevice : Int
  defaultOutputDevice : Int

/-- What the platform and the allocator answer during `gatherDeviceInfo`. -/
structure HardwareReplies where
  /-- `kAudioHardwarePropertyDevices`: the ids of the devices. -/
  devices : List Nat
  /-- `PaUtil_GroupAllocateMemory` returned memory for `devIds`. -/
  allocateDevIds : Bool
  /-- Status of the query for `kAudioHardwarePropertyDefaultInputDevice` and
  the content of `defaultIn` after it. -/
  defaultInput : Int × Nat
  /-- Status of the query for `kAudioHardwarePropertyDefaultOutputDevice` and
  the content of `defaultOut` after it. -/
  defaultOutput : Int × Nat
  /-- What `GetChannelInfo` is answered in the search for a substitute, by
  device id and direction. -/
  channels : Nat → Bool → ChannelReplies
  /-- Content of the uninitialised local `devInfo` in round `i` of a search. -/
  devInfo : Nat → PaDeviceInfo

/-- `gatherDeviceInfo`, lines 186-194 and 203-211: the search for "the first
available" device from index `i` on, `remaining` being `devCount - i`. The
default is `devIds[i]` for the first `i` with `0 != GetChannelInfo( ... )` and a
non-zero channel count in `devInfo`, and stays `current` when there is none. -/
def gatherDeviceInfo.substitute (setError : Int → PaError) (r : HardwareReplies)
    (isInput : Bool) (devIds : Nat → Nat) (current : Nat) : Nat → Nat → Nat
  | 0, _ => current
  | remaining + 1, i =>
    if (GetChannelInfo setError (r.devInfo i) isInput (r.channels (devIds i) isInput)).1 ≠ 0 ∧
        (if isInput then
          (GetChannelInfo setError (r.devInfo i) isInput
            (r.channels (devIds i) isInput)).2.maxInputChannels
        else
          (GetChannelInfo setError (r.devInfo i) isInput
            (r.channels (devIds i) isInput)).2.maxOutputChannels) ≠ 0 then
      devIds i
    else gatherDeviceInfo.substitute setError r isInput devIds current remaining (i + 1)

/-- `gatherDeviceInfo`: the `PaError` returned and the host API afterwards. -/
def gatherDeviceInfo (setError : Int → PaError) (r : HardwareReplies) (auhalHostApi : HostApiState) :
    PaError × HostApiState :=
  if !r.allocateDevIds then
    (paInsufficientMemory,
      { auhalHostApi with devIds := fun _ => 0, devCount := r.devices.length })
  else
    ({ auhalHostApi with
        devIds := fun i => r.devices.getD i 0
        devCount := r.devices.length
        defaultIn := kAudioDeviceUnknown
        defaultOut := kAudioDeviceUnknown } : HostApiState)
    /- determine the default device. -/
    |> (fun h =>
      if r.defaultInput.1 ≠ 0 then
        { h with
          defaultIn :=
            gatherDeviceInfo.substitute setError r true h.devIds kAudioDeviceUnknown h.devCount 0 }
      else { h with defaultIn := r.defaultInput.2 })
    |> (fun h =>
      if r.defaultOutput.1 ≠ 0 then
        /- auhalHostApi->defaultIn  = kAudioDeviceUnknown; -/
        { h with
          defaultIn := kAudioDeviceUnknown
          defaultOut :=
            gatherDeviceInfo.substitute setError r false h.devIds r.defaultOutput.2 h.devCount 0 }
      else { h with defaultOut := r.defaultOutput.2 })
    |> (fun h => (paNoError, h))

/-- `PaMacCore_Initialize`, lines 414-415: `for( j=i; j<devCount; ++j )
devIds[j] = devIds[j+1];`, `remaining` being `devCount - j`. -/
def PaMacCore_Initialize.shiftDown (devIds : Nat → Nat) : Nat → Nat → Nat → Nat
  | 0, _ => devIds
  | remaining + 1, j =>
    PaMacCore_Initialize.shiftDown (Function.update devIds j (devIds (j + 1))) remaining (j + 1)

/-- `PaMacCore_Initialize`, lines 395-418: the loop over the devices, from
index `i` on. `replies call id` is what the platform answers during the
`call`-th `InitializeDeviceInfo`, made for the device `id`. After a failure
`i--` and the `++i` of the loop leave `i` as it is. -/
def PaMacCore_Initialize.devices (setError : Int → PaError)
    (replies : Nat → Nat → DeviceReplies) (i call : Nat) (h : HostApiState) : HostApiState :=
  if i < h.devCount then
    if (InitializeDeviceInfo setError (h.deviceInfoArray i) (replies call (h.devIds i))).1 =
        paNoError then
      /- copy some info and set the defaults -/
      PaMacCore_Initialize.devices setError replies (i + 1) (call + 1)
        { h with
          deviceInfoArray := Function.update h.deviceInfoArray i
            (InitializeDeviceInfo setError (h.deviceInfoArray i) (replies call (h.devIds i))).2
          deviceInfos := Function.update h.deviceInfos h.deviceCount i
          defaultInputDevice :=
            if h.devIds i = h.defaultIn then h.deviceCount else h.defaultInputDevice
          defaultOutputDevice :=
            if h.devIds i = h.defaultOut then h.deviceCount else h.defaultOutputDevice
          deviceCount := h.deviceCount + 1 }
    else
      /- there was an error. we need to shift the devices down, so we ignore
         this one -/
      PaMacCore_Initialize.devices setError replies i (call + 1)
        { h with
          deviceInfoArray := Function.update h.deviceInfoArray i
            (InitializeDeviceInfo setError (h.deviceInfoArray i) (replies call (h.devIds i))).2
          devCount := h.devCount - 1
          devIds := PaMacCore_Initialize.shiftDown h.devIds (h.devCount - 1 - i) i }
  else h
termination_by h.devCount - i
decreasing_by all_goals (simp_wf; omega)

/-- What the platform and the allocator answer during `PaMacCore_Initialize`. -/
structure InitializeReplies where
  /-- `PaUtil_AllocateMemory( sizeof(PaMacAUHAL) )`: `none`, or the content of
  the memory returned. -/
  allocateHostApi : Option HostApiState
  createAllocationGroup : Bool
  hardware : HardwareReplies
  /-- `PaUtil_GroupAllocateMemory` for `deviceInfos`: `none`, or the content
  of the memory returned. -/
  allocateDeviceInfos : Option (Nat → Nat)
  /-- `PaUtil_GroupAllocateMemory` for `deviceInfoArray`, alike. -/
  allocateDeviceInfoArray : Option (Nat → PaDeviceInfo)
  /-- What the platform answers during the `call`-th `InitializeDeviceInfo`,
  made for the device `id`. -/
  device : Nat → Nat → DeviceReplies

/-- `PaMacCore_Initialize`, up to the end of the loop over the devices: the
result, and the host API when it is `paNoError`. -/
def PaMacCore_Initialize (setError : Int → PaError) (r : InitializeReplies) :
    PaError × Option HostApiState :=
  match r.allocateHostApi with
  | none => (paInsufficientMemory, none)
  | some garbage =>
    if !r.createAllocationGroup then (paInsufficientMemory, none)
    else
      /- get the info we need about the devices -/
      (gatherDeviceInfo setError r.hardware { garbage with devIds := fun _ => 0, devCount := 0 })
      |> (fun g =>
        if g.1 ≠ paNoError then (g.1, none)
        else
          ({ g.2 with
              defaultInputDevice := paNoDevice
              defaultOutputDevice := paNoDevice
              deviceCount := 0 } : HostApiState)
          |> (fun h =>
            if 0 < h.devCount then
              match r.allocateDeviceInfos with
              | none => (paInsufficientMemory, none)
              | some deviceInfos =>
                match r.allocateDeviceInfoArray with
                | none => (paInsufficientMemory, none)
                | some deviceInfoArray =>
                  (paNoError,
                    some (PaMacCore_Initialize.devices setError r.device 0 0
                      { h with deviceInfos := deviceInfos, deviceInfoArray := deviceInfoArray }))
            else (paNoError, some h)))

/-- The host API as `OpenStream` reads it: the device infos and the device
ids, by PortAudio device index. -/
def HostApiState.hostApi (h : HostApiState) : PaMacAUHAL :=
  ⟨(List.range h.deviceCount).map (fun k => h.deviceInfoArray (h.deviceInfos k)),
    (List.range h.devCount).map h.devIds⟩

/-! ## Predicates and concrete values used in the statements -/

/-- The input parameters pass the checks of lines 995-1017 of `OpenStream`. -/
def inputAccepted (hostApi : PaMacAUHAL) (inputParameters : Option PaStreamParameters) : Prop :=
  ∀ p, inputParameters = some p →
    p.device ≠ paUseHostApiSpecificDeviceSpecification ∧
      p.channelCount ≤ (hostApi.deviceInfo p.device).maxInputChannels

/-- The output parameters pass the checks of lines 1019-1041 of `OpenStream`. -/
def outputAccepted (hostApi : PaMacAUHAL) (outputParameters : Option PaStreamParameters) : Prop :=
  ∀ p, outputParameters = some p →
    p.device ≠ paUseHostApiSpecificDeviceSpecification ∧
      p.channelCount ≤ (hostApi.deviceInfo p.device).maxOutputChannels

/-- Every call of one run of `OpenAndSetupOneAudioUnit` succeeds. -/
def UnitReplies.succeeds (r : UnitReplies) : Prop :=
  r.findNextComponent = true ∧ r.openAComponent = 0 ∧ r.enableInput = 0 ∧ r.disableOutput = 0 ∧
  r.setInputDevice = 0 ∧ r.setOutputDevice = 0 ∧ r.setBestFramesPerBuffer = paNoError ∧
  r.setBestSampleRateForDevice = paNoError ∧ r.setRenderQuality = 0 ∧
  r.setOutputStreamFormat = 0 ∧ r.getInputStreamFormat = 0 ∧ r.setInputStreamFormat = 0 ∧
  r.setOutputMaximumFramesPerSlice = 0 ∧ r.getOutputMaximumFramesPerSlice = 0 ∧
  r.setInputMaximumFramesPerSlice = 0 ∧ r.getSourceFormat = 0 ∧ r.audioConverterNew = 0 ∧
  r.audioConverterSetProperty = 0 ∧ r.setCallback = 0 ∧ r.setInputCallback = 0 ∧
  r.audioUnitInitialize = 0

/-- Every call and allocation of one `OpenStream` succeeds (the two range
queries may answer anything). -/
def OpenReplies.succeeds (r : OpenReplies) : Prop :=
  r.allocateStream.isSome = true ∧ r.firstUnit.succeeds ∧ r.secondUnit.succeeds ∧
  r.callocScratch = true ∧ r.callocRing = true ∧ r.initializeBlioRingBuffers = paNoError ∧
  r.initializeBufferProcessor = paNoError

/-- Every call of one `StartStream` succeeds. -/
def StartReplies.succeeds (r : StartReplies) : Prop :=
  r.audioConverterReset = 0 ∧ r.startInput = 0 ∧ r.startOutput = 0

/-- Every unit stop and reset of one `StopStream` succeeds. -/
def StopReplies.succeeds (r : StopReplies) : Prop :=
  r.stopShared = 0 ∧ r.resetSharedInput = 0 ∧ r.resetSharedOutput = 0 ∧ r.stopInput = 0 ∧
  r.resetInput = 0 ∧ r.stopOutput = 0 ∧ r.resetOutput = 0

/-- The resources the fields of a stream name, most recently acquired first:
what `CloseStream` looks at. -/
def PaMacCoreStream.holdings (st : PaMacCoreStream) : List Resource :=
  (if st.bufferProcessorIsInitialized = true then [Resource.bufferProcessor] else []) ++
  ((if st.blio.allocated = true then [Resource.blioBuffers] else []) ++
  ((if st.inputRingBuffer.buffer ≠ 0 then [Resource.memory st.inputRingBuffer.buffer] else []) ++
  ((if st.inputAudioBufferList.mData ≠ 0 then [Resource.memory st.inputAudioBufferList.mData]
    else []) ++
  ((if st.inputSRConverter ≠ 0 then [Resource.converter st.inputSRConverter] else []) ++
  ((if st.inputUnit ≠ 0 then [Resource.audioUnit st.inputUnit] else []) ++
  ((if st.outputUnit ≠ 0 ∧ st.outputUnit ≠ st.inputUnit then [Resource.audioUnit st.outputUnit]
    else []) ++
  [Resource.streamRepresentation, Resource.streamObject st.self]))))))

/-- Nothing but the stream object and its representation is recorded in the
stream: the state right after the pre-nulling of `OpenStream`. -/
def PaMacCoreStream.Null (st : PaMacCoreStream) : Prop :=
  st.bufferProcessorIsInitialized = false ∧ st.blio.allocated = false ∧
  st.inputRingBuffer.buffer = 0 ∧ st.inputAudioBufferList.mData = 0 ∧
  st.inputSRConverter = 0 ∧ st.inputUnit = 0 ∧ st.outputUnit = 0

/-- The resources held are those the stream names, on top of `H`. -/
def Opening.Inv (H : List Resource) (o : Opening) : Prop :=
  o.world.held = o.stream.holdings ++ H

/-- What the resource accounting needs of a `Setup`: the resources held, the
last handle given out, and the two handles the setup owns. -/
def Setup.core (s : Setup) : List Resource × Nat × Nat × Nat :=
  (s.world.held, s.world.fresh, s.srConverter, s.audioUnit)

/-- `L` without `x` when `c` holds, `L` otherwise. -/
def eraseIf (c : Prop) [Decidable c] (x : Resource) (L : List Resource) : List Resource :=
  if c then L.erase x else L

/-- `typedef struct WireConfig_s` of `patest_wire.c`. -/
structure WireConfig_t where
  isInputInterleaved : Int
  isOutputInterleaved : Int
  numInputChannels : Int
  numOutputChannels : Int
  framesPerCallback : Nat
  deriving DecidableEq, Repr

/-- The configurations the loops of `main` in `patest_wire.c` run through. -/
def WireConfig_t.looped (config : WireConfig_t) : Prop :=
  (config.isInputInterleaved = 0 ∨ config.isInputInterleaved = 1) ∧
  (config.isOutputInterleaved = 0 ∨ config.isOutputInterleaved = 1) ∧
  (config.numInputChannels = 1 ∨ config.numInputChannels = 2) ∧
  (config.numOutputChannels = 1 ∨ config.numOutputChannels = 2) ∧
  (config.framesPerCallback = 0 ∨ config.framesPerCallback = 64)

/-- The stream parameters of one direction in `TestConfiguration`:
`INPUT_FORMAT | (config->isInputInterleaved ? 0 : paNonInterleaved)` with
`INPUT_FORMAT` being `paFloat32`, and no host API specific stream info. -/
def TestConfiguration.parameters (device : Int) (channels interleaved : Int) (latency : ℚ) :
    PaStreamParameters :=
  { device := device
    channelCount := channels
    sampleFormat := paFloat32 ||| (if interleaved ≠ 0 then 0 else paNonInterleaved)
    suggestedLatency := latency
    hostApiSpecificStreamInfo := none }

/-- A host API with two devices of two input and two output channels each. -/
def twoDevices : PaMacAUHAL := ⟨[⟨2, 2⟩, ⟨2, 2⟩], [101, 102]⟩

/-- Some content of freshly allocated memory: nothing in it is zero. -/
def uninitialised : PaMacCoreStream :=
  { self := 99, bufferProcessorIsInitialized := true, inputUnit := 7, outputUnit := 8,
    inputDevice := 9, outputDevice := 10, inputFramesPerBuffer := 11,
    outputFramesPerBuffer := 12, inputRingBuffer := ⟨13, 14, 15, 16⟩, inputSRConverter := 17,
    inputAudioBufferList := ⟨18, 19, 20⟩, blio := ⟨true⟩, userInChan := 21, userOutChan := 22,
    sampleRate := 23, xrunFlags := 3, isTimeSet := true, state := ACTIVE }

/-- A `PaMacCore_SetError` that wraps every platform error as
`paUnanticipatedHostError`. -/
def wrapHostError (e : Int) : PaError := if e = 0 then paNoError else paUnanticipatedHostError

/-- Replies of a platform on which every call of one unit setup succeeds: the
device grants `frames` frames per buffer and runs at `rate`. -/
def UnitReplies.success (frames : Nat) (rate : ℚ) : UnitReplies :=
  { findNextComponent := true, openAComponent := 0, enableInput := 0, disableOutput := 0,
    setInputDevice := 0, setOutputDevice := 0, setBestFramesPerBuffer := 0,
    actualFramesPerBuffer := frames, setBestSampleRateForDevice := 0, setRenderQuality := 0,
    setOutputStreamFormat := 0, getInputStreamFormat := 0, setInputStreamFormat := 0,
    setOutputMaximumFramesPerSlice := 0, getOutputMaximumFramesPerSlice := 0,
    outputMaximumFramesPerSlice := frames, setInputMaximumFramesPerSlice := 0,
    getSourceFormat := 0, sourceSampleRate := rate, audioConverterNew := 0,
    audioConverterSetProperty := 0, setCallback := 0, setInputCallback := 0,
    audioUnitInitialize := 0 }

/-- Replies of a platform on which every call and allocation of `OpenStream`
succeeds; the devices report the buffer size range `[minimum, maximum]`. -/
def OpenReplies.success (frames : Nat) (rate minimum maximum : ℚ) : OpenReplies :=
  { allocateStream := some uninitialised
    inputRange := ⟨0, minimum, maximum⟩
    outputRange := ⟨0, minimum, maximum⟩
    firstUnit := UnitReplies.success frames rate
    secondUnit := UnitReplies.success frames rate
    callocScratch := true
    ringSize := 4096
    callocRing := true
    initializeBlioRingBuffers := 0
    initializeBufferProcessor := 0
    destroyBlioRingBuffers := 0 }

/-- A failed stage of `OpenStream` has set a `result` other than `paNoError`. -/
def Opening.Sound (o : Opening) : Prop := o.failed = true → o.result ≠ paNoError

/-- A `callbackResult` with `paComplete` and `paAbort` exchanged. -/
def exchange (callbackResult : Int) : Int :=
  if callbackResult = paComplete then paAbort
  else if callbackResult = paAbort then paComplete else callbackResult

/-- The same replies, the client callback returning `paAbort` where it
returned `paComplete` and the other way round. -/
def IOReplies.exchange (r : IOReplies) : IOReplies :=
  { r with
    endProcessing := fun n => ((r.endProcessing n).1, PaMacCore.exchange (r.endProcessing n).2) }

/-- The same state of `AudioIOProc` with the other `callbackResult`. -/
def IOState.exchange (st : IOState) : IOState :=
  { st with callbackResult := PaMacCore.exchange st.callbackResult }

/-- The two units of the stream, which `AudioIOProc` never changes. -/
def IOState.units (st : IOState) : Nat × Nat := (st.stream.inputUnit, st.stream.outputUnit)

/-- A running full-duplex stream on one audio unit, without converter. -/
def running : PaMacCoreStream :=
  { uninitialised with
    inputUnit := 1, outputUnit := 1, inputSRConverter := 0, xrunFlags := 0,
    state := StreamState.ACTIVE }

/-- Replies during one `AudioIOProc`: every platform call succeeds, and the
client callback returns `callbackResult` after 64 frames. -/
def IOReplies.answering (callbackResult : Int) : IOReplies :=
  ⟨fun _ => 0, fun _ => ⟨[], 0, 0⟩, fun _ => (64, callbackResult)⟩

/-- A stopped full-duplex stream on one audio unit, without converter. -/
def idle : PaMacCoreStream :=
  { running with isTimeSet := false, state := StreamState.STOPPED }

/-- A running full-duplex stream on two audio units: input on unit 1, output
on unit 2, with a ring buffer of 16384 bytes holding 100 bytes. -/
def runningOnTwoUnits : PaMacCoreStream :=
  { running with
    inputUnit := 1, outputUnit := 2, inputRingBuffer := ⟨16384, 4196, 4096, 16⟩, xrunFlags := 3 }

/-- Replies during one `StopStream` in which every call succeeds. -/
def StopReplies.success : StopReplies := ⟨0, 0, 0, 0, 0, 0, 0, paNoError⟩

/-- The state of the stream, which `AudioIOProc` changes only in its
`switch( callbackResult )`. -/
def IOState.phase (st : IOState) : StreamState := st.stream.state

/-- The calls that drive the buffer processor through one host buffer: the
begin and the end of the processing and the frame counts. -/
def Call.drivesBufferProcessor : Call → Bool
  | Call.PaUtil_BeginBufferProcessing _ => true
  | Call.PaUtil_SetInputFrameCount _ => true
  | Call.PaUtil_Set2ndInputFrameCount _ => true
  | Call.PaUtil_SetOutputFrameCount _ => true
  | Call.PaUtil_EndBufferProcessing => true
  | _ => false

/-- The input ring buffer of a stream as `OpenStream` leaves it, `ringSize`
being the answer of `computeRingBufferSize`: allocated exactly when there is
an input unit and, besides, either an output unit that is another unit or a
converter; when allocated it has `ringSize * 4` bytes, and its write index is
`ringSize * 4 / RING_BUFFER_ADVANCE_DENOMINATOR` ahead of its read index when
there is an output unit, and equal to it otherwise. -/
def PaMacCoreStream.RingAsOpened (ringSize : Nat) (st : PaMacCoreStream) : Prop :=
  (st.inputRingBuffer.buffer ≠ 0 ↔
    st.inputUnit ≠ 0 ∧
      ((st.outputUnit ≠ 0 ∧ st.inputUnit ≠ st.outputUnit) ∨ st.inputSRConverter ≠ 0)) ∧
  (st.inputRingBuffer.buffer ≠ 0 →
    st.inputRingBuffer.bufferSize = ringSize * 4 ∧ st.inputRingBuffer.readIndex = 0 ∧
    st.inputRingBuffer.writeIndex = if st.outputUnit ≠ 0 then ringSize * 4 / 4 else 0)

/-- A `Setup` that has reached the label `error` carries an error in `result`
or in `paResult`. -/
def Setup.Sound (s : Setup) : Prop := s.failed = true → s.result ≠ 0 ∨ s.paResult ≠ paNoError

/-- `PaMacCore_SetError` turns a platform error into a PortAudio error. -/
def ReportsErrors (setError : Int → PaError) : Prop := ∀ e : Int, e ≠ 0 → setError e ≠ paNoError

/-- The units of a stream as `OpenStream` opens them for the given
parameters: an input unit exactly when there are input parameters, an output
unit exactly when there are output parameters, and one unit for both exactly
when both name the same device. -/
def PaMacCoreStream.UnitsAsRequested (inputParameters outputParameters : Option PaStreamParameters)
    (st : PaMacCoreStream) : Prop :=
  (st.inputUnit ≠ 0 ↔ inputParameters.isSome = true) ∧
  (st.outputUnit ≠ 0 ↔ outputParameters.isSome = true) ∧
  (inputParameters.isSome = true → outputParameters.isSome = true →
    (st.inputUnit = st.outputUnit ↔
      outputParameters.map (·.device) = inputParameters.map (·.device)))

/-- The calls that hand xrun flags to the buffer processor. -/
def Call.beginsProcessing : Call → Bool
  | Call.PaUtil_BeginBufferProcessing _ => true
  | _ => false

/-- A running full-duplex stream on two audio units without converter: input
on unit 1 with `channels` channels and 64 frames per buffer, output on unit 2,
the ring buffer being `rb`. -/
def readingFromRing (channels : Nat) (rb : RingBuffer) : PaMacCoreStream :=
  { runningOnTwoUnits with
    inputFramesPerBuffer := 64, inputAudioBufferList := ⟨channels, 64 * channels * 4, 20⟩,
    inputRingBuffer := rb, xrunFlags := 0 }

/-- Since the world `w`, the state `st` of `AudioIOProc` has only added calls
to the trace, every `AudioUnitRender` among them asks for at most `n` frames,
and `inNumberFrames` is at most `n`. -/
def IOState.RendersWithin (n : Nat) (w : World) (st : IOState) : Prop :=
  st.inNumberFrames ≤ n ∧
    ∃ calls, st.world.trace = w.trace ++ calls ∧
      ∀ unit element k, Call.AudioUnitRender unit element k ∈ calls → k ≤ n

/-- The stream `OpenStream` hands out for two input channels on device 0 and
two output channels on device 1 of `twoDevices`, with 64 frames per buffer at
44100 Hz, when every call succeeds. -/
def openedOnTwoDevices : PaMacCoreStream :=
  { self := 1, bufferProcessorIsInitialized := true, inputUnit := 3, outputUnit := 2,
    inputDevice := 101, outputDevice := 102, inputFramesPerBuffer := 64,
    outputFramesPerBuffer := 64, inputRingBuffer := ⟨16384, 4096, 0, 5⟩, inputSRConverter := 0,
    inputAudioBufferList := ⟨2, 512, 4⟩, blio := ⟨false⟩, userInChan := 2, userOutChan := 2,
    sampleRate := 44100, xrunFlags := 0, isTimeSet := false, state := StreamState.STOPPED }

/-- How many times `CloseComponent( unit )` has been called so far. -/
def World.closes (w : World) (unit : Nat) : Nat := w.trace.count (Call.CloseComponent unit)

/-- While `OpenStream` runs: `CloseComponent( unit )` has been called at most
once more than the `before` times of its start, and not at all for a unit
that does not exist yet or that the stream names; the units of the stream are
among the handles given out. -/
def Opening.ClosesOnce (unit before : Nat) (o : Opening) : Prop :=
  o.world.closes unit ≤ before + 1 ∧
  (o.world.fresh < unit → o.world.closes unit = before) ∧
  (unit ≠ 0 → (unit = o.stream.inputUnit ∨ unit = o.stream.outputUnit) →
    o.world.closes unit = before) ∧
  o.stream.inputUnit ≤ o.world.fresh ∧ o.stream.outputUnit ≤ o.world.fresh

/-- The host API lists the first `i` devices: `deviceCount` is `i`; for every
`k < i`, `deviceInfos[k]` points at `deviceInfoArray[k]`, which is the record
a successful `InitializeDeviceInfo` left, in a call made for the device
`devIds[k]`, one of the `devCount` devices of the list `ids` the loop started
from; each default device is `paNoDevice` or an index `k < i` with `devIds[k]`
the id of the default device. -/
def HostApiState.Listed (setError : Int → PaError) (replies : Nat → Nat → DeviceReplies)
    (ids : Nat → Nat) (devCount : Nat) (i : Nat) (h : HostApiState) : Prop :=
  h.deviceCount = i ∧
  (∀ k, k < i → h.deviceInfos k = k ∧
    ∃ call, call < devCount ∧ h.devIds k = ids call ∧
      ∃ before, InitializeDeviceInfo setError before (replies call (h.devIds k)) =
        (paNoError, h.deviceInfoArray k)) ∧
  (h.defaultInputDevice = paNoDevice ∨
    ∃ k, k < i ∧ h.defaultInputDevice = (k : Int) ∧ h.devIds k = h.defaultIn) ∧
  (h.defaultOutputDevice = paNoDevice ∨
    ∃ k, k < i ∧ h.defaultOutputDevice = (k : Int) ∧ h.devIds k = h.defaultOut)

/-- A host API in which nothing is set. -/
def HostApiState.blank : HostApiState :=
  ⟨fun _ => 0, 0, 0, 0, fun _ => ⟨0, 0⟩, fun _ => 0, 0, 0, 0⟩

/-- A platform with the devices 101 and 102, of two channels in each
direction, where the default input device is 102 and the query for the default
output device answers `defaultOutput`. -/
def HardwareReplies.twoDevices (defaultOutput : Int × Nat) : HardwareReplies :=
  ⟨[101, 102], true, (0, 102), defaultOutput, fun _ _ => ⟨0, 0, 2⟩, fun _ => ⟨0, 0⟩⟩

/-- A platform with the devices 101, 102 and 103, where the name of device
102 cannot be read, the default input device is 103 and the default output
device is 101; every allocation succeeds. -/
def InitializeReplies.threeDevices : InitializeReplies :=
  { allocateHostApi := some HostApiState.blank
    createAllocationGroup := true
    hardware := ⟨[101, 102, 103], true, (0, 103), (0, 101), fun _ _ => ⟨0, 0, 2⟩, fun _ => ⟨0, 0⟩⟩
    allocateDeviceInfos := some fun _ => 0
    allocateDeviceInfoArray := some fun _ => ⟨0, 0⟩
    device := fun _ id => ⟨if id = 102 then -1 else 0, true, 0, ⟨0, 0, 2⟩, ⟨0, 0, 2⟩⟩ }

/-! ## Lemmas on the setup of the audio units and on `OpenStream` -/

/-! ## Auxiliary lemmas -/

@[simp] theorem Setup.core_ERR_WRAP (s : Setup) (c : Call) (e : Int) :
    (s.ERR_WRAP c e).core = s.core := by
  unfold Setup.ERR_WRAP Setup.step; split <;> rfl

@[simp] theorem Setup.core_paCheck (s : Setup) (c : Call) (e : PaError) :
    (s.paCheck c e).core = s.core := by
  unfold Setup.paCheck Setup.step; split <;> rfl

@[simp] theorem Setup.core_setAudioDevice (s : Setup) (d : Nat) :
    (s.setAudioDevice d).core = s.core := by
  unfold Setup.setAudioDevice Setup.step; split <;> rfl

@[simp] theorem Setup.core_clearResult (s : Setup) : s.clearResult.core = s.core := by
  unfold Setup.clearResult Setup.step; split <;> rfl

@[simp] theorem Setup.core_setActualInput (s : Setup) (n : Nat) :
    (s.setActualInput n).core = s.core := by
  unfold Setup.setActualInput Setup.step; split <;> rfl

@[simp] theorem Setup.core_setActualOutput (s : Setup) (n : Nat) :
    (s.setActualOutput n).core = s.core := by
  unfold Setup.setActualOutput Setup.step; split <;> rfl

@[simp] theorem Setup.core_copyActualInputToOutput (s : Setup) :
    s.copyActualInputToOutput.core = s.core := by
  unfold Setup.copyActualInputToOutput Setup.step; split <;> rfl

@[simp] theorem Setup.core_ite (c : Prop) [Decidable c] (a b : Setup) :
    (if c then a else b).core = if c then a.core else b.core := by
  split <;> rfl

@[simp] theorem setDevices_core (ip op : Option PaStreamParameters) (api : PaMacAUHAL)
    (r : UnitReplies) (unit : Nat) (s : Setup) :
    (OpenAndSetupOneAudioUnit.setDevices ip op api r unit s).core = s.core := by
  cases ip <;> cases op <;> simp [OpenAndSetupOneAudioUnit.setDevices]

@[simp] theorem setDeviceFormat_core (ip op : Option PaStreamParameters) (n : Nat) (a b : Bool)
    (r : UnitReplies) (s : Setup) :
    (OpenAndSetupOneAudioUnit.setDeviceFormat ip op n a b r s).core = s.core := by
  cases ip <;> cases op <;> simp [OpenAndSetupOneAudioUnit.setDeviceFormat]

@[simp] theorem setUnitFormat_core (ip op : Option PaStreamParameters)
    (r : UnitReplies) (unit : Nat) (s : Setup) :
    (OpenAndSetupOneAudioUnit.setUnitFormat ip op r unit s).core = s.core := by
  cases ip <;> cases op <;> simp [OpenAndSetupOneAudioUnit.setUnitFormat]

theorem Setup.core_audioConverterNew (s : Setup) (status : Int) :
    (s.audioConverterNew status).core =
      if s.failed = true ∨ status ≠ 0 then s.core
      else (Resource.converter (s.world.fresh + 1) :: s.world.held, s.world.fresh + 1,
        s.world.fresh + 1, s.audioUnit) := by
  unfold Setup.audioConverterNew
  rw [Setup.core_ERR_WRAP]
  unfold Setup.step
  by_cases hf : s.failed = true <;> by_cases hs : status = 0 <;>
    simp [hf, hs, Setup.core, World.next, World.bump, World.acquire]

theorem setConverterAndCallbacks_core (ip op : Option PaStreamParameters) (rate : ℚ)
    (r : UnitReplies) (unit : Nat) (s : Setup) :
    (OpenAndSetupOneAudioUnit.setConverterAndCallbacks ip op rate r unit s).core = s.core ∨
    (OpenAndSetupOneAudioUnit.setConverterAndCallbacks ip op rate r unit s).core =
      (Resource.converter (s.world.fresh + 1) :: s.world.held, s.world.fresh + 1,
        s.world.fresh + 1, s.audioUnit) := by
  cases ip with
  | none => left; simp [OpenAndSetupOneAudioUnit.setConverterAndCallbacks]
  | some p =>
    have h1 := Setup.core_ERR_WRAP s
      (Call.AudioUnitGetProperty unit Property.StreamFormat Scope.Output INPUT_ELEMENT)
      r.getSourceFormat
    simp only [OpenAndSetupOneAudioUnit.setConverterAndCallbacks, Option.isSome_some, if_true,
      Bool.true_and]
    generalize s.ERR_WRAP
      (Call.AudioUnitGetProperty unit Property.StreamFormat Scope.Output INPUT_ELEMENT)
      r.getSourceFormat = s1 at h1 ⊢
    simp only [Setup.core, Prod.mk.injEq] at h1
    obtain ⟨e1, e2, e3, e4⟩ := h1
    by_cases hr : rate = r.sourceSampleRate
    · left
      simp [hr]
      simp [Setup.core, e1, e2, e3, e4]
    · by_cases hc : s1.failed = true ∨ r.audioConverterNew ≠ 0
      · left
        simp [hr, Setup.core_audioConverterNew, hc]
        simp [Setup.core, e1, e2, e3, e4]
      · right
        simp [hr, Setup.core_audioConverterNew, hc]
        simp [e1, e2, e3, e4]

/-- The resources and handles after `OpenAndSetupOneAudioUnit`, whatever the
platform answers: the unit is held exactly when `*audioUnit` is non-`NULL`,
the converter exactly when `*srConverter` is. -/
theorem OpenAndSetupOneAudioUnit_held (setError : Int → PaError)
    (ip op : Option PaStreamParameters) (n : Nat) (a b : Bool) (api : PaMacAUHAL) (rate : ℚ)
    (r : UnitReplies) (w : World) (u : UnitResult)
    (hu : OpenAndSetupOneAudioUnit setError ip op n a b api rate r w = u) :
    u.world.held =
      (if u.srConverter ≠ 0 then [Resource.converter u.srConverter] else []) ++
      (if u.audioUnit ≠ 0 then [Resource.audioUnit u.audioUnit] else []) ++ w.held ∧
    w.fresh ≤ u.world.fresh ∧
    (u.audioUnit ≠ 0 → u.audioUnit = w.fresh + 1 ∧ w.fresh + 1 ≤ u.world.fresh) := by
  unfold OpenAndSetupOneAudioUnit at hu
  split_ifs at hu with h1 h2 h3
  · subst hu; simp
  · subst hu; simp [World.log]
  · subst hu; simp [World.log]
  · generalize hs0 : (⟨(((w.log Call.FindNextComponent).bump).log (Call.OpenAComponent w.next)).acquire
        (Resource.audioUnit w.next), w.next, 0, kAudioDeviceUnknown, 0, 0, toOSErr r.openAComponent,
        paNoError, false⟩ : Setup) = s0 at hu
    have h0 : s0.core = (Resource.audioUnit (w.fresh + 1) :: w.held, w.fresh + 1, 0, w.fresh + 1) := by
      subst hs0; rfl
    generalize hs3 : OpenAndSetupOneAudioUnit.setUnitFormat ip op r w.next
      (OpenAndSetupOneAudioUnit.setDeviceFormat ip op n a b r
        (OpenAndSetupOneAudioUnit.setDevices ip op api r w.next s0)) = s3 at hu
    have h3 : s3.core = s0.core := by subst hs3; simp
    have h4 := setConverterAndCallbacks_core ip op rate r w.next s3
    generalize OpenAndSetupOneAudioUnit.setConverterAndCallbacks ip op rate r w.next s3 = s4 at h4 hu
    rw [h3, h0] at h4
    simp only [Setup.core, Prod.mk.injEq] at h3 h0 h4
    unfold OpenAndSetupOneAudioUnit.finish at hu
    rcases h4 with ⟨e1, e2, e3, e4⟩ | ⟨e1, e2, e3, e4⟩ <;>
      split_ifs at hu <;> subst hu <;>
      simp [World.log, World.release, e1, e2, e3, e4, h0, h3] <;> omega

/-- Without input parameters no converter is created. -/
theorem OpenAndSetupOneAudioUnit_srConverter_none (setError : Int → PaError)
    (op : Option PaStreamParameters) (n : Nat) (a b : Bool) (api : PaMacAUHAL) (rate : ℚ)
    (r : UnitReplies) (w : World) :
    (OpenAndSetupOneAudioUnit setError none op n a b api rate r w).srConverter = 0 := by
  unfold OpenAndSetupOneAudioUnit
  split_ifs with h1 h2 h3
  · rfl
  · rfl
  · rfl
  · generalize hs0 : (⟨(((w.log Call.FindNextComponent).bump).log (Call.OpenAComponent w.next)).acquire
        (Resource.audioUnit w.next), w.next, 0, kAudioDeviceUnknown, 0, 0, toOSErr r.openAComponent,
        paNoError, false⟩ : Setup) = s0
    have h0 : s0.core = (Resource.audioUnit (w.fresh + 1) :: w.held, w.fresh + 1, 0, w.fresh + 1) := by
      subst hs0; rfl
    have h4 : (OpenAndSetupOneAudioUnit.setConverterAndCallbacks none op rate r w.next
        (OpenAndSetupOneAudioUnit.setUnitFormat none op r w.next
          (OpenAndSetupOneAudioUnit.setDeviceFormat none op n a b r
            (OpenAndSetupOneAudioUnit.setDevices none op api r w.next s0)))).core = s0.core := by
      simp [OpenAndSetupOneAudioUnit.setConverterAndCallbacks]
    generalize OpenAndSetupOneAudioUnit.setConverterAndCallbacks none op rate r w.next
        (OpenAndSetupOneAudioUnit.setUnitFormat none op r w.next
          (OpenAndSetupOneAudioUnit.setDeviceFormat none op n a b r
            (OpenAndSetupOneAudioUnit.setDevices none op api r w.next s0))) = s4 at h4 ⊢
    rw [h0] at h4
    simp only [Setup.core, Prod.mk.injEq] at h4
    unfold OpenAndSetupOneAudioUnit.finish
    split_ifs <;> simp [h4]

@[simp] theorem World.held_log (w : World) (c : Call) : (w.log c).held = w.held := rfl

@[simp] theorem World.held_release (w : World) (r : Resource) :
    (w.release r).held = w.held.erase r := rfl

@[simp] theorem World.held_acquire (w : World) (r : Resource) :
    (w.acquire r).held = r :: w.held := rfl

@[simp] theorem World.held_bump (w : World) : w.bump.held = w.held := rfl

theorem World.held_releaseIf (w : World) (c : Prop) [Decidable c] (calls : List Call)
    (r : Resource) : (w.releaseIf c calls r).held = eraseIf c r w.held := rfl

/-- Releasing the resource at the head of the list, under the condition it is
held under. -/
theorem eraseIf_self (c : Prop) [Decidable c] (x : Resource) (L : List Resource) :
    eraseIf c x ((if c then [x] else []) ++ L) = L := by
  unfold eraseIf; split <;> simp

/-- Releasing a resource passes over a different one. -/
theorem eraseIf_skip (c d : Prop) [Decidable c] [Decidable d] (x y : Resource)
    (L : List Resource) (hxy : c → d → y ≠ x) :
    eraseIf c x ((if d then [y] else []) ++ L) = (if d then [y] else []) ++ eraseIf c x L := by
  unfold eraseIf
  by_cases hc : c <;> by_cases hd : d <;> simp [hc, hd]
  rw [List.erase_cons_tail]
  simpa using hxy hc hd

theorem eraseIf_skip_ne (c d : Prop) [Decidable c] [Decidable d] (x y : Resource)
    (L : List Resource) (hxy : y ≠ x) :
    eraseIf c x ((if d then [y] else []) ++ L) = (if d then [y] else []) ++ eraseIf c x L :=
  eraseIf_skip c d x y L (fun _ _ => hxy)

theorem eraseIf_skip_unit (o i : Nat) (d : Prop) [Decidable d] (L : List Resource) :
    eraseIf (¬o = 0 ∧ ¬o = i) (Resource.audioUnit o)
        ((if d then [Resource.audioUnit i] else []) ++ L) =
      (if d then [Resource.audioUnit i] else []) ++
        eraseIf (¬o = 0 ∧ ¬o = i) (Resource.audioUnit o) L :=
  eraseIf_skip _ d _ _ L (fun h1 _ h2 => h1.2 (Resource.audioUnit.inj h2).symm)

theorem CloseStream_releases (st : PaMacCoreStream) (w : World) (H : List Resource)
    (h : w.held = st.holdings ++ H) :
    (CloseStream (some st) paNoError w).1 = paNoError ∧
    (CloseStream (some st) paNoError w).2.held = H := by
  constructor
  · simp [CloseStream]
  · simp only [CloseStream, CloseStream.release, CloseStream.terminate, destroyBlioRingBuffers,
      ne_eq, not_true_eq_false, if_false, true_and, World.held_releaseIf, World.held_log,
      World.held_release, h, PaMacCoreStream.holdings, List.append_assoc]
    simp only [eraseIf_self, eraseIf_skip_unit, eraseIf_skip_ne, ne_eq, reduceCtorEq,
      not_false_eq_true]
    simp

theorem OpenStream.prepare_inv (g : PaMacCoreStream) (cb : Bool) (w : World) :
    (OpenStream.prepare g cb w).Inv w.held ∧ (OpenStream.prepare g cb w).stream.Null ∧
    (OpenStream.prepare g cb w).failed = false := by
  simp [OpenStream.prepare, Opening.Inv, PaMacCoreStream.Null, PaMacCoreStream.holdings]

@[simp] theorem OpenStream.held_logRangeQueries (api : PaMacAUHAL)
    (ip op : Option PaStreamParameters) (w : World) :
    (OpenStream.logRangeQueries api ip op w).held = w.held := by
  cases ip <;> cases op <;> rfl

theorem OpenStream.openUnits_inv (setError : Int → PaError) (api : PaMacAUHAL)
    (ip op : Option PaStreamParameters) (rate : ℚ) (n : Nat) (r : OpenReplies) (o : Opening)
    (H : List Resource) (hi : o.Inv H) (hn : o.stream.Null) :
    (OpenStream.openUnits setError api ip op rate n r o).Inv H ∧
    (OpenStream.openUnits setError api ip op rate n r o).stream.bufferProcessorIsInitialized
      = false ∧
    (OpenStream.openUnits setError api ip op rate n r o).stream.blio.allocated = false ∧
    (OpenStream.openUnits setError api ip op rate n r o).stream.inputRingBuffer.buffer = 0 ∧
    (OpenStream.openUnits setError api ip op rate n r o).stream.inputAudioBufferList.mData = 0 := by
  obtain ⟨n1, n2, n3, n4, n5, n6, n7⟩ := hn
  have hH : o.world.held =
      Resource.streamRepresentation :: Resource.streamObject o.stream.self :: H := by
    rw [hi]; simp [PaMacCoreStream.holdings, n1, n2, n3, n4, n5, n6, n7]
  unfold OpenStream.openUnits
  split_ifs with hd
  · obtain ⟨e1, e2, e3⟩ := OpenAndSetupOneAudioUnit_held setError ip op n true true api rate
      r.firstUnit o.world _ rfl
    generalize OpenAndSetupOneAudioUnit setError ip op n true true api rate r.firstUnit o.world
      = u at e1 e2 e3 ⊢
    simp [Opening.Inv, Opening.check, PaMacCoreStream.holdings, n1, n2, n3, n4, e1, hH]
  · obtain ⟨e1, e2, e3⟩ := OpenAndSetupOneAudioUnit_held setError none op n false true api rate
      r.firstUnit o.world _ rfl
    have e4 := OpenAndSetupOneAudioUnit_srConverter_none setError op n false true api rate
      r.firstUnit o.world
    generalize OpenAndSetupOneAudioUnit setError none op n false true api rate r.firstUnit o.world
      = u at e1 e2 e3 e4 ⊢
    simp only [Opening.check, Opening.step]
    split_ifs with hf
    · simp [Opening.Inv, PaMacCoreStream.holdings, n1, n2, n3, n4, n5, n6, e1, e4, hH]
    · obtain ⟨f1, f2, f3⟩ := OpenAndSetupOneAudioUnit_held setError ip none n true false api rate
        r.secondUnit u.world _ rfl
      generalize OpenAndSetupOneAudioUnit setError ip none n true false api rate r.secondUnit
        u.world = v at f1 f2 f3 ⊢
      have hne : u.audioUnit ≠ 0 → u.audioUnit ≠ v.audioUnit := by
        intro hu hv
        have := e3 hu
        have := f3 (hv ▸ hu)
        omega
      by_cases hu : u.audioUnit = 0
      · simp [Opening.Inv, PaMacCoreStream.holdings, n1, n2, n3, n4, n5, n6, e1, e4, f1, hH, hu]
      · simp [Opening.Inv, PaMacCoreStream.holdings, n1, n2, n3, n4, n5, n6, e1, e4, f1, hH, hu,
          hne hu]

theorem OpenStream.allocateRing_inv (r : OpenReplies) (o : Opening) (H : List Resource)
    (hi : o.Inv H) (h1 : o.stream.bufferProcessorIsInitialized = false)
    (h2 : o.stream.blio.allocated = false) (h3 : o.stream.inputRingBuffer.buffer = 0) :
    (OpenStream.allocateRing r o).Inv H ∧
    (OpenStream.allocateRing r o).stream.bufferProcessorIsInitialized = false ∧
    (OpenStream.allocateRing r o).stream.blio.allocated = false := by
  unfold Opening.Inv at hi
  unfold OpenStream.allocateRing
  split_ifs with hc ha hout
  · simp [Opening.Inv, Opening.fail, hi, h1, h2]
  · simp [Opening.Inv, hi, h1, h2, h3, PaMacCoreStream.holdings, RingBuffer_AdvanceWriteIndex,
      RingBuffer_Init, RingBuffer_Flush, World.next]
  · simp [Opening.Inv, hi, h1, h2, h3, PaMacCoreStream.holdings, RingBuffer_AdvanceWriteIndex,
      RingBuffer_Init, RingBuffer_Flush, World.next]
  · exact ⟨hi, h1, h2⟩

theorem OpenStream.allocateInputBuffers_inv (c : Int) (r : OpenReplies) (o : Opening)
    (H : List Resource)
    (hi : o.Inv H) (h1 : o.stream.bufferProcessorIsInitialized = false)
    (h2 : o.stream.blio.allocated = false) (h3 : o.stream.inputRingBuffer.buffer = 0)
    (h4 : o.stream.inputAudioBufferList.mData = 0) :
    (OpenStream.allocateInputBuffers c r o).Inv H ∧
    (OpenStream.allocateInputBuffers c r o).stream.bufferProcessorIsInitialized = false ∧
    (OpenStream.allocateInputBuffers c r o).stream.blio.allocated = false := by
  unfold OpenStream.allocateInputBuffers
  split_ifs with hc ha
  · unfold Opening.Inv at hi
    simp [Opening.Inv, Opening.fail, hi, h1, h2, h3, h4, PaMacCoreStream.holdings]
  · apply OpenStream.allocateRing_inv
    · unfold Opening.Inv at hi
      simp [Opening.Inv, hi, h1, h2, h3, h4, PaMacCoreStream.holdings, World.next]
    · exact h1
    · exact h2
    · exact h3
  · exact ⟨hi, h1, h2⟩

theorem OpenStream.initializeProcessors_inv (ci co : Int) (n : Nat) (cb : Bool)
    (r : OpenReplies) (o : Opening) (H : List Resource)
    (hi : o.Inv H) (h1 : o.stream.bufferProcessorIsInitialized = false)
    (h2 : o.stream.blio.allocated = false) :
    (OpenStream.initializeProcessors ci co n cb r o).Inv H := by
  unfold Opening.Inv at hi
  unfold OpenStream.initializeProcessors
  cases cb <;> by_cases hb : r.initializeBlioRingBuffers = 0 <;>
    by_cases hp : r.initializeBufferProcessor = 0 <;> by_cases hf : o.failed = true <;>
    simp [Opening.Inv, Opening.check, Opening.step, hi, h1, h2, hb, hp, hf,
      PaMacCoreStream.holdings, paNoError]

theorem OpenStream.acquire_eq (setError : Int → PaError) (api : PaMacAUHAL)
    (ip op : Option PaStreamParameters) (rate : ℚ) (n : Nat) (cb : Bool) (r : OpenReplies)
    (g : PaMacCoreStream) (w : World) :
    OpenStream.acquire setError api ip op rate n cb r g w =
      Opening.step (Opening.step (OpenStream.openUnits setError api ip op rate
        (OpenStream.resolveFramesPerBuffer ip op rate n r.inputRange r.outputRange) r
        (OpenStream.started api ip op n cb g w))
        (OpenStream.allocateInputBuffers ((ip.map (·.channelCount)).getD 0) r))
        (OpenStream.initializeProcessors
          ((ip.map (·.channelCount)).getD 0) ((op.map (·.channelCount)).getD 0)
          (OpenStream.resolveFramesPerBuffer ip op rate n r.inputRange r.outputRange)
          cb r) := rfl

/-- Whatever happens during `OpenStream`, the resources held on top of those
held before are those the stream names. -/
theorem OpenStream.acquire_inv (setError : Int → PaError) (api : PaMacAUHAL)
    (ip op : Option PaStreamParameters) (rate : ℚ) (n : Nat) (cb : Bool) (r : OpenReplies)
    (g : PaMacCoreStream) (w : World) :
    (OpenStream.acquire setError api ip op rate n cb r g w).Inv w.held := by
  obtain ⟨i1, i2, i3⟩ := OpenStream.prepare_inv g cb w
  rw [OpenStream.acquire_eq]
  unfold OpenStream.started
  generalize OpenStream.prepare g cb w = o0 at i1 i2 i3 ⊢
  have j : ∀ o1 : Opening, o1.stream = o0.stream → o1.world.held = o0.world.held →
      (Opening.step (Opening.step (OpenStream.openUnits setError api ip op rate
        (OpenStream.resolveFramesPerBuffer ip op rate n r.inputRange r.outputRange) r o1)
        (OpenStream.allocateInputBuffers ((ip.map (·.channelCount)).getD 0) r))
        (OpenStream.initializeProcessors
          ((ip.map (·.channelCount)).getD 0) ((op.map (·.channelCount)).getD 0)
          (OpenStream.resolveFramesPerBuffer ip op rate n r.inputRange r.outputRange)
          cb r)).Inv w.held := by
    intro o1 hs hw
    have k1 : o1.Inv w.held := by
      unfold Opening.Inv at i1 ⊢; rw [hs, hw, i1]
    obtain ⟨a1, a2, a3, a4, a5⟩ := OpenStream.openUnits_inv setError api ip op rate
      (OpenStream.resolveFramesPerBuffer ip op rate n r.inputRange r.outputRange) r o1 w.held k1
      (hs ▸ i2)
    generalize OpenStream.openUnits setError api ip op rate
      (OpenStream.resolveFramesPerBuffer ip op rate n r.inputRange r.outputRange) r o1 = o2
      at a1 a2 a3 a4 a5 ⊢
    have b : (o2.step (OpenStream.allocateInputBuffers ((ip.map (·.channelCount)).getD 0) r)).Inv
        w.held ∧
        (o2.step (OpenStream.allocateInputBuffers ((ip.map (·.channelCount)).getD 0)
          r)).stream.bufferProcessorIsInitialized = false ∧
        (o2.step (OpenStream.allocateInputBuffers ((ip.map (·.channelCount)).getD 0)
          r)).stream.blio.allocated = false := by
      unfold Opening.step
      split_ifs
      · exact ⟨a1, a2, a3⟩
      · exact OpenStream.allocateInputBuffers_inv _ r o2 w.held a1 a2 a3 a4 a5
    obtain ⟨b1, b2, b3⟩ := b
    generalize o2.step (OpenStream.allocateInputBuffers ((ip.map (·.channelCount)).getD 0) r) = o3
      at b1 b2 b3 ⊢
    unfold Opening.step
    split_ifs
    · exact b1
    · exact OpenStream.initializeProcessors_inv _ _ _ cb r o3 w.held b1 b2 b3
  split_ifs
  · exact j _ rfl (by simp)
  · exact j _ rfl rfl

@[simp] theorem Setup.failed_ERR_WRAP_zero (s : Setup) (c : Call) :
    (s.ERR_WRAP c 0).failed = s.failed := by
  unfold Setup.ERR_WRAP Setup.step; split <;> simp_all [toOSErr, noErr]

@[simp] theorem Setup.failed_paCheck_zero (s : Setup) (c : Call) :
    (s.paCheck c 0).failed = s.failed := by
  unfold Setup.paCheck Setup.step; split <;> simp_all [paNoError]

@[simp] theorem Setup.failed_setAudioDevice (s : Setup) (d : Nat) :
    (s.setAudioDevice d).failed = s.failed := by
  unfold Setup.setAudioDevice Setup.step; split <;> rfl

@[simp] theorem Setup.failed_clearResult (s : Setup) : s.clearResult.failed = s.failed := by
  unfold Setup.clearResult Setup.step; split <;> rfl

@[simp] theorem Setup.failed_setActualInput (s : Setup) (n : Nat) :
    (s.setActualInput n).failed = s.failed := by
  unfold Setup.setActualInput Setup.step; split <;> rfl

@[simp] theorem Setup.failed_setActualOutput (s : Setup) (n : Nat) :
    (s.setActualOutput n).failed = s.failed := by
  unfold Setup.setActualOutput Setup.step; split <;> rfl

@[simp] theorem Setup.failed_copyActualInputToOutput (s : Setup) :
    s.copyActualInputToOutput.failed = s.failed := by
  unfold Setup.copyActualInputToOutput Setup.step; split <;> rfl

@[simp] theorem Setup.failed_audioConverterNew_zero (s : Setup) :
    (s.audioConverterNew 0).failed = s.failed := by
  unfold Setup.audioConverterNew
  simp only [Setup.failed_ERR_WRAP_zero]
  unfold Setup.step; split <;> simp_all

@[simp] theorem Setup.failed_ite (c : Prop) [Decidable c] (a b : Setup) :
    (if c then a else b).failed = if c then a.failed else b.failed := by
  split <;> rfl

/-- When every call succeeds, `OpenAndSetupOneAudioUnit` returns `paNoError`. -/
theorem OpenAndSetupOneAudioUnit_succeeds (setError : Int → PaError)
    (ip op : Option PaStreamParameters) (n : Nat) (a b : Bool) (api : PaMacAUHAL) (rate : ℚ)
    (r : UnitReplies) (w : World) (hr : r.succeeds) :
    (OpenAndSetupOneAudioUnit setError ip op n a b api rate r w).paResult = paNoError := by
  obtain ⟨h1, h2, h3, h4, h5, h6, h7, h8, h9, h10, h11, h12, h13, h14, h15, h16, h17, h18, h19,
    h20, h21⟩ := hr
  simp only [paNoError] at h7 h8
  unfold OpenAndSetupOneAudioUnit OpenAndSetupOneAudioUnit.finish
  have hf : (OpenAndSetupOneAudioUnit.setConverterAndCallbacks ip op rate r w.next
      (OpenAndSetupOneAudioUnit.setUnitFormat ip op r w.next
        (OpenAndSetupOneAudioUnit.setDeviceFormat ip op n a b r
          (OpenAndSetupOneAudioUnit.setDevices ip op api r w.next
            ⟨(((w.log Call.FindNextComponent).bump).log (Call.OpenAComponent w.next)).acquire
                (Resource.audioUnit w.next),
              w.next, 0, kAudioDeviceUnknown, 0, 0, toOSErr r.openAComponent, paNoError,
              false⟩)))).failed = false := by
    cases ip <;> cases op <;>
      simp [OpenAndSetupOneAudioUnit.setConverterAndCallbacks,
        OpenAndSetupOneAudioUnit.setUnitFormat, OpenAndSetupOneAudioUnit.setDeviceFormat,
        OpenAndSetupOneAudioUnit.setDevices, h1, h2, h3, h4, h5, h6, h7, h8, h9, h10, h11, h12,
        h13, h14, h15, h16, h17, h18, h19, h20, h21]
  generalize OpenAndSetupOneAudioUnit.setConverterAndCallbacks ip op rate r w.next
      (OpenAndSetupOneAudioUnit.setUnitFormat ip op r w.next
        (OpenAndSetupOneAudioUnit.setDeviceFormat ip op n a b r
          (OpenAndSetupOneAudioUnit.setDevices ip op api r w.next
            ⟨(((w.log Call.FindNextComponent).bump).log (Call.OpenAComponent w.next)).acquire
                (Resource.audioUnit w.next),
              w.next, 0, kAudioDeviceUnknown, 0, 0, toOSErr r.openAComponent, paNoError,
              false⟩))) = s4 at hf ⊢
  simp only [hf, h1, h2, toOSErr, noErr]
  simp
  split <;> rfl

theorem OpenStream.openUnits_succeeds (setError : Int → PaError) (api : PaMacAUHAL)
    (ip op : Option PaStreamParameters) (rate : ℚ) (n : Nat) (r : OpenReplies) (o : Opening)
    (h1 : r.firstUnit.succeeds) (h2 : r.secondUnit.succeeds) :
    (OpenStream.openUnits setError api ip op rate n r o).failed = false := by
  unfold OpenStream.openUnits
  split_ifs
  · simp [Opening.check, OpenAndSetupOneAudioUnit_succeeds _ _ _ _ _ _ _ _ _ _ h1]
  · simp [Opening.check, Opening.step, OpenAndSetupOneAudioUnit_succeeds _ _ _ _ _ _ _ _ _ _ h1,
      OpenAndSetupOneAudioUnit_succeeds _ _ _ _ _ _ _ _ _ _ h2]

theorem OpenStream.allocateInputBuffers_succeeds (c : Int) (r : OpenReplies) (o : Opening)
    (h1 : r.callocScratch = true) (h2 : r.callocRing = true) (hf : o.failed = false) :
    (OpenStream.allocateInputBuffers c r o).failed = false := by
  unfold OpenStream.allocateInputBuffers OpenStream.allocateRing
  simp only [h1, h2]
  split_ifs <;> simp_all

theorem OpenStream.initializeProcessors_succeeds (ci co : Int) (n : Nat) (cb : Bool)
    (r : OpenReplies) (o : Opening) (h1 : r.initializeBlioRingBuffers = paNoError)
    (h2 : r.initializeBufferProcessor = paNoError) (hf : o.failed = false) :
    (OpenStream.initializeProcessors ci co n cb r o).failed = false := by
  unfold OpenStream.initializeProcessors
  cases cb <;> simp [h1, h2, hf, Opening.check, Opening.step]

theorem OpenStream.acquire_succeeds (setError : Int → PaError) (api : PaMacAUHAL)
    (ip op : Option PaStreamParameters) (rate : ℚ) (n : Nat) (cb : Bool) (r : OpenReplies)
    (g : PaMacCoreStream) (w : World) (hr : r.succeeds) :
    (OpenStream.acquire setError api ip op rate n cb r g w).failed = false := by
  obtain ⟨_, h1, h2, h3, h4, h5, h6⟩ := hr
  rw [OpenStream.acquire_eq]
  have a := OpenStream.openUnits_succeeds setError api ip op rate
    (OpenStream.resolveFramesPerBuffer ip op rate n r.inputRange r.outputRange) r
    (OpenStream.started api ip op n cb g w) h1 h2
  generalize OpenStream.openUnits setError api ip op rate
    (OpenStream.resolveFramesPerBuffer ip op rate n r.inputRange r.outputRange) r
    (OpenStream.started api ip op n cb g w) = o2 at a ⊢
  have b := OpenStream.allocateInputBuffers_succeeds ((ip.map (·.channelCount)).getD 0) r
    o2 h3 h4 a
  have b' : (o2.step (OpenStream.allocateInputBuffers ((ip.map (·.channelCount)).getD 0)
      r)).failed = false := by
    unfold Opening.step; rw [a]; exact b
  generalize o2.step (OpenStream.allocateInputBuffers ((ip.map (·.channelCount)).getD 0) r) = o3
    at b' ⊢
  unfold Opening.step; rw [b']
  exact OpenStream.initializeProcessors_succeeds _ _ _ cb r _ h5 h6 b'

/-- When the last stage of `OpenStream` does not fail, `result` is
`paNoError`: the success path returns no other value. -/
theorem OpenStream.acquire_result (setError : Int → PaError) (api : PaMacAUHAL)
    (ip op : Option PaStreamParameters) (rate : ℚ) (n : Nat) (cb : Bool) (r : OpenReplies)
    (g : PaMacCoreStream) (w : World)
    (hf : (OpenStream.acquire setError api ip op rate n cb r g w).failed = false) :
    (OpenStream.acquire setError api ip op rate n cb r g w).result = paNoError := by
  rw [OpenStream.acquire_eq] at hf ⊢
  generalize Opening.step _ (OpenStream.allocateInputBuffers _ r) = o3 at hf ⊢
  revert hf
  simp only [Opening.step, OpenStream.initializeProcessors]
  cases cb <;> by_cases hb : r.initializeBlioRingBuffers = 0 <;>
    by_cases hp : r.initializeBufferProcessor = 0 <;> by_cases h3 : o3.failed = true <;>
    simp [Opening.check, Opening.step, hb, hp, h3, paNoError]

theorem StartStream_succeeds (setError : Int → PaError) (stream : PaMacCoreStream)
    (r : StartReplies) (w : World) (hr : r.succeeds) :
    (StartStream setError stream r w).result = paNoError ∧
    (StartStream setError stream r w).stream.state = StreamState.ACTIVE := by
  obtain ⟨h1, h2, h3⟩ := hr
  unfold StartStream
  by_cases a : stream.inputSRConverter = 0 <;> by_cases b : stream.inputUnit = 0 <;>
    by_cases c : stream.outputUnit = 0 <;> by_cases d : stream.outputUnit = stream.inputUnit <;>
    simp [Control.ERR_WRAP, Control.step, Control.result, toOSErr, noErr, h1, h2, h3, a, b, c, d]

theorem checkInput_eq_none_iff (hostApi : PaMacAUHAL) (ip : Option PaStreamParameters) :
    OpenStream.checkInput hostApi ip = none ↔ inputAccepted hostApi ip := by
  cases ip with
  | none => simp [OpenStream.checkInput, inputAccepted]
  | some p =>
    simp only [OpenStream.checkInput, inputAccepted, Option.some.injEq, forall_eq']
    split_ifs with h1 h2 <;> simp_all

theorem checkOutput_eq_none_iff (hostApi : PaMacAUHAL) (op : Option PaStreamParameters) :
    OpenStream.checkOutput hostApi op = none ↔ outputAccepted hostApi op := by
  cases op with
  | none => simp [OpenStream.checkOutput, outputAccepted]
  | some p =>
    simp only [OpenStream.checkOutput, outputAccepted, Option.some.injEq, forall_eq']
    split_ifs with h1 h2 <;> simp_all

theorem Opening.sound_check (o : Opening) (e : PaError) : (o.check e).Sound := by
  unfold Opening.Sound Opening.check; simp

theorem Opening.sound_step (o : Opening) (f : Opening → Opening) (h : o.Sound)
    (hf : (f o).Sound) : (o.step f).Sound := by
  unfold Opening.step; split
  · exact h
  · exact hf

theorem OpenStream.openUnits_sound (setError : Int → PaError) (api : PaMacAUHAL)
    (ip op : Option PaStreamParameters) (rate : ℚ) (n : Nat) (r : OpenReplies) (o : Opening) :
    (OpenStream.openUnits setError api ip op rate n r o).Sound := by
  unfold OpenStream.openUnits
  split_ifs
  · exact Opening.sound_check _ _
  · exact Opening.sound_step _ _ (Opening.sound_check _ _) (Opening.sound_check _ _)

theorem OpenStream.allocateInputBuffers_sound (c : Int) (r : OpenReplies) (o : Opening)
    (h : o.Sound) : (OpenStream.allocateInputBuffers c r o).Sound := by
  unfold OpenStream.allocateInputBuffers OpenStream.allocateRing
  unfold Opening.Sound at h ⊢
  split_ifs <;> simp_all [Opening.fail, paInsufficientMemory, paNoError]

theorem OpenStream.initializeProcessors_sound (ci co : Int) (n : Nat) (cb : Bool)
    (r : OpenReplies) (o : Opening) (h : o.Sound) :
    (OpenStream.initializeProcessors ci co n cb r o).Sound := by
  unfold OpenStream.initializeProcessors
  cases cb
  · simp only [Bool.not_false, if_true]
    split_ifs
    · exact Opening.sound_step _ _ (Opening.sound_check _ _)
        (Opening.sound_step _ _ (Opening.sound_check _ _) (by
          unfold Opening.Sound Opening.check; simp))
    · exact Opening.sound_step _ _ (Opening.sound_check _ _)
        (Opening.sound_step _ _ (Opening.sound_check _ _) (by
          unfold Opening.Sound Opening.check; simp))
  · simp only [Bool.not_true, Bool.false_eq_true, if_false]
    exact Opening.sound_step _ _ h
      (Opening.sound_step _ _ (Opening.sound_check _ _) (by
        unfold Opening.Sound Opening.check; simp))

theorem OpenStream.acquire_sound (setError : Int → PaError) (api : PaMacAUHAL)
    (ip op : Option PaStreamParameters) (rate : ℚ) (n : Nat) (cb : Bool) (r : OpenReplies)
    (g : PaMacCoreStream) (w : World) :
    (OpenStream.acquire setError api ip op rate n cb r g w).Sound := by
  rw [OpenStream.acquire_eq]
  have a := OpenStream.openUnits_sound setError api ip op rate
    (OpenStream.resolveFramesPerBuffer ip op rate n r.inputRange r.outputRange) r
    (OpenStream.started api ip op n cb g w)
  generalize OpenStream.openUnits setError api ip op rate
    (OpenStream.resolveFramesPerBuffer ip op rate n r.inputRange r.outputRange) r
    (OpenStream.started api ip op n cb g w) = o2 at a ⊢
  have b := Opening.sound_step o2 _ a
    (OpenStream.allocateInputBuffers_sound ((ip.map (·.channelCount)).getD 0) r o2 a)
  exact Opening.sound_step _ _ b (OpenStream.initializeProcessors_sound _ _ _ cb r _ b)

/-- The shape of what `OpenStream` returns once the parameters are accepted
and the stream object is allocated. -/
theorem OpenStream.open_some (setError : Int → PaError) (api : PaMacAUHAL)
    (ip op : Option PaStreamParameters) (rate : ℚ) (n : Nat) (cb : Bool) (r : OpenReplies)
    (g : PaMacCoreStream) (w : World) (hg : r.allocateStream = some g) :
    OpenStream.open setError api ip op rate n cb r w =
      if (OpenStream.acquire setError api ip op rate n cb r g w).failed = false then
        ⟨(OpenStream.acquire setError api ip op rate n cb r g w).result,
          some { (OpenStream.acquire setError api ip op rate n cb r g w).stream with
            sampleRate := rate
            userInChan := (ip.map (·.channelCount)).getD 0
            userOutChan := (op.map (·.channelCount)).getD 0
            isTimeSet := false
            state := StreamState.STOPPED
            xrunFlags := 0 },
          (OpenStream.acquire setError api ip op rate n cb r g w).world⟩
      else
        ⟨(OpenStream.acquire setError api ip op rate n cb r g w).result, none,
          (CloseStream (some (OpenStream.acquire setError api ip op rate n cb r g w).stream)
            r.destroyBlioRingBuffers
            (OpenStream.acquire setError api ip op rate n cb r g w).world).2⟩ := by
  unfold OpenStream.open
  rw [hg]
  simp only []
  generalize OpenStream.acquire setError api ip op rate n cb r g w = o
  cases h : o.failed <;> simp

theorem exchange_eq_paContinue (x : Int) : exchange x = paContinue ↔ x = paContinue := by
  unfold exchange paContinue paComplete paAbort
  split_ifs <;> omega

theorem exchange_complete_or_abort (x : Int) :
    (exchange x = paComplete ∨ exchange x = paAbort) ↔ (x = paComplete ∨ x = paAbort) := by
  unfold exchange paComplete paAbort
  split_ifs <;> omega

@[simp] theorem IOState.exchange_stream (st : IOState) : st.exchange.stream = st.stream := rfl
@[simp] theorem IOState.exchange_world (st : IOState) : st.exchange.world = st.world := rfl
@[simp] theorem IOState.exchange_inNumberFrames (st : IOState) :
    st.exchange.inNumberFrames = st.inNumberFrames := rfl
@[simp] theorem IOState.exchange_fills (st : IOState) : st.exchange.fills = st.fills := rfl
@[simp] theorem IOState.exchange_callbackResult (st : IOState) :
    st.exchange.callbackResult = PaMacCore.exchange st.callbackResult := rfl
@[simp] theorem IOState.exchange_log (st : IOState) (c : Call) :
    st.exchange.log c = (st.log c).exchange := rfl
@[simp] theorem IOState.exchange_beginProcessing (st : IOState) (x : Nat) :
    st.exchange.beginProcessing x = (st.beginProcessing x).exchange := rfl
@[simp] theorem IOState.exchange_endProcessing (st : IOState) (r : IOReplies) :
    st.exchange.endProcessing r.exchange = (st.endProcessing r).exchange := rfl
@[simp] theorem IOState.exchange_flag (st : IOState) (f : Nat) :
    st.exchange.flag f = (st.flag f).exchange := rfl
@[simp] theorem IOState.exchange_setRing (st : IOState) (rb : RingBuffer) :
    st.exchange.setRing rb = (st.setRing rb).exchange := rfl
@[simp] theorem IOState.exchange_fillResult (st : IOState) (n : Nat) (r : IOReplies) :
    st.exchange.fillResult n r.exchange = st.fillResult n r := rfl
@[simp] theorem IOState.exchange_fill (st : IOState) (n : Nat) (r : IOReplies) :
    st.exchange.fill n r.exchange = (st.fill n r).exchange := rfl
@[simp] theorem IOState.exchange_renderInput (st : IOState) (r : IOReplies) :
    st.exchange.renderInput r.exchange = (st.renderInput r).exchange := rfl
theorem IOState.exchange_ite (c : Prop) [Decidable c] (a b : IOState) :
    (if c then a.exchange else b.exchange) = (if c then a else b).exchange := by
  split <;> rfl

theorem duplex_exchange (ioData : AudioBuffer) (r : IOReplies) (st : IOState) :
    AudioIOProc.duplex ioData r.exchange st.exchange = (AudioIOProc.duplex ioData r st).exchange := by
  rfl

theorem renderConverted_exchange (f c : Nat) (r : IOReplies) (st : IOState) :
    AudioIOProc.renderConverted f c r.exchange st.exchange =
      (AudioIOProc.renderConverted f c r st).exchange := by
  simp only [AudioIOProc.renderConverted, IOState.exchange_fillResult, IOState.exchange_fill,
    IOState.exchange_log, IOState.exchange_flag, IOState.exchange_ite,
    IOState.exchange_endProcessing]

theorem renderFromRing_exchange (f c : Nat) (r : IOReplies) (st : IOState) :
    AudioIOProc.renderFromRing f c r.exchange st.exchange =
      (AudioIOProc.renderFromRing f c r st).exchange := by
  simp only [AudioIOProc.renderFromRing, IOState.exchange_stream, IOState.exchange_log,
    IOState.exchange_flag, IOState.exchange_ite, IOState.exchange_endProcessing,
    IOState.exchange_setRing]

theorem render_exchange (ioData : AudioBuffer) (r : IOReplies) (st : IOState) :
    AudioIOProc.render ioData r.exchange st.exchange = (AudioIOProc.render ioData r st).exchange := by
  simp only [AudioIOProc.render, IOState.exchange_stream, IOState.exchange_log,
    IOState.exchange_beginProcessing, renderConverted_exchange, renderFromRing_exchange,
    IOState.exchange_ite, IOState.exchange_endProcessing]

theorem convertOnce_exchange (c : Nat) (r : IOReplies) (st : IOState) :
    AudioIOProc.convertOnce c r.exchange st.exchange = (AudioIOProc.convertOnce c r st).exchange := by
  simp only [AudioIOProc.convertOnce, IOState.exchange_stream, IOState.exchange_log,
    IOState.exchange_beginProcessing, IOState.exchange_fillResult, IOState.exchange_fill,
    IOState.exchange_inNumberFrames,
    IOState.exchange_ite, IOState.exchange_endProcessing]

theorem convertLoop_exchange (c : Nat) (r : IOReplies) (fuel : Nat) (st : IOState) :
    AudioIOProc.convertLoop c r.exchange fuel st.exchange =
      (AudioIOProc.convertLoop c r fuel st).map IOState.exchange := by
  induction fuel generalizing st with
  | zero => rfl
  | succ n ih =>
    simp only [AudioIOProc.convertLoop, convertOnce_exchange, IOState.exchange_callbackResult,
      exchange_eq_paContinue, IOState.exchange_fillResult, IOState.exchange_inNumberFrames, ih]
    split_ifs <;> rfl

theorem capture_exchange (r : IOReplies) (fuel : Nat) (st : IOState) :
    AudioIOProc.capture r.exchange fuel st.exchange =
      (AudioIOProc.capture r fuel st).map IOState.exchange := by
  simp only [AudioIOProc.capture, IOState.exchange_renderInput, IOState.exchange_stream,
    IOState.exchange_inNumberFrames, IOState.exchange_setRing, IOState.exchange_flag,
    IOState.exchange_beginProcessing, IOState.exchange_log, IOState.exchange_endProcessing,
    IOState.exchange_ite, convertLoop_exchange]
  split_ifs <;> rfl

theorem TestConfiguration.parameters_accepted_input (api : PaMacAUHAL) (d c i : Int) (l : ℚ)
    (hd : d ≠ paUseHostApiSpecificDeviceSpecification)
    (hc : c ≤ (api.deviceInfo d).maxInputChannels) :
    inputAccepted api (some (TestConfiguration.parameters d c i l)) := by
  intro p hp
  cases hp
  exact ⟨hd, hc⟩

theorem TestConfiguration.parameters_accepted_output (api : PaMacAUHAL) (d c i : Int) (l : ℚ)
    (hd : d ≠ paUseHostApiSpecificDeviceSpecification)
    (hc : c ≤ (api.deviceInfo d).maxOutputChannels) :
    outputAccepted api (some (TestConfiguration.parameters d c i l)) := by
  intro p hp
  cases hp
  exact ⟨hd, hc⟩

/-- `OpenStream` once the parameters and the flags are accepted. -/
theorem OpenStream_eq_open (setError : Int → PaError) (api : PaMacAUHAL)
    (ip op : Option PaStreamParameters) (rate : ℚ) (n flags : Nat) (cb : Bool) (r : OpenReplies)
    (w : World) (hi : inputAccepted api ip) (ho : outputAccepted api op)
    (hf : flags &&& paPlatformSpecificFlags = 0) :
    OpenStream setError api ip op rate n flags cb r w =
      OpenStream.open setError api ip op rate n cb r w := by
  rw [← checkInput_eq_none_iff] at hi
  rw [← checkOutput_eq_none_iff] at ho
  simp [OpenStream, hi, ho, hf]

/-! ## Lemmas on `AudioIOProc` and `StopStream` -/

@[simp] theorem IOState.units_log (st : IOState) (c : Call) : (st.log c).units = st.units := rfl
@[simp] theorem IOState.units_beginProcessing (st : IOState) (x : Nat) :
    (st.beginProcessing x).units = st.units := rfl
@[simp] theorem IOState.units_endProcessing (st : IOState) (r : IOReplies) :
    (st.endProcessing r).units = st.units := rfl
@[simp] theorem IOState.units_flag (st : IOState) (f : Nat) : (st.flag f).units = st.units := rfl
@[simp] theorem IOState.units_setRing (st : IOState) (rb : RingBuffer) :
    (st.setRing rb).units = st.units := rfl
@[simp] theorem IOState.units_fill (st : IOState) (n : Nat) (r : IOReplies) :
    (st.fill n r).units = st.units := rfl
@[simp] theorem IOState.units_renderInput (st : IOState) (r : IOReplies) :
    (st.renderInput r).units = st.units := rfl
@[simp] theorem IOState.units_ite (c : Prop) [Decidable c] (a b : IOState) :
    (if c then a else b).units = if c then a.units else b.units := by
  split <;> rfl

@[simp] theorem setStreamStartTime_units (st : IOState) :
    (setStreamStartTime st).units = st.units := by
  unfold setStreamStartTime
  split_ifs <;> rfl

@[simp] theorem timing_units (b : Bool) (st : IOState) :
    (AudioIOProc.timing b st).units = st.units := by
  unfold AudioIOProc.timing
  cases b <;> simp

@[simp] theorem duplex_units (ioData : AudioBuffer) (r : IOReplies) (st : IOState) :
    (AudioIOProc.duplex ioData r st).units = st.units := rfl

@[simp] theorem renderConverted_units (f c : Nat) (r : IOReplies) (st : IOState) :
    (AudioIOProc.renderConverted f c r st).units = st.units := by
  simp only [AudioIOProc.renderConverted, IOState.units_ite, IOState.units_log,
    IOState.units_flag, IOState.units_fill, IOState.units_endProcessing, ite_self]

@[simp] theorem renderFromRing_units (f c : Nat) (r : IOReplies) (st : IOState) :
    (AudioIOProc.renderFromRing f c r st).units = st.units := by
  unfold AudioIOProc.renderFromRing
  generalize RingBuffer_GetReadRegions st.stream.inputRingBuffer (c * f * 4) = g
  dsimp only
  split_ifs <;>
  simp only [IOState.units_log, IOState.units_flag, IOState.units_setRing,
    IOState.units_endProcessing]

@[simp] theorem render_units (ioData : AudioBuffer) (r : IOReplies) (st : IOState) :
    (AudioIOProc.render ioData r st).units = st.units := by
  simp only [AudioIOProc.render, IOState.units_ite, IOState.units_log, renderConverted_units,
    renderFromRing_units, IOState.units_beginProcessing, IOState.units_endProcessing, ite_self]

@[simp] theorem convertOnce_units (c : Nat) (r : IOReplies) (st : IOState) :
    (AudioIOProc.convertOnce c r st).units = st.units := by
  simp only [AudioIOProc.convertOnce, IOState.units_ite, IOState.units_log, IOState.units_fill,
    IOState.units_beginProcessing, IOState.units_endProcessing, ite_self]

theorem convertLoop_units (c : Nat) (r : IOReplies) (fuel : Nat) (st out : IOState)
    (h : AudioIOProc.convertLoop c r fuel st = some out) : out.units = st.units := by
  induction fuel generalizing st with
  | zero => simp [AudioIOProc.convertLoop] at h
  | succ n ih =>
    simp only [AudioIOProc.convertLoop] at h
    split_ifs at h
    · rw [ih _ h]; simp
    · cases h; simp

theorem capture_units (r : IOReplies) (fuel : Nat) (st out : IOState)
    (h : AudioIOProc.capture r fuel st = some out) : out.units = st.units := by
  simp only [AudioIOProc.capture] at h
  split_ifs at h
  all_goals first
    | (rw [convertLoop_units _ _ _ _ _ h]
       simp only [IOState.units_ite, IOState.units_log, IOState.units_flag,
         IOState.units_setRing, IOState.units_beginProcessing, IOState.units_endProcessing,
         IOState.units_renderInput, ite_self])
    | (cases h
       simp only [IOState.units_ite, IOState.units_log, IOState.units_flag,
         IOState.units_setRing, IOState.units_beginProcessing, IOState.units_endProcessing,
         IOState.units_renderInput, ite_self])

theorem body_units (b : Bool) (ioData : AudioBuffer) (r : IOReplies) (fuel : Nat)
    (st out : IOState) (h : AudioIOProc.body b ioData r fuel st = some out) :
    out.units = st.units := by
  unfold AudioIOProc.body at h
  split_ifs at h
  · cases h; simp
  · cases h; simp
  · exact capture_units r fuel st out h

theorem body_exchange (b : Bool) (ioData : AudioBuffer) (r : IOReplies) (fuel : Nat)
    (st : IOState) :
    AudioIOProc.body b ioData r.exchange fuel st.exchange =
      (AudioIOProc.body b ioData r fuel st).map IOState.exchange := by
  unfold AudioIOProc.body
  simp only [IOState.exchange_stream, duplex_exchange, render_exchange, capture_exchange]
  split_ifs <;> rfl

theorem onCallbackResult_exchange (st : IOState) :
    AudioIOProc.onCallbackResult st.exchange = (AudioIOProc.onCallbackResult st).exchange := by
  unfold AudioIOProc.onCallbackResult IOState.stopUnit
  simp only [IOState.exchange_callbackResult, exchange_complete_or_abort, IOState.exchange_stream]
  split_ifs <;> rfl

/-- The run of `AudioIOProc` in which the client callback returns `paAbort`
where it returned `paComplete`, and the other way round, differs only in the
local `callbackResult`. -/
theorem AudioIOProc_exchange (stream : PaMacCoreStream) (bus n : Nat) (ioData : AudioBuffer)
    (r : IOReplies) (fuel : Nat) (w : World) :
    AudioIOProc stream bus n ioData r.exchange fuel w =
      (AudioIOProc stream bus n ioData r fuel w).map IOState.exchange := by
  unfold AudioIOProc
  have h0 : (AudioIOProc.timing (bus == OUTPUT_ELEMENT)
      ⟨stream, w.log Call.PaUtil_BeginCpuLoadMeasurement, paContinue, 0, n, 0, 0⟩) =
      (AudioIOProc.timing (bus == OUTPUT_ELEMENT)
      ⟨stream, w.log Call.PaUtil_BeginCpuLoadMeasurement, paContinue, 0, n, 0, 0⟩).exchange := by
    unfold AudioIOProc.timing setStreamStartTime
    split_ifs <;> rfl
  generalize AudioIOProc.timing (bus == OUTPUT_ELEMENT)
      ⟨stream, w.log Call.PaUtil_BeginCpuLoadMeasurement, paContinue, 0, n, 0, 0⟩ = st0 at h0 ⊢
  conv_lhs => rw [h0]
  rw [body_exchange]
  cases AudioIOProc.body (bus == OUTPUT_ELEMENT) ioData r fuel st0 with
  | none => rfl
  | some st =>
    simp only [Option.map_some', onCallbackResult_exchange]
    rfl

theorem Control.ERR_WRAP_noErr (c : Control) (setError : Int → PaError) (call : Call)
    (h : c.returned = none) :
    (c.ERR_WRAP setError call 0).returned = none ∧
      (c.ERR_WRAP setError call 0).stream = c.stream := by
  unfold Control.ERR_WRAP Control.step
  rw [h]
  exact ⟨rfl, rfl⟩

theorem StopStream.stopAndReset_succeeds (setError : Int → PaError) (r : StopReplies)
    (c : Control) (hr : r.succeeds) (h : c.returned = none) :
    (StopStream.stopAndReset setError r c).returned = none ∧
      (StopStream.stopAndReset setError r c).stream = c.stream := by
  obtain ⟨h1, h2, h3, h4, h5, h6, h7⟩ := hr
  unfold StopStream.stopAndReset
  rw [h1, h2, h3, h4, h5, h6, h7]
  have e1 := fun (c : Control) call (h : c.returned = none) =>
    (Control.ERR_WRAP_noErr c setError call h).1
  have e2 := fun (c : Control) call (h : c.returned = none) =>
    (Control.ERR_WRAP_noErr c setError call h).2
  by_cases ha : c.stream.inputUnit = c.stream.outputUnit ∧ c.stream.inputUnit ≠ 0
  · rw [if_pos ha]
    exact ⟨e1 _ _ (e1 _ _ (e1 _ _ h)),
      by rw [e2 _ _ (e1 _ _ (e1 _ _ h)), e2 _ _ (e1 _ _ h), e2 _ _ h]⟩
  · rw [if_neg ha]
    have hin : (if c.stream.inputUnit ≠ 0 then
        (c.ERR_WRAP setError (Call.AudioOutputUnitStop c.stream.inputUnit) 0).ERR_WRAP
          setError (Call.AudioUnitReset c.stream.inputUnit Scope.Global 1) 0
        else c).returned = none ∧
        (if c.stream.inputUnit ≠ 0 then
        (c.ERR_WRAP setError (Call.AudioOutputUnitStop c.stream.inputUnit) 0).ERR_WRAP
          setError (Call.AudioUnitReset c.stream.inputUnit Scope.Global 1) 0
        else c).stream = c.stream := by
      split_ifs
      · exact ⟨e1 _ _ (e1 _ _ h), by rw [e2 _ _ (e1 _ _ h), e2 _ _ h]⟩
      · exact ⟨h, rfl⟩
    generalize (if c.stream.inputUnit ≠ 0 then
        (c.ERR_WRAP setError (Call.AudioOutputUnitStop c.stream.inputUnit) 0).ERR_WRAP
          setError (Call.AudioUnitReset c.stream.inputUnit Scope.Global 1) 0
        else c) = c1 at hin ⊢
    show (if c1.stream.outputUnit ≠ 0 then _ else c1).returned = none ∧
      (if c1.stream.outputUnit ≠ 0 then _ else c1).stream = c.stream
    split_ifs
    · exact ⟨e1 _ _ (e1 _ _ hin.1), by rw [e2 _ _ (e1 _ _ hin.1), e2 _ _ hin.1, hin.2]⟩
    · exact hin

theorem StopStream_state_of_succeeds (setError : Int → PaError) (stream : PaMacCoreStream)
    (r : StopReplies) (w : World) (hr : r.succeeds) :
    (StopStream setError stream r w).stream.state = StreamState.STOPPED := by
  unfold StopStream StopStream.untilBlocking StopStream.resetBlocking StopStream.markStopped
  have h := StopStream.stopAndReset_succeeds setError r
    ⟨{ stream with isTimeSet := false, state := StreamState.STOPPING },
      w.log Call.waitUntilBlioWriteBufferIsFlushed, none⟩ hr rfl
  generalize StopStream.stopAndReset setError r _ = c at h ⊢
  simp only [Control.step, h.1]

/-- The state `AudioIOProc` is in at its `switch( callbackResult )`. -/
theorem AudioIOProc_eq_some (stream : PaMacCoreStream) (bus n : Nat) (ioData : AudioBuffer)
    (r : IOReplies) (fuel : Nat) (w : World) (out : IOState)
    (h : AudioIOProc stream bus n ioData r fuel w = some out) :
    ∃ st : IOState, st.units = (stream.inputUnit, stream.outputUnit) ∧
      out = (AudioIOProc.onCallbackResult st).log
        (Call.PaUtil_EndCpuLoadMeasurement (AudioIOProc.onCallbackResult st).framesProcessed) := by
  unfold AudioIOProc at h
  cases hb : AudioIOProc.body (bus == OUTPUT_ELEMENT) ioData r fuel
      (AudioIOProc.timing (bus == OUTPUT_ELEMENT)
        ⟨stream, w.log Call.PaUtil_BeginCpuLoadMeasurement, paContinue, 0, n, 0, 0⟩) with
  | none => rw [hb] at h; cases h
  | some st =>
    rw [hb] at h
    refine ⟨st, ?_, ?_⟩
    · rw [body_units _ _ _ _ _ _ hb, timing_units]
      rfl
    · cases h
      rfl

/-! ## The claims -/

/-- C1: the parameter validation of `OpenStream` decides the result in this
order. Input parameters with the device `paUseHostApiSpecificDeviceSpecification`
give `paInvalidDevice`; otherwise an input channel count above
`maxInputChannels` of the input device gives `paInvalidChannelCount`; once the
input parameters are accepted, the same two checks on the output parameters
(against `maxOutputChannels`) give the same two results; once both are
accepted, a platform-specific bit in `streamFlags` gives `paInvalidFlag`. -/
theorem OpenStream_validation_order (setError : Int → PaError) (hostApi : PaMacAUHAL)
    (inputParameters outputParameters : Option PaStreamParameters) (sampleRate : ℚ)
    (framesPerBuffer streamFlags : Nat) (streamCallback : Bool) (r : OpenReplies) (w : World) :
    (∀ p, inputParameters = some p → p.device = paUseHostApiSpecificDeviceSpecification →
      (OpenStream setError hostApi inputParameters outputParameters sampleRate framesPerBuffer
        streamFlags streamCallback r w).result = paInvalidDevice) ∧
    (∀ p, inputParameters = some p → p.device ≠ paUseHostApiSpecificDeviceSpecification →
      p.channelCount > (hostApi.deviceInfo p.device).maxInputChannels →
      (OpenStream setError hostApi inputParameters outputParameters sampleRate framesPerBuffer
        streamFlags streamCallback r w).result = paInvalidChannelCount) ∧
    (inputAccepted hostApi inputParameters →
      ∀ p, outputParameters = some p → p.device = paUseHostApiSpecificDeviceSpecification →
      (OpenStream setError hostApi inputParameters outputParameters sampleRate framesPerBuffer
        streamFlags streamCallback r w).result = paInvalidDevice) ∧
    (inputAccepted hostApi inputParameters →
      ∀ p, outputParameters = some p → p.device ≠ paUseHostApiSpecificDeviceSpecification →
      p.channelCount > (hostApi.deviceInfo p.device).maxOutputChannels →
      (OpenStream setError hostApi inputParameters outputParameters sampleRate framesPerBuffer
        streamFlags streamCallback r w).result = paInvalidChannelCount) ∧
    (inputAccepted hostApi inputParameters → outputAccepted hostApi outputParameters →
      streamFlags &&& paPlatformSpecificFlags ≠ 0 →
      (OpenStream setError hostApi inputParameters outputParameters sampleRate framesPerBuffer
        streamFlags streamCallback r w).result = paInvalidFlag) := by
  refine ⟨?_, ?_, ?_, ?_, ?_⟩
  · intro p hp hd
    subst hp
    simp [OpenStream, OpenStream.checkInput, hd]
  · intro p hp hd hc
    subst hp
    simp [OpenStream, OpenStream.checkInput, hd, hc]
  · intro hi p hp hd
    subst hp
    rw [← checkInput_eq_none_iff] at hi
    simp [OpenStream, hi, OpenStream.checkOutput, hd]
  · intro hi p hp hd hc
    subst hp
    rw [← checkInput_eq_none_iff] at hi
    simp [OpenStream, hi, OpenStream.checkOutput, hd, hc]
  · intro hi ho hf
    rw [← checkInput_eq_none_iff] at hi
    rw [← checkOutput_eq_none_iff] at ho
    simp [OpenStream, hi, ho, hf]

theorem OpenStream_validation_order_witness :
    (OpenStream wrapHostError twoDevices
        (some ⟨paUseHostApiSpecificDeviceSpecification, 9, paFloat32, 0, none⟩)
        (some ⟨paUseHostApiSpecificDeviceSpecification, 9, paFloat32, 0, none⟩) 44100 256
        paPlatformSpecificFlags true (OpenReplies.success 256 44100 64 4096) World.empty).result =
      paInvalidDevice ∧
    (OpenStream wrapHostError twoDevices (some ⟨0, 2, paFloat32, 0, none⟩)
        (some ⟨1, 3, paFloat32, 0, none⟩) 44100 256
        paPlatformSpecificFlags true (OpenReplies.success 256 44100 64 4096) World.empty).result =
      paInvalidChannelCount :=
  ⟨(OpenStream_validation_order wrapHostError twoDevices
      (some ⟨paUseHostApiSpecificDeviceSpecification, 9, paFloat32, 0, none⟩)
      (some ⟨paUseHostApiSpecificDeviceSpecification, 9, paFloat32, 0, none⟩) 44100 256
      paPlatformSpecificFlags true (OpenReplies.success 256 44100 64 4096) World.empty).1 _ rfl rfl,
    (OpenStream_validation_order wrapHostError twoDevices (some ⟨0, 2, paFloat32, 0, none⟩)
      (some ⟨1, 3, paFloat32, 0, none⟩) 44100 256
      paPlatformSpecificFlags true (OpenReplies.success 256 44100 64 4096) World.empty).2.2.2.1
      (by rw [← checkInput_eq_none_iff]; decide) _ rfl (by decide) (by decide)⟩

/-- C2 (failing input): a simplex input request whose sample format has the
`paCustomFormat` bit set passes the validation of `OpenStream`: on a platform
where every call succeeds `OpenStream` returns `paNoError`, writes the stream
handle and has opened an audio unit, whereas `IsFormatSupported` rejects the
same parameters with `paSampleFormatNotSupported`. -/
theorem OpenStream_accepts_custom_format :
    (OpenStream wrapHostError twoDevices (some ⟨0, 2, paCustomFormat ||| 1, 0, none⟩) none 44100
        256 0 true (OpenReplies.success 256 44100 64 4096) World.empty).result = paNoError ∧
    (OpenStream wrapHostError twoDevices (some ⟨0, 2, paCustomFormat ||| 1, 0, none⟩) none 44100
        256 0 true (OpenReplies.success 256 44100 64 4096) World.empty).s.isSome = true ∧
    Call.OpenAComponent 2 ∈
      (OpenStream wrapHostError twoDevices (some ⟨0, 2, paCustomFormat ||| 1, 0, none⟩) none 44100
        256 0 true (OpenReplies.success 256 44100 64 4096) World.empty).world.trace ∧
    (IsFormatSupported wrapHostError twoDevices (some ⟨0, 2, paCustomFormat ||| 1, 0, none⟩) none
        44100 (OpenReplies.success 256 44100 64 4096) 0 World.empty).1 =
      paSampleFormatNotSupported := by
  decide

/-- C3: whenever `OpenStream` returns a result other than `paNoError`, the
caller's stream pointer `*s` is not written. -/
theorem OpenStream_error_leaves_handle (setError : Int → PaError) (hostApi : PaMacAUHAL)
    (inputParameters outputParameters : Option PaStreamParameters) (sampleRate : ℚ)
    (framesPerBuffer streamFlags : Nat) (streamCallback : Bool) (r : OpenReplies) (w : World)
    (h : (OpenStream setError hostApi inputParameters outputParameters sampleRate framesPerBuffer
      streamFlags streamCallback r w).result ≠ paNoError) :
    (OpenStream setError hostApi inputParameters outputParameters sampleRate framesPerBuffer
      streamFlags streamCallback r w).s = none := by
  unfold OpenStream at h ⊢
  cases hci : OpenStream.checkInput hostApi inputParameters with
  | some e => rfl
  | none =>
    cases hco : OpenStream.checkOutput hostApi outputParameters with
    | some e => rfl
    | none =>
      simp only [hci, hco] at h ⊢
      split_ifs at h ⊢ with hfl
      · rfl
      · cases hg : r.allocateStream with
        | none => simp [OpenStream.open, hg]
        | some g =>
          rw [OpenStream.open_some _ _ _ _ _ _ _ _ g _ hg] at h ⊢
          split_ifs at h ⊢ with hf
          · exact absurd (OpenStream.acquire_result _ _ _ _ _ _ _ _ _ _ hf) h
          · rfl

theorem OpenStream_error_leaves_handle_witness :
    (OpenStream wrapHostError twoDevices none (some ⟨0, 3, paFloat32, 0, none⟩) 44100 256 0 true
        (OpenReplies.success 256 44100 64 4096) World.empty).result ≠ paNoError ∧
    (OpenStream wrapHostError twoDevices none (some ⟨0, 3, paFloat32, 0, none⟩) 44100 256 0 true
        (OpenReplies.success 256 44100 64 4096) World.empty).s = none :=
  ⟨by decide, OpenStream_error_leaves_handle _ _ _ _ _ _ _ _ _ _ (by decide)⟩

/-- C4 (failing input): a blocking-mode `OpenStream` (no callback) in which
`PaUtil_InitializeBufferProcessor` fails and, during the rollback,
`destroyBlioRingBuffers` reports an error: `CloseStream` returns early, so
`OpenStream` returns the error while the stream object, its representation
and the blocking-I/O buffers are still held. When `destroyBlioRingBuffers`
reports no error the same call leaves nothing held. -/
theorem OpenStream_rollback_leaks :
    (OpenStream wrapHostError twoDevices (some ⟨0, 2, paFloat32, 0, none⟩)
        (some ⟨1, 2, paFloat32, 0, none⟩) 44100 256 0 false
        { OpenReplies.success 256 44100 64 4096 with
          initializeBufferProcessor := paInsufficientMemory
          destroyBlioRingBuffers := paUnanticipatedHostError } World.empty).result =
      paInsufficientMemory ∧
    (OpenStream wrapHostError twoDevices (some ⟨0, 2, paFloat32, 0, none⟩)
        (some ⟨1, 2, paFloat32, 0, none⟩) 44100 256 0 false
        { OpenReplies.success 256 44100 64 4096 with
          initializeBufferProcessor := paInsufficientMemory
          destroyBlioRingBuffers := paUnanticipatedHostError } World.empty).world.held =
      [Resource.blioBuffers, Resource.streamRepresentation, Resource.streamObject 1] ∧
    (OpenStream wrapHostError twoDevices (some ⟨0, 2, paFloat32, 0, none⟩)
        (some ⟨1, 2, paFloat32, 0, none⟩) 44100 256 0 false
        { OpenReplies.success 256 44100 64 4096 with
          initializeBufferProcessor := paInsufficientMemory
          destroyBlioRingBuffers := paNoError } World.empty).world.held = [] := by
  decide

/-- C5: every configuration the wire test opens, on a platform where every
call and allocation succeeds, is opened with `paNoError`; the handle is
written, the stream is `STOPPED` with no xrun flag and no start time, and a
following `StartStream` returns `paNoError` (and leaves the stream `ACTIVE`). -/
theorem wire_configuration_opens_and_starts (setError : Int → PaError) (hostApi : PaMacAUHAL)
    (config : WireConfig_t) (inputDevice outputDevice : Int) (inputLatency outputLatency : ℚ)
    (sampleRate : ℚ) (r : OpenReplies) (start : StartReplies) (w : World)
    (hconfig : config.looped)
    (hin : inputDevice ≠ paUseHostApiSpecificDeviceSpecification)
    (hout : outputDevice ≠ paUseHostApiSpecificDeviceSpecification)
    (hinChannels : config.numInputChannels ≤ (hostApi.deviceInfo inputDevice).maxInputChannels)
    (houtChannels :
      config.numOutputChannels ≤ (hostApi.deviceInfo outputDevice).maxOutputChannels)
    (hr : r.succeeds) (hstart : start.succeeds) :
    (OpenStream setError hostApi
        (some (TestConfiguration.parameters inputDevice config.numInputChannels
          config.isInputInterleaved inputLatency))
        (some (TestConfiguration.parameters outputDevice config.numOutputChannels
          config.isOutputInterleaved outputLatency))
        sampleRate config.framesPerCallback paClipOff true r w).result = paNoError ∧
    ∃ stream,
      (OpenStream setError hostApi
        (some (TestConfiguration.parameters inputDevice config.numInputChannels
          config.isInputInterleaved inputLatency))
        (some (TestConfiguration.parameters outputDevice config.numOutputChannels
          config.isOutputInterleaved outputLatency))
        sampleRate config.framesPerCallback paClipOff true r w).s = some stream ∧
      stream.state = StreamState.STOPPED ∧ stream.xrunFlags = 0 ∧ stream.isTimeSet = false ∧
      (StartStream setError stream start
        (OpenStream setError hostApi
          (some (TestConfiguration.parameters inputDevice config.numInputChannels
            config.isInputInterleaved inputLatency))
          (some (TestConfiguration.parameters outputDevice config.numOutputChannels
            config.isOutputInterleaved outputLatency))
          sampleRate config.framesPerCallback paClipOff true r w).world).result = paNoError ∧
      (StartStream setError stream start
        (OpenStream setError hostApi
          (some (TestConfiguration.parameters inputDevice config.numInputChannels
            config.isInputInterleaved inputLatency))
          (some (TestConfiguration.parameters outputDevice config.numOutputChannels
            config.isOutputInterleaved outputLatency))
          sampleRate config.framesPerCallback paClipOff true r w).world).stream.state =
        StreamState.ACTIVE := by
  have _ := hconfig
  rw [OpenStream_eq_open _ _ _ _ _ _ _ _ _ _
    (TestConfiguration.parameters_accepted_input _ _ _ _ _ hin hinChannels)
    (TestConfiguration.parameters_accepted_output _ _ _ _ _ hout houtChannels) (by decide)]
  obtain ⟨g, hg⟩ := Option.isSome_iff_exists.mp hr.1
  rw [OpenStream.open_some _ _ _ _ _ _ _ _ g _ hg]
  have hf := OpenStream.acquire_succeeds setError hostApi
    (some (TestConfiguration.parameters inputDevice config.numInputChannels
      config.isInputInterleaved inputLatency))
    (some (TestConfiguration.parameters outputDevice config.numOutputChannels
      config.isOutputInterleaved outputLatency))
    sampleRate config.framesPerCallback true r g w hr
  rw [if_pos hf]
  refine ⟨OpenStream.acquire_result _ _ _ _ _ _ _ _ _ _ hf, _, rfl, rfl, rfl, rfl, ?_⟩
  exact StartStream_succeeds setError _ start _ hstart

theorem wire_configuration_opens_and_starts_witness :
    (OpenStream wrapHostError twoDevices
        (some (TestConfiguration.parameters 0 2 0 0)) (some (TestConfiguration.parameters 1 1 1 0))
        44100 64 paClipOff true (OpenReplies.success 64 44100 64 4096) World.empty).result =
      paNoError ∧
    ∃ stream,
      (OpenStream wrapHostError twoDevices
        (some (TestConfiguration.parameters 0 2 0 0)) (some (TestConfiguration.parameters 1 1 1 0))
        44100 64 paClipOff true (OpenReplies.success 64 44100 64 4096) World.empty).s =
        some stream ∧
      stream.state = StreamState.STOPPED ∧ stream.xrunFlags = 0 ∧ stream.isTimeSet = false ∧
      (StartStream wrapHostError stream ⟨0, 0, 0⟩
        (OpenStream wrapHostError twoDevices
          (some (TestConfiguration.parameters 0 2 0 0))
          (some (TestConfiguration.parameters 1 1 1 0))
          44100 64 paClipOff true (OpenReplies.success 64 44100 64 4096)
          World.empty).world).result = paNoError ∧
      (StartStream wrapHostError stream ⟨0, 0, 0⟩
        (OpenStream wrapHostError twoDevices
          (some (TestConfiguration.parameters 0 2 0 0))
          (some (TestConfiguration.parameters 1 1 1 0))
          44100 64 paClipOff true (OpenReplies.success 64 44100 64 4096)
          World.empty).world).stream.state = StreamState.ACTIVE :=
  wire_configuration_opens_and_starts wrapHostError twoDevices ⟨0, 1, 2, 1, 64⟩ 0 1 0 0 44100
    (OpenReplies.success 64 44100 64 4096) ⟨0, 0, 0⟩ World.empty
    (by unfold WireConfig_t.looped; decide) (by decide) (by decide) (by decide) (by decide)
    (by simp [OpenReplies.succeeds, OpenReplies.success, UnitReplies.succeeds,
      UnitReplies.success, paNoError])
    (by simp [StartReplies.succeeds])

/-- C6 (counterexample): after a successful `OpenStream` in blocking mode,
`CloseStream` returns the error of `destroyBlioRingBuffers`, not `paNoError`,
when the teardown of the blocking-I/O buffers fails. -/
theorem CloseStream_returns_blio_error :
    (OpenStream wrapHostError twoDevices (some ⟨0, 2, paFloat32, 0, none⟩)
        (some ⟨1, 2, paFloat32, 0, none⟩) 44100 256 0 false
        (OpenReplies.success 256 44100 64 4096) World.empty).result = paNoError ∧
    (CloseStream
        (OpenStream wrapHostError twoDevices (some ⟨0, 2, paFloat32, 0, none⟩)
          (some ⟨1, 2, paFloat32, 0, none⟩) 44100 256 0 false
          (OpenReplies.success 256 44100 64 4096) World.empty).s
        paUnanticipatedHostError
        (OpenStream wrapHostError twoDevices (some ⟨0, 2, paFloat32, 0, none⟩)
          (some ⟨1, 2, paFloat32, 0, none⟩) 44100 256 0 false
          (OpenReplies.success 256 44100 64 4096) World.empty).world).1 ≠ paNoError := by
  decide

/-- C6 (amended): for every `OpenStream` that returned `paNoError` the handle
is written, and the resources acquired are exactly those the stream names.
Whatever happened to the stream since, as long as it names the same
resources, a `CloseStream` in which `destroyBlioRingBuffers` reports no error
returns `paNoError` and leaves held what was held before the `OpenStream`;
when `destroyBlioRingBuffers` reports an error, `CloseStream` returns it. -/
theorem CloseStream_after_OpenStream (setError : Int → PaError) (hostApi : PaMacAUHAL)
    (inputParameters outputParameters : Option PaStreamParameters) (sampleRate : ℚ)
    (framesPerBuffer streamFlags : Nat) (streamCallback : Bool) (r : OpenReplies) (w : World)
    (h : (OpenStream setError hostApi inputParameters outputParameters sampleRate framesPerBuffer
      streamFlags streamCallback r w).result = paNoError) :
    ∃ stream,
      (OpenStream setError hostApi inputParameters outputParameters sampleRate framesPerBuffer
        streamFlags streamCallback r w).s = some stream ∧
      (OpenStream setError hostApi inputParameters outputParameters sampleRate framesPerBuffer
        streamFlags streamCallback r w).world.held = stream.holdings ++ w.held ∧
      (∀ (later : PaMacCoreStream) (w' : World), later.holdings = stream.holdings →
        w'.held = (OpenStream setError hostApi inputParameters outputParameters sampleRate
          framesPerBuffer streamFlags streamCallback r w).world.held →
        (CloseStream (some later) paNoError w').1 = paNoError ∧
        (CloseStream (some later) paNoError w').2.held = w.held) ∧
      (∀ (later : PaMacCoreStream) (w' : World) (e : PaError), e ≠ paNoError →
        (CloseStream (some later) e w').1 = e) := by
  unfold OpenStream at h ⊢
  cases hci : OpenStream.checkInput hostApi inputParameters with
  | some e =>
    cases inputParameters with
    | none => simp [OpenStream.checkInput] at hci
    | some p =>
      simp only [hci] at h
      simp only [OpenStream.checkInput] at hci
      split_ifs at hci <;> cases hci <;> simp [paInvalidDevice, paInvalidChannelCount, paInvalidFlag, paInsufficientMemory,
            paNoError] at h
  | none =>
    cases hco : OpenStream.checkOutput hostApi outputParameters with
    | some e =>
      cases outputParameters with
      | none => simp [OpenStream.checkOutput] at hco
      | some p =>
        simp only [hci, hco] at h
        simp only [OpenStream.checkOutput] at hco
        split_ifs at hco <;> cases hco <;> simp [paInvalidDevice, paInvalidChannelCount, paInvalidFlag, paInsufficientMemory,
            paNoError] at h
    | none =>
      simp only [hci, hco] at h ⊢
      split_ifs at h ⊢ with hfl
      · simp [paInvalidDevice, paInvalidChannelCount, paInvalidFlag, paInsufficientMemory,
            paNoError] at h
      · cases hg : r.allocateStream with
        | none =>
          simp only [OpenStream.open, hg] at h
          simp [paInvalidDevice, paInvalidChannelCount, paInvalidFlag, paInsufficientMemory,
            paNoError] at h
        | some g =>
          rw [OpenStream.open_some _ _ _ _ _ _ _ _ g _ hg] at h ⊢
          have hs := OpenStream.acquire_sound setError hostApi inputParameters outputParameters
            sampleRate framesPerBuffer streamCallback r g w
          have hi := OpenStream.acquire_inv setError hostApi inputParameters outputParameters
            sampleRate framesPerBuffer streamCallback r g w
          generalize OpenStream.acquire setError hostApi inputParameters outputParameters
            sampleRate framesPerBuffer streamCallback r g w = o at h hs hi ⊢
          split_ifs at h ⊢ with hf
          · refine ⟨_, rfl, hi, ?_, ?_⟩
            · intro later w' hl hw
              exact CloseStream_releases later w' w.held (by rw [hw, hl]; exact hi)
            · intro later w' e he
              simp [CloseStream, he]
          · exact absurd h (hs (by simpa using hf))

theorem CloseStream_after_OpenStream_witness :
    ∃ stream,
      (OpenStream wrapHostError twoDevices (some ⟨0, 2, paFloat32, 0, none⟩)
        (some ⟨1, 2, paFloat32, 0, none⟩) 48000 256 0 true
        (OpenReplies.success 256 44100 64 4096) World.empty).s = some stream ∧
      (OpenStream wrapHostError twoDevices (some ⟨0, 2, paFloat32, 0, none⟩)
        (some ⟨1, 2, paFloat32, 0, none⟩) 48000 256 0 true
        (OpenReplies.success 256 44100 64 4096) World.empty).world.held =
        stream.holdings ++ World.empty.held ∧
      (∀ (later : PaMacCoreStream) (w' : World), later.holdings = stream.holdings →
        w'.held = (OpenStream wrapHostError twoDevices (some ⟨0, 2, paFloat32, 0, none⟩)
          (some ⟨1, 2, paFloat32, 0, none⟩) 48000 256 0 true
          (OpenReplies.success 256 44100 64 4096) World.empty).world.held →
        (CloseStream (some later) paNoError w').1 = paNoError ∧
        (CloseStream (some later) paNoError w').2.held = World.empty.held) ∧
      (∀ (later : PaMacCoreStream) (w' : World) (e : PaError), e ≠ paNoError →
        (CloseStream (some later) e w').1 = e) :=
  CloseStream_after_OpenStream wrapHostError twoDevices (some ⟨0, 2, paFloat32, 0, none⟩)
    (some ⟨1, 2, paFloat32, 0, none⟩) 48000 256 0 true (OpenReplies.success 256 44100 64 4096)
    World.empty (by decide)

/-- C7: with `framesPerBuffer` unspecified, the block size `OpenStream` hands
to the audio-unit setup (the argument `requestedFramesPerBuffer` of
`OpenAndSetupOneAudioUnit`) is at least 64 and at most 1024, whatever the
suggested latencies, the sample rate and the replies to the range queries; a
suggested latency of 0.005 s at 48 kHz gives 120 when the queries succeed. -/
theorem unspecified_framesPerBuffer_bounds
    (inputParameters outputParameters : Option PaStreamParameters) (sampleRate : ℚ)
    (inputRange outputRange : RangeReply) :
    64 ≤ OpenStream.resolveFramesPerBuffer inputParameters outputParameters sampleRate
      paFramesPerBufferUnspecified inputRange outputRange ∧
    OpenStream.resolveFramesPerBuffer inputParameters outputParameters sampleRate
      paFramesPerBufferUnspecified inputRange outputRange ≤ 1024 ∧
    ∀ (device channels : Int) (format : Nat) (minimum maximum : ℚ),
      OpenStream.resolveFramesPerBuffer (some ⟨device, channels, format, 5 / 1000, none⟩)
        (some ⟨device, channels, format, 5 / 1000, none⟩) 48000 paFramesPerBufferUnspecified
        ⟨0, minimum, maximum⟩ ⟨0, minimum, maximum⟩ = 120 := by
  refine ⟨?_, ?_, ?_⟩
  · simp only [OpenStream.resolveFramesPerBuffer, if_true, OpenStream.unspecifiedFramesPerBuffer]
    split_ifs <;> omega
  · simp only [OpenStream.resolveFramesPerBuffer, if_true, OpenStream.unspecifiedFramesPerBuffer]
    split_ifs <;> omega
  · intro device channels format minimum maximum
    have h : MAX 64 ((5 / 1000 : ℚ) * 48000 / 2) = 120 := by
      unfold MAX truncToLong
      norm_num
    have h2 : MAX 120 ((5 / 1000 : ℚ) * 48000 / 2) = 120 := by
      unfold MAX
      norm_num
    simp [OpenStream.resolveFramesPerBuffer, OpenStream.unspecifiedFramesPerBuffer,
      OpenStream.requestedFor, h, h2]

/-- C8 (failing input): the range queries succeed and are ignored. With a
suggested latency of 0 the target is 64 and the device reports the range
[128, 4096], yet the resolved block size is 64, below the device minimum;
with a suggested latency of 0.04 s at 48 kHz the target is 960 and the device
reports [64, 512], yet the resolved block size is 960, above the device
maximum. -/
theorem unspecified_framesPerBuffer_ignores_range :
    OpenStream.resolveFramesPerBuffer (some ⟨0, 2, paFloat32, 0, none⟩) none 44100
      paFramesPerBufferUnspecified ⟨0, 128, 4096⟩ ⟨0, 128, 4096⟩ = 64 ∧
    OpenStream.resolveFramesPerBuffer (some ⟨0, 2, paFloat32, 4 / 100, none⟩) none 48000
      paFramesPerBufferUnspecified ⟨0, 64, 512⟩ ⟨0, 64, 512⟩ = 960 := by
  have h1 : MAX 64 (0 : ℚ) = 64 := by
    unfold MAX
    norm_num
  have h2 : MAX 64 ((4 / 100 : ℚ) * 48000 / 2) = 960 := by
    unfold MAX truncToLong
    norm_num
  constructor
  · simp [OpenStream.resolveFramesPerBuffer, OpenStream.unspecifiedFramesPerBuffer,
      OpenStream.requestedFor, h1]
  · simp [OpenStream.resolveFramesPerBuffer, OpenStream.unspecifiedFramesPerBuffer,
      OpenStream.requestedFor, h2]

/-- C9 (amended): in every run of `AudioIOProc` that returns with the client
callback having answered `paComplete` or `paAbort`, `isTimeSet` is false and
the state is `CALLBACK_STOPPED` on return, the last calls before the end of the
CPU load measurement are `AudioOutputUnitStop` on the output unit and then on
the input unit (each when present), and `IsStreamActive` returns 0. The run in
which the callback answers the other of the two values ends with the same
stream and has issued the same calls. A following `StopStream` ends in state
`STOPPED` provided its unit stops and resets succeed. -/
theorem AudioIOProc_complete_or_abort (stream : PaMacCoreStream) (inBusNumber inNumberFrames : Nat)
    (ioData : AudioBuffer) (r : IOReplies) (fuel : Nat) (w : World) (out : IOState)
    (h : AudioIOProc stream inBusNumber inNumberFrames ioData r fuel w = some out)
    (hc : out.callbackResult = paComplete ∨ out.callbackResult = paAbort) :
    out.stream.isTimeSet = false ∧ out.stream.state = StreamState.CALLBACK_STOPPED ∧
    (∃ before, out.world.trace =
      before ++
        (if stream.outputUnit ≠ 0 then [Call.AudioOutputUnitStop stream.outputUnit] else []) ++
        (if stream.inputUnit ≠ 0 then [Call.AudioOutputUnitStop stream.inputUnit] else []) ++
        [Call.PaUtil_EndCpuLoadMeasurement out.framesProcessed]) ∧
    IsStreamActive out.stream = 0 ∧
    (∃ other, AudioIOProc stream inBusNumber inNumberFrames ioData r.exchange fuel w =
        some other ∧ other.callbackResult = exchange out.callbackResult ∧
        other.callbackResult ≠ out.callbackResult ∧
        other.stream = out.stream ∧ other.world = out.world) ∧
    ∀ (setError : Int → PaError) (sr : StopReplies) (w' : World), sr.succeeds →
      (StopStream setError out.stream sr w').stream.state = StreamState.STOPPED := by
  have hx := AudioIOProc_exchange stream inBusNumber inNumberFrames ioData r fuel w
  rw [h] at hx
  obtain ⟨st, hu, rfl⟩ := AudioIOProc_eq_some _ _ _ _ _ _ _ _ h
  have hi : st.stream.inputUnit = stream.inputUnit := congrArg Prod.fst hu
  have ho : st.stream.outputUnit = stream.outputUnit := congrArg Prod.snd hu
  have hc' : st.callbackResult = paComplete ∨ st.callbackResult = paAbort := by
    unfold AudioIOProc.onCallbackResult at hc
    split_ifs at hc with hs
    · exact hs
    · exact hc
  refine ⟨?_, ?_, ?_, ?_, ⟨_, hx, rfl, ?_, rfl, rfl⟩, ?_⟩
  · unfold AudioIOProc.onCallbackResult IOState.stopUnit
    rw [if_pos hc']; split_ifs <;> rfl
  · unfold AudioIOProc.onCallbackResult IOState.stopUnit
    rw [if_pos hc']; split_ifs <;> rfl
  · refine ⟨st.world.trace, ?_⟩
    unfold AudioIOProc.onCallbackResult IOState.stopUnit
    rw [if_pos hc', ← hi, ← ho]
    split_ifs <;> simp [IOState.log, World.log, IOState.callbackStopped]
  · unfold IsStreamActive AudioIOProc.onCallbackResult IOState.stopUnit
    rw [if_pos hc']; split_ifs <;> first | rfl | simp_all [IOState.log, IOState.callbackStopped]
  · show exchange _ ≠ _
    unfold exchange
    rcases hc with hc | hc <;> rw [hc] <;> decide
  · intro setError sr w' hs
    exact StopStream_state_of_succeeds _ _ _ _ hs

theorem AudioIOProc_complete_or_abort_witness :
    ∃ out : IOState,
      AudioIOProc running OUTPUT_ELEMENT 64 ⟨2, 512, 0⟩ (IOReplies.answering paComplete) 0
        World.empty = some out ∧
      (out.callbackResult = paComplete ∨ out.callbackResult = paAbort) ∧
      out.stream.isTimeSet = false ∧ out.stream.state = StreamState.CALLBACK_STOPPED ∧
      (∃ before, out.world.trace =
        before ++
          (if running.outputUnit ≠ 0 then [Call.AudioOutputUnitStop running.outputUnit]
            else []) ++
          (if running.inputUnit ≠ 0 then [Call.AudioOutputUnitStop running.inputUnit]
            else []) ++
          [Call.PaUtil_EndCpuLoadMeasurement out.framesProcessed]) ∧
      IsStreamActive out.stream = 0 ∧
      (∃ other, AudioIOProc running OUTPUT_ELEMENT 64 ⟨2, 512, 0⟩
          (IOReplies.answering paComplete).exchange 0 World.empty = some other ∧
          other.callbackResult = exchange out.callbackResult ∧
          other.callbackResult ≠ out.callbackResult ∧
          other.stream = out.stream ∧ other.world = out.world) ∧
      ∀ (setError : Int → PaError) (sr : StopReplies) (w' : World), sr.succeeds →
        (StopStream setError out.stream sr w').stream.state = StreamState.STOPPED :=
  ⟨_, rfl, Or.inl rfl,
    AudioIOProc_complete_or_abort running OUTPUT_ELEMENT 64 ⟨2, 512, 0⟩ (IOReplies.answering paComplete) 0 World.empty _
      rfl (Or.inl rfl)⟩

/-- C9 (counterexample): the callback of a full-duplex stream answers
`paComplete`, which leaves the stream `CALLBACK_STOPPED`; in the following
`StopStream` the platform refuses `AudioOutputUnitStop` with status -50, so
`StopStream` returns the wrapped error with the state still `STOPPING`, and
`IsStreamActive` returns 1. -/
theorem StopStream_after_callback_stop_stays_STOPPING :
    ∃ out : IOState,
      AudioIOProc running OUTPUT_ELEMENT 64 ⟨2, 512, 0⟩ (IOReplies.answering paComplete) 0
        World.empty = some out ∧
      out.callbackResult = paComplete ∧
      out.stream.state = StreamState.CALLBACK_STOPPED ∧
      (StopStream wrapHostError out.stream ⟨-50, 0, 0, 0, 0, 0, 0, 0⟩ out.world).result =
        paUnanticipatedHostError ∧
      (StopStream wrapHostError out.stream ⟨-50, 0, 0, 0, 0, 0, 0, 0⟩ out.world).stream.state =
        StreamState.STOPPING ∧
      IsStreamActive
        (StopStream wrapHostError out.stream ⟨-50, 0, 0, 0, 0, 0, 0, 0⟩ out.world).stream = 1 :=
  ⟨_, rfl, by decide, by decide, by decide, by decide, by decide⟩

/-- C10: `AbortStream` is `StopStream`: same result, same stream, same calls,
for every stream, every sequence of platform replies and every world. -/
theorem AbortStream_eq_StopStream (setError : Int → PaError) (stream : PaMacCoreStream)
    (r : StopReplies) (w : World) :
    AbortStream setError stream r w = StopStream setError stream r w ∧
    (AbortStream setError stream r w).result = (StopStream setError stream r w).result ∧
    (AbortStream setError stream r w).stream = (StopStream setError stream r w).stream ∧
    (AbortStream setError stream r w).world.trace = (StopStream setError stream r w).world.trace :=
  ⟨rfl, rfl, rfl, rfl⟩

/-! ## Lemmas on `StartStream` and `StopStream` -/

theorem Control.ERR_WRAP_of_returned_none (c : Control) (setError : Int → PaError) (call : Call)
    (e : Int) (h : c.returned = none) :
    c.ERR_WRAP setError call e =
      ⟨c.stream, c.world.log call,
        if toOSErr e != noErr then some (setError (toOSErr e)) else none⟩ := by
  unfold Control.ERR_WRAP Control.step
  rw [h]

theorem Control.ERR_WRAP_of_returned_some (c : Control) (setError : Int → PaError) (call : Call)
    (e : Int) (x : PaError) (h : c.returned = some x) : c.ERR_WRAP setError call e = c := by
  unfold Control.ERR_WRAP Control.step
  rw [h]

@[simp] theorem Control.ERR_WRAP_stream (c : Control) (setError : Int → PaError) (call : Call)
    (e : Int) : (c.ERR_WRAP setError call e).stream = c.stream := by
  unfold Control.ERR_WRAP Control.step
  split <;> rfl

theorem Control.ERR_WRAP_zero (c : Control) (setError : Int → PaError) (call : Call)
    (h : c.returned = none) : c.ERR_WRAP setError call 0 = ⟨c.stream, c.world.log call, none⟩ := by
  rw [Control.ERR_WRAP_of_returned_none _ _ _ _ h]
  rfl

@[simp] theorem StopStream.stopAndReset_stream (setError : Int → PaError) (r : StopReplies)
    (c : Control) : (StopStream.stopAndReset setError r c).stream = c.stream := by
  unfold StopStream.stopAndReset
  dsimp only
  split_ifs <;> simp only [Control.ERR_WRAP_stream]

@[simp] theorem StopStream.resetRing_state (stream : PaMacCoreStream) :
    (StopStream.resetRing stream).state = stream.state := by
  unfold StopStream.resetRing; split <;> rfl

@[simp] theorem StopStream.resetRing_isTimeSet (stream : PaMacCoreStream) :
    (StopStream.resetRing stream).isTimeSet = stream.isTimeSet := by
  unfold StopStream.resetRing; split <;> rfl

/-- The calls `StopStream` makes to stop and reset the units when each of them
succeeds. -/
theorem StopStream.stopAndReset_eq_of_succeeds (setError : Int → PaError) (r : StopReplies)
    (c : Control) (hr : r.succeeds) (h : c.returned = none) :
    StopStream.stopAndReset setError r c =
      ⟨c.stream,
        { c.world with
          trace := c.world.trace ++
            (if c.stream.inputUnit = c.stream.outputUnit ∧ c.stream.inputUnit ≠ 0 then
              [Call.AudioOutputUnitStop c.stream.inputUnit,
                Call.AudioUnitReset c.stream.inputUnit Scope.Global 1,
                Call.AudioUnitReset c.stream.inputUnit Scope.Global 0]
            else
              (if c.stream.inputUnit ≠ 0 then
                [Call.AudioOutputUnitStop c.stream.inputUnit,
                  Call.AudioUnitReset c.stream.inputUnit Scope.Global 1]
              else []) ++
              (if c.stream.outputUnit ≠ 0 then
                [Call.AudioOutputUnitStop c.stream.outputUnit,
                  Call.AudioUnitReset c.stream.outputUnit Scope.Global 0]
              else [])) },
        none⟩ := by
  obtain ⟨h1, h2, h3, h4, h5, h6, h7⟩ := hr
  obtain ⟨s, w, ret⟩ := c
  simp only at h
  subst h
  unfold StopStream.stopAndReset
  rw [h1, h2, h3, h4, h5, h6, h7]
  dsimp only
  by_cases ha : s.inputUnit = s.outputUnit ∧ s.inputUnit ≠ 0
  · rw [if_pos ha, if_pos ha, Control.ERR_WRAP_zero _ _ _ rfl, Control.ERR_WRAP_zero _ _ _ rfl,
      Control.ERR_WRAP_zero _ _ _ rfl]
    simp [World.log]
  · rw [if_neg ha, if_neg ha]
    by_cases hi : s.inputUnit = 0
    · by_cases ho : s.outputUnit = 0
      · simp [hi, ho]
      · simp only [hi, ho, ne_eq, not_true_eq_false, if_false, not_false_eq_true, if_true]
        rw [Control.ERR_WRAP_zero _ _ _ rfl, Control.ERR_WRAP_zero _ _ _ rfl]
        simp [World.log]
    · by_cases ho : s.outputUnit = 0
      · simp only [hi, ne_eq, not_false_eq_true, if_true]
        rw [Control.ERR_WRAP_zero _ _ _ rfl, Control.ERR_WRAP_zero _ _ _ rfl]
        simp [World.log, ho]
      · simp only [hi, ne_eq, not_false_eq_true, if_true]
        rw [Control.ERR_WRAP_zero _ _ _ rfl, Control.ERR_WRAP_zero _ _ _ rfl]
        simp only [ho, ne_eq, not_false_eq_true, if_true]
        rw [Control.ERR_WRAP_zero _ _ _ rfl, Control.ERR_WRAP_zero _ _ _ rfl]
        simp [World.log]

theorem StopStream.untilBlocking_of_succeeds (setError : Int → PaError)
    (stream : PaMacCoreStream) (r : StopReplies) (w : World) (hr : r.succeeds) :
    (StopStream.untilBlocking setError stream r w).returned = none ∧
    (StopStream.untilBlocking setError stream r w).stream =
      { StopStream.resetRing { stream with isTimeSet := false, state := StreamState.STOPPING } with
        xrunFlags := 0, state := StreamState.STOPPED } ∧
    (StopStream.untilBlocking setError stream r w).world.trace =
      w.trace ++ [Call.waitUntilBlioWriteBufferIsFlushed] ++
        (if stream.inputUnit = stream.outputUnit ∧ stream.inputUnit ≠ 0 then
          [Call.AudioOutputUnitStop stream.inputUnit,
            Call.AudioUnitReset stream.inputUnit Scope.Global 1,
            Call.AudioUnitReset stream.inputUnit Scope.Global 0]
        else
          (if stream.inputUnit ≠ 0 then
            [Call.AudioOutputUnitStop stream.inputUnit,
              Call.AudioUnitReset stream.inputUnit Scope.Global 1]
          else []) ++
          (if stream.outputUnit ≠ 0 then
            [Call.AudioOutputUnitStop stream.outputUnit,
              Call.AudioUnitReset stream.outputUnit Scope.Global 0]
          else [])) := by
  unfold StopStream.untilBlocking
  dsimp only
  rw [StopStream.stopAndReset_eq_of_succeeds setError r _ hr rfl]
  exact ⟨rfl, rfl, rfl⟩

/-- Every step of `StartStream` and `StopStream` only appends calls. -/
theorem Control.ERR_WRAP_trace (c : Control) (setError : Int → PaError) (call : Call) (e : Int) :
    ∃ rest, (c.ERR_WRAP setError call e).world.trace = c.world.trace ++ rest := by
  unfold Control.ERR_WRAP Control.step
  split
  · exact ⟨[], by simp⟩
  · exact ⟨[call], rfl⟩

theorem StopStream.markStopped_trace (c : Control) :
    (StopStream.markStopped c).world.trace = c.world.trace := by
  unfold StopStream.markStopped Control.step
  split <;> rfl

theorem StopStream.resetBlocking_trace (r : StopReplies) (c : Control) :
    ∃ rest, (StopStream.resetBlocking r c).world.trace = c.world.trace ++ rest := by
  unfold StopStream.resetBlocking Control.step
  split
  · exact ⟨[], by simp⟩
  · exact ⟨[Call.resetBlioRingBuffers], rfl⟩

/-- With two distinct units, the first call of the "stop and reset" block stops
the input unit. -/
theorem StopStream.stopAndReset_trace_of_distinct (setError : Int → PaError) (r : StopReplies)
    (c : Control) (h : c.returned = none) (hin : c.stream.inputUnit ≠ 0)
    (hne : c.stream.inputUnit ≠ c.stream.outputUnit) :
    ∃ rest, (StopStream.stopAndReset setError r c).world.trace =
      c.world.trace ++ Call.AudioOutputUnitStop c.stream.inputUnit :: rest := by
  unfold StopStream.stopAndReset
  dsimp only
  rw [if_neg (fun h => hne h.1), if_pos hin]
  have h1 : (c.ERR_WRAP setError (Call.AudioOutputUnitStop c.stream.inputUnit)
      r.stopInput).world.trace = c.world.trace ++ [Call.AudioOutputUnitStop c.stream.inputUnit] := by
    rw [Control.ERR_WRAP_of_returned_none _ _ _ _ h]
    rfl
  generalize c.ERR_WRAP setError (Call.AudioOutputUnitStop c.stream.inputUnit) r.stopInput = c1
    at h1 ⊢
  obtain ⟨r2, h2⟩ := Control.ERR_WRAP_trace c1 setError
    (Call.AudioUnitReset c.stream.inputUnit Scope.Global 1) r.resetInput
  generalize c1.ERR_WRAP setError (Call.AudioUnitReset c.stream.inputUnit Scope.Global 1)
    r.resetInput = c2 at h2 ⊢
  split_ifs
  · obtain ⟨r3, h3⟩ := Control.ERR_WRAP_trace c2 setError
      (Call.AudioOutputUnitStop c2.stream.outputUnit) r.stopOutput
    generalize c2.ERR_WRAP setError (Call.AudioOutputUnitStop c2.stream.outputUnit)
      r.stopOutput = c3 at h3 ⊢
    obtain ⟨r4, h4⟩ := Control.ERR_WRAP_trace c3 setError
      (Call.AudioUnitReset c2.stream.outputUnit Scope.Global 0) r.resetOutput
    exact ⟨r2 ++ r3 ++ r4, by rw [h4, h3, h2, h1]; simp⟩
  · exact ⟨r2, by rw [h2, h1]; simp⟩

/-- The stream `StartStream` leaves: only `state` changes, and only once the
converter reset, if any, has succeeded. -/
theorem StartStream_stream (setError : Int → PaError) (stream : PaMacCoreStream)
    (r : StartReplies) (w : World) :
    (StartStream setError stream r w).stream =
      { stream with
        state :=
          if stream.inputSRConverter ≠ 0 ∧ toOSErr r.audioConverterReset ≠ 0 then stream.state
          else StreamState.ACTIVE } := by
  unfold StartStream
  obtain ⟨self, bp, iu, ou, idev, odev, ifpb, ofpb, rb, src, abl, blio, uic, uoc, sr, xf, its, st⟩ :=
    stream
  by_cases a : src = 0 <;>
    by_cases e1 : toOSErr r.audioConverterReset = 0 <;>
    by_cases b : iu = 0 <;>
    by_cases e2 : toOSErr r.startInput = 0 <;>
    by_cases c : ou = 0 <;>
    by_cases d : ou = iu <;>
    by_cases e3 : toOSErr r.startOutput = 0 <;>
    simp [Control.ERR_WRAP, Control.step, noErr, a, e1, b, e2, c, d, e3]

/-- What a `StartStream` that reaches `return paNoError` has called. -/
theorem StartStream_trace (setError : Int → PaError) (stream : PaMacCoreStream)
    (r : StartReplies) (w : World) (h : (StartStream setError stream r w).returned = none) :
    (StartStream setError stream r w).world.trace =
      w.trace ++ [Call.PaUtil_ResetBufferProcessor] ++
        (if stream.inputSRConverter ≠ 0 then [Call.AudioConverterReset stream.inputSRConverter]
          else []) ++
        (if stream.inputUnit ≠ 0 then [Call.AudioOutputUnitStart stream.inputUnit] else []) ++
        (if stream.outputUnit ≠ 0 ∧ stream.outputUnit ≠ stream.inputUnit then
          [Call.AudioOutputUnitStart stream.outputUnit] else []) := by
  revert h
  unfold StartStream
  obtain ⟨self, bp, iu, ou, idev, odev, ifpb, ofpb, rb, src, abl, blio, uic, uoc, sr, xf, its, st⟩ :=
    stream
  by_cases a : src = 0 <;>
    by_cases e1 : toOSErr r.audioConverterReset = 0 <;>
    by_cases b : iu = 0 <;>
    by_cases e2 : toOSErr r.startInput = 0 <;>
    by_cases c : ou = 0 <;>
    by_cases d : ou = iu <;>
    by_cases e3 : toOSErr r.startOutput = 0 <;>
    simp [Control.ERR_WRAP, Control.step, noErr, World.log, a, e1, b, e2, c, d, e3]

/-- `StartStream` reaches `return paNoError` exactly when every call it makes
succeeds. -/
theorem StartStream_returned_eq_none_iff (setError : Int → PaError) (stream : PaMacCoreStream)
    (r : StartReplies) (w : World) :
    (StartStream setError stream r w).returned = none ↔
      (stream.inputSRConverter = 0 ∨ toOSErr r.audioConverterReset = 0) ∧
      (stream.inputUnit = 0 ∨ toOSErr r.startInput = 0) ∧
      (stream.outputUnit = 0 ∨ stream.outputUnit = stream.inputUnit ∨
        toOSErr r.startOutput = 0) := by
  unfold StartStream
  obtain ⟨self, bp, iu, ou, idev, odev, ifpb, ofpb, rb, src, abl, blio, uic, uoc, sr, xf, its, st⟩ :=
    stream
  by_cases a : src = 0 <;>
    by_cases e1 : toOSErr r.audioConverterReset = 0 <;>
    by_cases b : iu = 0 <;>
    by_cases e2 : toOSErr r.startInput = 0 <;>
    by_cases c : ou = 0 <;>
    by_cases d : ou = iu <;>
    by_cases e3 : toOSErr r.startOutput = 0 <;>
    simp [Control.ERR_WRAP, Control.step, noErr, a, e1, b, e2, c, d, e3]

/-- `StopStream` in terms of the outcome of its "stop and reset" block. -/
theorem StopStream_cases (setError : Int → PaError) (stream : PaMacCoreStream)
    (r : StopReplies) (w : World) :
    (∃ e, (StopStream.untilBlocking setError stream r w).returned = some e ∧
      (StopStream setError stream r w).returned = some e ∧
      (StopStream setError stream r w).stream =
        { stream with isTimeSet := false, state := StreamState.STOPPING }) ∨
    ((StopStream.untilBlocking setError stream r w).returned = none ∧
      (StopStream setError stream r w).returned =
        (if r.resetBlioRingBuffers ≠ paNoError then some r.resetBlioRingBuffers else none) ∧
      (StopStream setError stream r w).stream =
        { StopStream.resetRing { stream with isTimeSet := false, state := StreamState.STOPPING }
          with xrunFlags := 0, state := StreamState.STOPPED }) := by
  unfold StopStream StopStream.untilBlocking
  have hs := StopStream.stopAndReset_stream setError r
    ⟨{ stream with isTimeSet := false, state := StreamState.STOPPING },
      w.log Call.waitUntilBlioWriteBufferIsFlushed, none⟩
  generalize StopStream.stopAndReset setError r _ = c at hs ⊢
  obtain ⟨s, w1, ret⟩ := c
  simp only at hs
  subst hs
  unfold StopStream.resetBlocking StopStream.markStopped Control.step
  cases ret with
  | some e => exact Or.inl ⟨e, rfl, rfl, rfl⟩
  | none => exact Or.inr ⟨rfl, rfl, rfl⟩

/-! ## The state of the stream during `AudioIOProc` -/

@[simp] theorem IOState.phase_log (st : IOState) (c : Call) : (st.log c).phase = st.phase := rfl
@[simp] theorem IOState.phase_beginProcessing (st : IOState) (x : Nat) :
    (st.beginProcessing x).phase = st.phase := rfl
@[simp] theorem IOState.phase_endProcessing (st : IOState) (r : IOReplies) :
    (st.endProcessing r).phase = st.phase := rfl
@[simp] theorem IOState.phase_flag (st : IOState) (f : Nat) : (st.flag f).phase = st.phase := rfl
@[simp] theorem IOState.phase_setRing (st : IOState) (rb : RingBuffer) :
    (st.setRing rb).phase = st.phase := rfl
@[simp] theorem IOState.phase_fill (st : IOState) (n : Nat) (r : IOReplies) :
    (st.fill n r).phase = st.phase := rfl
@[simp] theorem IOState.phase_renderInput (st : IOState) (r : IOReplies) :
    (st.renderInput r).phase = st.phase := rfl
@[simp] theorem IOState.phase_ite (c : Prop) [Decidable c] (a b : IOState) :
    (if c then a else b).phase = if c then a.phase else b.phase := by
  split <;> rfl

@[simp] theorem setStreamStartTime_phase (st : IOState) :
    (setStreamStartTime st).phase = st.phase := by
  unfold setStreamStartTime
  split_ifs <;> rfl

@[simp] theorem timing_phase (b : Bool) (st : IOState) :
    (AudioIOProc.timing b st).phase = st.phase := by
  unfold AudioIOProc.timing
  cases b <;> simp

@[simp] theorem duplex_phase (ioData : AudioBuffer) (r : IOReplies) (st : IOState) :
    (AudioIOProc.duplex ioData r st).phase = st.phase := rfl

@[simp] theorem renderConverted_phase (f c : Nat) (r : IOReplies) (st : IOState) :
    (AudioIOProc.renderConverted f c r st).phase = st.phase := by
  simp only [AudioIOProc.renderConverted, IOState.phase_ite, IOState.phase_log,
    IOState.phase_flag, IOState.phase_fill, IOState.phase_endProcessing, ite_self]

@[simp] theorem renderFromRing_phase (f c : Nat) (r : IOReplies) (st : IOState) :
    (AudioIOProc.renderFromRing f c r st).phase = st.phase := by
  unfold AudioIOProc.renderFromRing
  generalize RingBuffer_GetReadRegions st.stream.inputRingBuffer (c * f * 4) = g
  dsimp only
  split_ifs <;>
  simp only [IOState.phase_log, IOState.phase_flag, IOState.phase_setRing,
    IOState.phase_endProcessing]

@[simp] theorem render_phase (ioData : AudioBuffer) (r : IOReplies) (st : IOState) :
    (AudioIOProc.render ioData r st).phase = st.phase := by
  simp only [AudioIOProc.render, IOState.phase_ite, IOState.phase_log, renderConverted_phase,
    renderFromRing_phase, IOState.phase_beginProcessing, IOState.phase_endProcessing, ite_self]

@[simp] theorem convertOnce_phase (c : Nat) (r : IOReplies) (st : IOState) :
    (AudioIOProc.convertOnce c r st).phase = st.phase := by
  simp only [AudioIOProc.convertOnce, IOState.phase_ite, IOState.phase_log, IOState.phase_fill,
    IOState.phase_beginProcessing, IOState.phase_endProcessing, ite_self]

theorem convertLoop_phase (c : Nat) (r : IOReplies) (fuel : Nat) (st out : IOState)
    (h : AudioIOProc.convertLoop c r fuel st = some out) : out.phase = st.phase := by
  induction fuel generalizing st with
  | zero => simp [AudioIOProc.convertLoop] at h
  | succ n ih =>
    simp only [AudioIOProc.convertLoop] at h
    split_ifs at h
    · rw [ih _ h]; simp
    · cases h; simp

theorem capture_phase (r : IOReplies) (fuel : Nat) (st out : IOState)
    (h : AudioIOProc.capture r fuel st = some out) : out.phase = st.phase := by
  simp only [AudioIOProc.capture] at h
  split_ifs at h
  all_goals first
    | (rw [convertLoop_phase _ _ _ _ _ h]
       simp only [IOState.phase_ite, IOState.phase_log, IOState.phase_flag,
         IOState.phase_setRing, IOState.phase_beginProcessing, IOState.phase_endProcessing,
         IOState.phase_renderInput, ite_self])
    | (cases h
       simp only [IOState.phase_ite, IOState.phase_log, IOState.phase_flag,
         IOState.phase_setRing, IOState.phase_beginProcessing, IOState.phase_endProcessing,
         IOState.phase_renderInput, ite_self])

theorem body_phase (b : Bool) (ioData : AudioBuffer) (r : IOReplies) (fuel : Nat)
    (st out : IOState) (h : AudioIOProc.body b ioData r fuel st = some out) :
    out.phase = st.phase := by
  unfold AudioIOProc.body at h
  split_ifs at h
  · cases h; simp
  · cases h; simp
  · exact capture_phase r fuel st out h

/-- The prologue of `AudioIOProc` only queries the device time and may set
`isTimeSet`. -/
theorem AudioIOProc.timing_eq (b : Bool) (st : IOState) :
    ∃ (queries : List Call) (isTimeSet : Bool),
      AudioIOProc.timing b st =
        { st with
          world := { st.world with trace := st.world.trace ++ queries }
          stream := { st.stream with isTimeSet := isTimeSet } } ∧
      ∀ c ∈ queries, ∃ device, c = Call.AudioDeviceGetCurrentTime device := by
  obtain ⟨s, w, cr, fp, n, fills, ends⟩ := st
  obtain ⟨self, bp, iu, ou, idev, odev, ifpb, ofpb, rb, src, abl, blio, uic, uoc, sr, xf, its, st⟩ :=
    s
  unfold AudioIOProc.timing setStreamStartTime
  cases its <;> cases b <;> by_cases ho : odev = 0 <;> by_cases hi : idev = 0
  all_goals first
    | (refine ⟨[Call.AudioDeviceGetCurrentTime odev, Call.AudioDeviceGetCurrentTime odev], true, ?_, ?_⟩ <;>
        simp [IOState.log, World.log, ho, hi] <;> done)
    | (refine ⟨[Call.AudioDeviceGetCurrentTime idev, Call.AudioDeviceGetCurrentTime odev], true, ?_, ?_⟩ <;>
        simp [IOState.log, World.log, ho, hi] <;> done)
    | (refine ⟨[Call.AudioDeviceGetCurrentTime odev, Call.AudioDeviceGetCurrentTime idev], true, ?_, ?_⟩ <;>
        simp [IOState.log, World.log, ho, hi] <;> done)
    | (refine ⟨[Call.AudioDeviceGetCurrentTime idev, Call.AudioDeviceGetCurrentTime idev], true, ?_, ?_⟩ <;>
        simp [IOState.log, World.log, ho, hi] <;> done)
    | (refine ⟨[Call.AudioDeviceGetCurrentTime odev], true, ?_, ?_⟩ <;>
        simp [IOState.log, World.log, ho, hi] <;> done)
    | (refine ⟨[Call.AudioDeviceGetCurrentTime idev], true, ?_, ?_⟩ <;>
        simp [IOState.log, World.log, ho, hi])

/-- The state `AudioIOProc` is in at its `switch( callbackResult )` still has
the stream state of the call. -/
theorem AudioIOProc_phase (stream : PaMacCoreStream) (bus n : Nat) (ioData : AudioBuffer)
    (r : IOReplies) (fuel : Nat) (w : World) (out : IOState)
    (h : AudioIOProc stream bus n ioData r fuel w = some out) :
    out.stream.state = stream.state ∨ out.stream.state = StreamState.CALLBACK_STOPPED := by
  unfold AudioIOProc at h
  cases hb : AudioIOProc.body (bus == OUTPUT_ELEMENT) ioData r fuel
      (AudioIOProc.timing (bus == OUTPUT_ELEMENT)
        ⟨stream, w.log Call.PaUtil_BeginCpuLoadMeasurement, paContinue, 0, n, 0, 0⟩) with
  | none => rw [hb] at h; cases h
  | some st =>
    rw [hb] at h
    have hp : st.phase = stream.state := by
      rw [body_phase _ _ _ _ _ _ hb, timing_phase]
      rfl
    cases h
    unfold AudioIOProc.onCallbackResult IOState.stopUnit
    dsimp only
    split_ifs
    all_goals first
      | exact Or.inl hp
      | exact Or.inr rfl

/-! ## The input ring buffer after `OpenStream` -/

theorem OpenStream.allocateRing_ring (r : OpenReplies) (o : Opening)
    (h0 : o.stream.inputRingBuffer.buffer = 0) (hin : o.stream.inputUnit ≠ 0)
    (hf : (OpenStream.allocateRing r o).failed = false) :
    (OpenStream.allocateRing r o).stream.RingAsOpened r.ringSize := by
  unfold OpenStream.allocateRing at hf ⊢
  split_ifs at hf ⊢ with hc ha hout
  · simp [Opening.fail] at hf
  · refine ⟨?_, ?_⟩
    · simp [World.next, hin, hc, RingBuffer_AdvanceWriteIndex, RingBuffer_Init, RingBuffer_Flush,
        hout]
      tauto
    · intro _
      simp [RingBuffer_AdvanceWriteIndex, RingBuffer_Init, RingBuffer_Flush, hout,
        RING_BUFFER_ADVANCE_DENOMINATOR]
      rcases Nat.eq_zero_or_pos r.ringSize with h | h
      · simp [h]
      · exact Nat.mod_eq_of_lt (by omega)
  · refine ⟨?_, ?_⟩
    · simp [World.next, hin, hc, RingBuffer_Init, RingBuffer_Flush, hout]
      tauto
    · intro _
      simp [RingBuffer_Init, RingBuffer_Flush, hout]
  · exact ⟨by simp [h0, hin, hc], fun h => absurd h0 h⟩

theorem OpenStream.allocateInputBuffers_ring (c : Int) (r : OpenReplies) (o : Opening)
    (h0 : o.stream.inputRingBuffer.buffer = 0)
    (hf : (OpenStream.allocateInputBuffers c r o).failed = false) :
    (OpenStream.allocateInputBuffers c r o).stream.RingAsOpened r.ringSize := by
  unfold OpenStream.allocateInputBuffers at hf ⊢
  split_ifs at hf ⊢ with hin ha
  · simp [Opening.fail] at hf
  · exact OpenStream.allocateRing_ring r _ h0 hin hf
  · exact ⟨by simp [h0, hin], fun h => absurd h0 h⟩

/-- The blocking-I/O buffers and the buffer processor are the only parts of
the stream the last stage of `OpenStream` touches. -/
theorem OpenStream.initializeProcessors_stream (ci co : Int) (n : Nat) (cb : Bool)
    (r : OpenReplies) (o : Opening) :
    ∃ (blio : PaMacBlio) (initialized : Bool),
      (OpenStream.initializeProcessors ci co n cb r o).stream =
        { o.stream with blio := blio, bufferProcessorIsInitialized := initialized } := by
  unfold OpenStream.initializeProcessors
  cases cb <;> by_cases hb : r.initializeBlioRingBuffers = 0 <;>
    by_cases hp : r.initializeBufferProcessor = 0 <;> by_cases hf : o.failed = true <;>
    simp only [Opening.check, Opening.step, hb, hp, hf, paNoError, Bool.not_false, Bool.not_true,
      if_true, if_false, Bool.false_eq_true, bne_self_eq_false, ne_eq, not_true_eq_false,
      not_false_eq_true]
  all_goals first | exact ⟨_, _, rfl⟩ | (split_ifs <;> exact ⟨_, _, rfl⟩)

theorem Opening.step_of_failed_eq_false (o : Opening) (f : Opening → Opening)
    (h : (o.step f).failed = false) : o.failed = false ∧ o.step f = f o := by
  unfold Opening.step at h ⊢
  split_ifs at h ⊢ with hf
  · rw [hf] at h; cases h
  · exact ⟨by simpa using hf, rfl⟩

/-- The ring buffer of the stream of an `OpenStream` that has not failed. -/
theorem OpenStream.acquire_ring (setError : Int → PaError) (api : PaMacAUHAL)
    (ip op : Option PaStreamParameters) (rate : ℚ) (n : Nat) (cb : Bool) (r : OpenReplies)
    (g : PaMacCoreStream) (w : World)
    (hf : (OpenStream.acquire setError api ip op rate n cb r g w).failed = false) :
    (OpenStream.acquire setError api ip op rate n cb r g w).stream.RingAsOpened r.ringSize := by
  obtain ⟨i1, i2, i3⟩ := OpenStream.prepare_inv g cb w
  rw [OpenStream.acquire_eq] at hf ⊢
  have k1 : (OpenStream.started api ip op n cb g w).Inv w.held := by
    unfold OpenStream.started
    split_ifs
    · unfold Opening.Inv at i1 ⊢
      simpa using i1
    · exact i1
  have k2 : (OpenStream.started api ip op n cb g w).stream.Null := by
    unfold OpenStream.started
    split_ifs
    · exact i2
    · exact i2
  obtain ⟨a1, a2, a3, a4, a5⟩ := OpenStream.openUnits_inv setError api ip op rate
    (OpenStream.resolveFramesPerBuffer ip op rate n r.inputRange r.outputRange) r _ w.held k1 k2
  generalize OpenStream.openUnits setError api ip op rate
    (OpenStream.resolveFramesPerBuffer ip op rate n r.inputRange r.outputRange) r
    (OpenStream.started api ip op n cb g w) = o2 at a1 a2 a3 a4 a5 hf ⊢
  obtain ⟨f3, e4⟩ := Opening.step_of_failed_eq_false _ _ hf
  obtain ⟨f2, e3⟩ := Opening.step_of_failed_eq_false _ _ f3
  rw [e4]
  rw [e3] at f3 ⊢
  have hr := OpenStream.allocateInputBuffers_ring _ r o2 a4 f3
  generalize OpenStream.allocateInputBuffers ((ip.map (·.channelCount)).getD 0) r o2 = o3
    at hr ⊢
  obtain ⟨b, p, hs⟩ := OpenStream.initializeProcessors_stream
    ((ip.map (·.channelCount)).getD 0) ((op.map (·.channelCount)).getD 0)
    (OpenStream.resolveFramesPerBuffer ip op rate n r.inputRange r.outputRange) cb r o3
  rw [hs]
  exact hr

/-- What an `OpenStream` that returns `paNoError` has written to `*s`. -/
theorem OpenStream_of_result_eq_paNoError (setError : Int → PaError) (hostApi : PaMacAUHAL)
    (inputParameters outputParameters : Option PaStreamParameters) (sampleRate : ℚ)
    (framesPerBuffer streamFlags : Nat) (streamCallback : Bool) (r : OpenReplies) (w : World)
    (h : (OpenStream setError hostApi inputParameters outputParameters sampleRate framesPerBuffer
      streamFlags streamCallback r w).result = paNoError) :
    ∃ g, r.allocateStream = some g ∧
      (OpenStream.acquire setError hostApi inputParameters outputParameters sampleRate
        framesPerBuffer streamCallback r g w).failed = false ∧
      (OpenStream setError hostApi inputParameters outputParameters sampleRate framesPerBuffer
        streamFlags streamCallback r w).s =
        some { (OpenStream.acquire setError hostApi inputParameters outputParameters sampleRate
            framesPerBuffer streamCallback r g w).stream with
          sampleRate := sampleRate
          userInChan := (inputParameters.map (·.channelCount)).getD 0
          userOutChan := (outputParameters.map (·.channelCount)).getD 0
          isTimeSet := false
          state := StreamState.STOPPED
          xrunFlags := 0 } := by
  unfold OpenStream at h ⊢
  cases hci : OpenStream.checkInput hostApi inputParameters with
  | some e =>
    cases inputParameters with
    | none => simp [OpenStream.checkInput] at hci
    | some p =>
      simp only [hci] at h
      simp only [OpenStream.checkInput] at hci
      split_ifs at hci <;> cases hci <;>
        simp [paInvalidDevice, paInvalidChannelCount, paNoError] at h
  | none =>
    cases hco : OpenStream.checkOutput hostApi outputParameters with
    | some e =>
      cases outputParameters with
      | none => simp [OpenStream.checkOutput] at hco
      | some p =>
        simp only [hci, hco] at h
        simp only [OpenStream.checkOutput] at hco
        split_ifs at hco <;> cases hco <;>
          simp [paInvalidDevice, paInvalidChannelCount, paNoError] at h
    | none =>
      simp only [hci, hco] at h ⊢
      split_ifs at h ⊢ with hfl
      · simp [paInvalidFlag, paNoError] at h
      · cases hg : r.allocateStream with
        | none =>
          simp only [OpenStream.open, hg] at h
          simp [paInsufficientMemory, paNoError] at h
        | some g =>
          rw [OpenStream.open_some _ _ _ _ _ _ _ _ g _ hg] at h ⊢
          have hs := OpenStream.acquire_sound setError hostApi inputParameters outputParameters
            sampleRate framesPerBuffer streamCallback r g w
          split_ifs at h ⊢ with hf
          · exact ⟨g, rfl, hf, rfl⟩
          · exact absurd h (hs (by simpa using hf))

/-! ## Which units a successful `OpenStream` has opened -/

theorem Setup.sound_ERR_WRAP (s : Setup) (c : Call) (e : Int) (h : s.Sound) :
    (s.ERR_WRAP c e).Sound := by
  unfold Setup.ERR_WRAP Setup.step
  split
  · exact h
  · intro hf
    left
    simpa [noErr] using hf

theorem Setup.sound_paCheck (s : Setup) (c : Call) (e : PaError) (h : s.Sound) :
    (s.paCheck c e).Sound := by
  unfold Setup.paCheck Setup.step
  split
  · exact h
  · intro hf
    right
    simpa using hf

theorem Setup.sound_of_step (s : Setup) (f : Setup → Setup) (h : s.Sound)
    (hf : ∀ t : Setup, (f t).failed = t.failed) : (s.step f).Sound := by
  unfold Setup.step
  split
  · exact h
  · rename_i hn
    intro hx
    rw [hf] at hx
    exact absurd hx hn

theorem Setup.sound_setAudioDevice (s : Setup) (d : Nat) (h : s.Sound) :
    (s.setAudioDevice d).Sound := Setup.sound_of_step s _ h (fun _ => rfl)

theorem Setup.sound_clearResult (s : Setup) (h : s.Sound) : s.clearResult.Sound :=
  Setup.sound_of_step s _ h (fun _ => rfl)

theorem Setup.sound_setActualInput (s : Setup) (n : Nat) (h : s.Sound) :
    (s.setActualInput n).Sound := Setup.sound_of_step s _ h (fun _ => rfl)

theorem Setup.sound_setActualOutput (s : Setup) (n : Nat) (h : s.Sound) :
    (s.setActualOutput n).Sound := Setup.sound_of_step s _ h (fun _ => rfl)

theorem Setup.sound_copyActualInputToOutput (s : Setup) (h : s.Sound) :
    s.copyActualInputToOutput.Sound := Setup.sound_of_step s _ h (fun _ => rfl)

theorem Setup.sound_audioConverterNew (s : Setup) (status : Int) (h : s.Sound) :
    (s.audioConverterNew status).Sound := by
  unfold Setup.audioConverterNew
  apply Setup.sound_ERR_WRAP
  apply Setup.sound_of_step s _ h
  intro t
  split <;> rfl

theorem Setup.sound_ite (c : Prop) [Decidable c] (a b : Setup) (ha : a.Sound) (hb : b.Sound) :
    (if c then a else b).Sound := by
  split
  · exact ha
  · exact hb

theorem setDevices_sound (ip op : Option PaStreamParameters) (api : PaMacAUHAL)
    (r : UnitReplies) (unit : Nat) (s : Setup) (h : s.Sound) :
    (OpenAndSetupOneAudioUnit.setDevices ip op api r unit s).Sound := by
  cases ip <;> cases op <;>
    simp only [OpenAndSetupOneAudioUnit.setDevices, Option.isSome_some, Option.isSome_none,
      Option.isNone_some, Option.isNone_none, if_true, if_false, Bool.false_eq_true] <;>
    apply_rules [Setup.sound_ERR_WRAP, Setup.sound_paCheck, Setup.sound_setAudioDevice,
      Setup.sound_clearResult, Setup.sound_ite]

theorem setDeviceFormat_sound (ip op : Option PaStreamParameters) (n : Nat) (a b : Bool)
    (r : UnitReplies) (s : Setup) (h : s.Sound) :
    (OpenAndSetupOneAudioUnit.setDeviceFormat ip op n a b r s).Sound := by
  cases ip <;> cases op <;>
    simp only [OpenAndSetupOneAudioUnit.setDeviceFormat, Option.isSome_some, Option.isSome_none,
      Option.isNone_some, Option.isNone_none, if_true, if_false, Bool.false_eq_true,
      Bool.and_true, Bool.and_false, Bool.true_and, Bool.false_and] <;>
    apply_rules [Setup.sound_ERR_WRAP, Setup.sound_paCheck, Setup.sound_setActualInput,
      Setup.sound_setActualOutput, Setup.sound_copyActualInputToOutput, Setup.sound_ite]

theorem setUnitFormat_sound (ip op : Option PaStreamParameters)
    (r : UnitReplies) (unit : Nat) (s : Setup) (h : s.Sound) :
    (OpenAndSetupOneAudioUnit.setUnitFormat ip op r unit s).Sound := by
  cases ip <;> cases op <;>
    simp only [OpenAndSetupOneAudioUnit.setUnitFormat, Option.isSome_some, Option.isSome_none,
      if_true, if_false, Bool.false_eq_true] <;>
    apply_rules [Setup.sound_ERR_WRAP, Setup.sound_setActualOutput, Setup.sound_ite]

theorem setConverterAndCallbacks_sound (ip op : Option PaStreamParameters) (rate : ℚ)
    (r : UnitReplies) (unit : Nat) (s : Setup) (h : s.Sound) :
    (OpenAndSetupOneAudioUnit.setConverterAndCallbacks ip op rate r unit s).Sound := by
  cases ip <;> cases op <;>
    simp only [OpenAndSetupOneAudioUnit.setConverterAndCallbacks, Option.isSome_some,
      Option.isSome_none, if_true, if_false, Bool.false_eq_true, Bool.and_true, Bool.and_false,
      Bool.true_and, Bool.false_and] <;>
    apply_rules [Setup.sound_ERR_WRAP, Setup.sound_audioConverterNew, Setup.sound_ite]

/-- A unit setup that returns `paNoError` has opened a unit exactly when it was
given parameters. -/
theorem OpenAndSetupOneAudioUnit_audioUnit (setError : Int → PaError)
    (hset : ReportsErrors setError)
    (ip op : Option PaStreamParameters) (n : Nat) (a b : Bool) (api : PaMacAUHAL) (rate : ℚ)
    (r : UnitReplies) (w : World)
    (hr : (OpenAndSetupOneAudioUnit setError ip op n a b api rate r w).paResult = paNoError) :
    ((OpenAndSetupOneAudioUnit setError ip op n a b api rate r w).audioUnit ≠ 0 ↔
      ip.isSome = true ∨ op.isSome = true) := by
  unfold OpenAndSetupOneAudioUnit at hr ⊢
  split_ifs at hr ⊢ with h1 h2 h3
  · cases ip <;> cases op <;> simp at h1 ⊢
  · simp [paUnanticipatedHostError, paNoError] at hr
  · exact absurd hr (hset _ (by simpa [noErr] using h3))
  · have hne : ip.isSome = true ∨ op.isSome = true := by
      cases ip <;> cases op <;> simp at h1 ⊢
    generalize hs0 : (⟨(((w.log Call.FindNextComponent).bump).log
        (Call.OpenAComponent w.next)).acquire (Resource.audioUnit w.next), w.next, 0,
        kAudioDeviceUnknown, 0, 0, toOSErr r.openAComponent, paNoError, false⟩ : Setup) = s0
      at hr ⊢
    have h0 : s0.core =
        (Resource.audioUnit (w.fresh + 1) :: w.held, w.fresh + 1, 0, w.fresh + 1) := by
      subst hs0; rfl
    have hsound0 : s0.Sound := by
      subst hs0
      intro hf
      cases hf
    have hsound := setConverterAndCallbacks_sound ip op rate r w.next _
      (setUnitFormat_sound ip op r w.next _
        (setDeviceFormat_sound ip op n a b r _ (setDevices_sound ip op api r w.next s0 hsound0)))
    generalize hs3 : OpenAndSetupOneAudioUnit.setUnitFormat ip op r w.next
      (OpenAndSetupOneAudioUnit.setDeviceFormat ip op n a b r
        (OpenAndSetupOneAudioUnit.setDevices ip op api r w.next s0)) = s3 at hr hsound ⊢
    have h3' : s3.core = s0.core := by subst hs3; simp
    have h4 := setConverterAndCallbacks_core ip op rate r w.next s3
    generalize OpenAndSetupOneAudioUnit.setConverterAndCallbacks ip op rate r w.next s3 = s4
      at h4 hr hsound ⊢
    rw [h3', h0] at h4
    simp only [Setup.core, Prod.mk.injEq] at h3' h0 h4
    have hu : s4.audioUnit = w.fresh + 1 := by
      rcases h4 with ⟨_, _, _, e4⟩ | ⟨_, _, _, e4⟩
      · exact e4
      · rw [e4, h3'.2.2.2]; exact h0.2.2.2
    unfold OpenAndSetupOneAudioUnit.finish at hr ⊢
    split_ifs at hr ⊢ with hf hres
    · simp [hu, hne]
    · exact absurd hr (hset _ (by simpa using hres))
    · exfalso
      rcases hsound (by simpa using hf) with h | h
      · exact hres (by simpa using h)
      · exact h hr

theorem Opening.check_failed_eq_false (o : Opening) (e : PaError)
    (h : (o.check e).failed = false) : e = paNoError := by
  unfold Opening.check at h
  simpa using h

theorem OpenStream.openUnits_units (setError : Int → PaError) (hset : ReportsErrors setError)
    (api : PaMacAUHAL) (ip op : Option PaStreamParameters) (rate : ℚ) (n : Nat)
    (r : OpenReplies) (o : Opening)
    (hf : (OpenStream.openUnits setError api ip op rate n r o).failed = false) :
    (OpenStream.openUnits setError api ip op rate n r o).stream.UnitsAsRequested ip op := by
  unfold OpenStream.openUnits at hf ⊢
  split_ifs at hf ⊢ with hd
  · have hp := Opening.check_failed_eq_false _ _ hf
    have hu := OpenAndSetupOneAudioUnit_audioUnit setError hset ip op n true true api rate
      r.firstUnit o.world hp
    generalize OpenAndSetupOneAudioUnit setError ip op n true true api rate r.firstUnit o.world
      = u at hu hp ⊢
    obtain ⟨d1, d2, d3⟩ := hd
    have hu' : u.audioUnit ≠ 0 := hu.2 (Or.inl d1)
    exact ⟨⟨fun _ => d1, fun _ => hu'⟩, ⟨fun _ => d2, fun _ => hu'⟩,
      fun _ _ => ⟨fun _ => d3, fun _ => rfl⟩⟩
  · simp only [Opening.check, Opening.step] at hf ⊢
    have hu := OpenAndSetupOneAudioUnit_audioUnit setError hset none op n false true api rate
      r.firstUnit o.world
    obtain ⟨_, _, hu3⟩ := OpenAndSetupOneAudioUnit_held setError none op n false true api rate
      r.firstUnit o.world _ rfl
    generalize OpenAndSetupOneAudioUnit setError none op n false true api rate r.firstUnit
      o.world = u at hu hu3 hf ⊢
    by_cases hp : u.paResult = paNoError
    · simp only [hp, bne_self_eq_false, Bool.false_eq_true, if_false] at hf ⊢
      have hv := OpenAndSetupOneAudioUnit_audioUnit setError hset ip none n true false api rate
        r.secondUnit u.world (by simpa using hf)
      obtain ⟨_, _, hv3⟩ := OpenAndSetupOneAudioUnit_held setError ip none n true false api rate
        r.secondUnit u.world _ rfl
      generalize OpenAndSetupOneAudioUnit setError ip none n true false api rate r.secondUnit
        u.world = v at hv hv3 ⊢
      have hu' := hu hp
      simp only [Option.isSome_none, Bool.false_eq_true, false_or, or_false] at hu' hv
      refine ⟨hv, hu', fun hi ho => ?_⟩
      have h1 := hu3 (hu'.2 ho)
      have h2 := hv3 (hv.2 hi)
      constructor
      · intro he
        exfalso
        have : v.audioUnit = u.audioUnit := he
        omega
      · intro he
        exact absurd ⟨hi, ho, he⟩ hd
    · simp [hp] at hf

/-- The input buffer and the ring buffer are the only parts of the stream
`OpenStream.allocateInputBuffers` touches. -/
theorem OpenStream.allocateInputBuffers_stream (c : Int) (r : OpenReplies) (o : Opening) :
    ∃ (list : AudioBuffer) (ring : RingBuffer),
      (OpenStream.allocateInputBuffers c r o).stream =
        { o.stream with inputAudioBufferList := list, inputRingBuffer := ring } := by
  unfold OpenStream.allocateInputBuffers OpenStream.allocateRing
  split_ifs
  all_goals exact ⟨_, _, rfl⟩

/-- The units of the stream of an `OpenStream` that has not failed. -/
theorem OpenStream.acquire_units (setError : Int → PaError) (hset : ReportsErrors setError)
    (api : PaMacAUHAL) (ip op : Option PaStreamParameters) (rate : ℚ) (n : Nat) (cb : Bool)
    (r : OpenReplies) (g : PaMacCoreStream) (w : World)
    (hf : (OpenStream.acquire setError api ip op rate n cb r g w).failed = false) :
    (OpenStream.acquire setError api ip op rate n cb r g w).stream.UnitsAsRequested ip op := by
  rw [OpenStream.acquire_eq] at hf ⊢
  obtain ⟨f3, e4⟩ := Opening.step_of_failed_eq_false _ _ hf
  obtain ⟨f2, e3⟩ := Opening.step_of_failed_eq_false _ _ f3
  have hu := OpenStream.openUnits_units setError hset api ip op rate _ r _ f2
  rw [e4, e3]
  generalize OpenStream.openUnits setError api ip op rate
    (OpenStream.resolveFramesPerBuffer ip op rate n r.inputRange r.outputRange) r
    (OpenStream.started api ip op n cb g w) = o2 at hu ⊢
  obtain ⟨l, rb, h3⟩ := OpenStream.allocateInputBuffers_stream
    ((ip.map (·.channelCount)).getD 0) r o2
  generalize OpenStream.allocateInputBuffers ((ip.map (·.channelCount)).getD 0) r o2 = o3
    at h3 ⊢
  obtain ⟨b, p, h4⟩ := OpenStream.initializeProcessors_stream
    ((ip.map (·.channelCount)).getD 0) ((op.map (·.channelCount)).getD 0)
    (OpenStream.resolveFramesPerBuffer ip op rate n r.inputRange r.outputRange) cb r o3
  rw [h4, h3]
  exact hu

/-- The ring buffer after the reset of `StopStream`. -/
theorem StopStream.resetRing_ring (stream : PaMacCoreStream)
    (h : stream.inputRingBuffer.buffer ≠ 0) :
    (StopStream.resetRing stream).inputRingBuffer.buffer = stream.inputRingBuffer.buffer ∧
    (StopStream.resetRing stream).inputRingBuffer.bufferSize =
      stream.inputRingBuffer.bufferSize ∧
    (StopStream.resetRing stream).inputRingBuffer.readIndex = 0 ∧
    (StopStream.resetRing stream).inputRingBuffer.writeIndex =
      if stream.outputUnit ≠ 0 then stream.inputRingBuffer.bufferSize / 4 else 0 := by
  unfold StopStream.resetRing
  rw [if_pos h]
  split_ifs with ho
  · refine ⟨rfl, rfl, rfl, ?_⟩
    simp only [RingBuffer_AdvanceWriteIndex, RingBuffer_Flush, RING_BUFFER_ADVANCE_DENOMINATOR,
      Nat.zero_add]
    rcases Nat.eq_zero_or_pos stream.inputRingBuffer.bufferSize with hz | hz
    · simp [hz]
    · exact Nat.mod_eq_of_lt (by omega)
  · exact ⟨rfl, rfl, rfl, rfl⟩

/-- C11 (amended): whenever every unit stop and reset and the reset of the
blocking-I/O buffers succeed, `StopStream` returns `paNoError` and leaves the
state `STOPPED`, `isTimeSet` false and `xrunFlags` 0, so `IsStreamStopped`
returns 1 and `IsStreamActive` returns 0. The state is `STOPPED` already when
`resetBlioRingBuffers` is called, which is the last call `StopStream` makes:
when that call reports an error instead, `StopStream` returns the error and the
state is `STOPPED` all the same. -/
theorem StopStream_succeeds (setError : Int → PaError) (stream : PaMacCoreStream)
    (r : StopReplies) (w : World) (hr : r.succeeds)
    (hb : r.resetBlioRingBuffers = paNoError) :
    (StopStream setError stream r w).result = paNoError ∧
    (StopStream setError stream r w).stream.state = StreamState.STOPPED ∧
    (StopStream setError stream r w).stream.isTimeSet = false ∧
    (StopStream setError stream r w).stream.xrunFlags = 0 ∧
    IsStreamStopped (StopStream setError stream r w).stream = 1 ∧
    IsStreamActive (StopStream setError stream r w).stream = 0 ∧
    (StopStream.untilBlocking setError stream r w).stream.state = StreamState.STOPPED ∧
    (∃ calls, (StopStream.untilBlocking setError stream r w).world.trace = w.trace ++ calls ∧
      Call.resetBlioRingBuffers ∉ calls) ∧
    (StopStream setError stream r w).world.trace =
      (StopStream.untilBlocking setError stream r w).world.trace ++
        [Call.resetBlioRingBuffers] ∧
    ∀ e : PaError, e ≠ paNoError →
      (StopStream setError stream { r with resetBlioRingBuffers := e } w).result = e ∧
      (StopStream setError stream { r with resetBlioRingBuffers := e } w).stream.state =
        StreamState.STOPPED := by
  obtain ⟨u1, u2, u3⟩ := StopStream.untilBlocking_of_succeeds setError stream r w hr
  have key : ∀ r' : StopReplies, r'.succeeds →
      StopStream setError stream r' w =
        ⟨(StopStream.untilBlocking setError stream r' w).stream,
          (StopStream.untilBlocking setError stream r' w).world.log Call.resetBlioRingBuffers,
          if r'.resetBlioRingBuffers ≠ paNoError then some r'.resetBlioRingBuffers else none⟩ := by
    intro r' hr'
    obtain ⟨v1, _, _⟩ := StopStream.untilBlocking_of_succeeds setError stream r' w hr'
    unfold StopStream StopStream.resetBlocking Control.step
    rw [v1]
  have hstate : (StopStream.untilBlocking setError stream r w).stream.state =
      StreamState.STOPPED := by rw [u2]
  have htime : (StopStream.untilBlocking setError stream r w).stream.isTimeSet = false := by
    rw [u2]; simp
  have hx : (StopStream.untilBlocking setError stream r w).stream.xrunFlags = 0 := by rw [u2]
  rw [key r hr]
  refine ⟨?_, hstate, htime, hx, ?_, ?_, hstate, ⟨_, by rw [u3, List.append_assoc], ?_⟩, rfl, ?_⟩
  · simp [Control.result, hb]
  · simp [IsStreamStopped, hstate]
  · simp [IsStreamActive, hstate]
  · split_ifs <;> simp
  · intro e he
    have hr' : ({ r with resetBlioRingBuffers := e } : StopReplies).succeeds := hr
    obtain ⟨_, v2, _⟩ := StopStream.untilBlocking_of_succeeds setError stream
      { r with resetBlioRingBuffers := e } w hr'
    rw [key _ hr']
    refine ⟨by simp [Control.result, he], ?_⟩
    show (StopStream.untilBlocking setError stream { r with resetBlioRingBuffers := e }
      w).stream.state = StreamState.STOPPED
    rw [v2]

theorem StopStream_succeeds_witness :
    StopReplies.success.succeeds ∧ StopReplies.success.resetBlioRingBuffers = paNoError ∧
    (StopStream wrapHostError running StopReplies.success World.empty).result = paNoError ∧
    (StopStream wrapHostError running StopReplies.success World.empty).stream.state =
      StreamState.STOPPED ∧
    IsStreamStopped (StopStream wrapHostError running StopReplies.success World.empty).stream =
      1 ∧
    (StopStream.untilBlocking wrapHostError running StopReplies.success
      World.empty).stream.state = StreamState.STOPPED :=
  have h := StopStream_succeeds wrapHostError running StopReplies.success World.empty
    (by simp [StopReplies.succeeds, StopReplies.success]) rfl
  ⟨by simp [StopReplies.succeeds, StopReplies.success], rfl, h.1, h.2.1, h.2.2.2.2.1,
    h.2.2.2.2.2.2.1⟩

/-- C11 (counterexample): on a running full-duplex stream the unit stop and the
two unit resets succeed and `resetBlioRingBuffers` fails. When
`resetBlioRingBuffers` is about to be called (it is not in the trace yet) the
state is `STOPPED` already; `StopStream` then returns the error of the reset,
and `IsStreamStopped` returns 1: the state was not set after the reset of the
blocking-I/O buffers. -/
theorem StopStream_STOPPED_before_blocking_reset :
    (StopStream.untilBlocking wrapHostError running
      ⟨0, 0, 0, 0, 0, 0, 0, paUnanticipatedHostError⟩ World.empty).stream.state =
      StreamState.STOPPED ∧
    Call.resetBlioRingBuffers ∉
      (StopStream.untilBlocking wrapHostError running
        ⟨0, 0, 0, 0, 0, 0, 0, paUnanticipatedHostError⟩ World.empty).world.trace ∧
    (StopStream wrapHostError running ⟨0, 0, 0, 0, 0, 0, 0, paUnanticipatedHostError⟩
      World.empty).world.trace =
      (StopStream.untilBlocking wrapHostError running
        ⟨0, 0, 0, 0, 0, 0, 0, paUnanticipatedHostError⟩ World.empty).world.trace ++
        [Call.resetBlioRingBuffers] ∧
    (StopStream wrapHostError running ⟨0, 0, 0, 0, 0, 0, 0, paUnanticipatedHostError⟩
      World.empty).result = paUnanticipatedHostError ∧
    (StopStream wrapHostError running ⟨0, 0, 0, 0, 0, 0, 0, paUnanticipatedHostError⟩
      World.empty).stream.state = StreamState.STOPPED ∧
    IsStreamStopped (StopStream wrapHostError running
      ⟨0, 0, 0, 0, 0, 0, 0, paUnanticipatedHostError⟩ World.empty).stream = 1 := by
  decide

/-- C12 (amended): for every stream whose input and output units are distinct
and both present, the first unit call of `StopStream` stops the input unit,
whatever the platform answers; when every call succeeds the input unit is
stopped and reset, then the output unit is stopped and reset. So the output
unit is never stopped before the input unit. -/
theorem StopStream_stops_input_first (setError : Int → PaError) (stream : PaMacCoreStream)
    (r : StopReplies) (w : World) (hin : stream.inputUnit ≠ 0) (hout : stream.outputUnit ≠ 0)
    (hne : stream.inputUnit ≠ stream.outputUnit) :
    (∃ rest, (StopStream setError stream r w).world.trace =
      w.trace ++ Call.waitUntilBlioWriteBufferIsFlushed ::
        Call.AudioOutputUnitStop stream.inputUnit :: rest) ∧
    (r.succeeds →
      (StopStream setError stream r w).world.trace =
        w.trace ++ [Call.waitUntilBlioWriteBufferIsFlushed,
          Call.AudioOutputUnitStop stream.inputUnit,
          Call.AudioUnitReset stream.inputUnit Scope.Global 1,
          Call.AudioOutputUnitStop stream.outputUnit,
          Call.AudioUnitReset stream.outputUnit Scope.Global 0,
          Call.resetBlioRingBuffers]) := by
  constructor
  · obtain ⟨r1, h1⟩ := StopStream.stopAndReset_trace_of_distinct setError r
      ⟨{ stream with isTimeSet := false, state := StreamState.STOPPING },
        w.log Call.waitUntilBlioWriteBufferIsFlushed, none⟩ rfl hin hne
    obtain ⟨r2, h2⟩ := StopStream.resetBlocking_trace r
      (StopStream.untilBlocking setError stream r w)
    refine ⟨r1 ++ r2, ?_⟩
    unfold StopStream
    rw [h2]
    unfold StopStream.untilBlocking
    rw [StopStream.markStopped_trace, h1]
    simp [World.log]
  · intro hr
    obtain ⟨u1, u2, u3⟩ := StopStream.untilBlocking_of_succeeds setError stream r w hr
    unfold StopStream StopStream.resetBlocking Control.step
    rw [u1]
    show (StopStream.untilBlocking setError stream r w).world.trace ++
      [Call.resetBlioRingBuffers] = _
    rw [u3, if_neg (fun h => hne h.1), if_pos hin, if_pos hout]
    simp

theorem StopStream_stops_input_first_witness :
    runningOnTwoUnits.inputUnit ≠ 0 ∧ runningOnTwoUnits.outputUnit ≠ 0 ∧
    runningOnTwoUnits.inputUnit ≠ runningOnTwoUnits.outputUnit ∧
    ∃ rest, (StopStream wrapHostError runningOnTwoUnits ⟨0, 0, -50, 0, 0, 0, 7, 0⟩
        World.empty).world.trace =
      World.empty.trace ++ Call.waitUntilBlioWriteBufferIsFlushed ::
        Call.AudioOutputUnitStop runningOnTwoUnits.inputUnit :: rest :=
  ⟨by decide, by decide, by decide,
    (StopStream_stops_input_first wrapHostError runningOnTwoUnits ⟨0, 0, -50, 0, 0, 0, 7, 0⟩
      World.empty (by decide) (by decide) (by decide)).1⟩

/-- C12 (counterexample): a stream with the input on unit 1 and the output on
unit 2; every call succeeds. `StopStream` stops unit 1, the input unit, before
unit 2, the output unit. -/
theorem StopStream_stops_input_before_output :
    runningOnTwoUnits.inputUnit = 1 ∧ runningOnTwoUnits.outputUnit = 2 ∧
    (StopStream wrapHostError runningOnTwoUnits StopReplies.success World.empty).world.trace =
      [Call.waitUntilBlioWriteBufferIsFlushed,
        Call.AudioOutputUnitStop 1, Call.AudioUnitReset 1 Scope.Global 1,
        Call.AudioOutputUnitStop 2, Call.AudioUnitReset 2 Scope.Global 0,
        Call.resetBlioRingBuffers] := by
  decide

/-- C13 (amended): `StartStream` and `StopStream` do not undo what they have
done when a call fails. Whenever `StartStream` returns an error, `isTimeSet`
and `xrunFlags` are as before the call, and the state is as before when the
reset of the converter failed and `ACTIVE` when a unit start failed. Whenever
`StopStream` returns an error, `isTimeSet` is false; when a unit stop or reset
failed the state is `STOPPING` and `xrunFlags` is as before, and when the reset
of the blocking-I/O buffers failed the state is `STOPPED` and `xrunFlags` is
0. -/
theorem StartStream_StopStream_after_error (setError : Int → PaError)
    (stream : PaMacCoreStream) (start : StartReplies) (stop : StopReplies) (w : World) :
    ((StartStream setError stream start w).result ≠ paNoError →
      (StartStream setError stream start w).stream.isTimeSet = stream.isTimeSet ∧
      (StartStream setError stream start w).stream.xrunFlags = stream.xrunFlags ∧
      (StartStream setError stream start w).stream.state =
        if stream.inputSRConverter ≠ 0 ∧ toOSErr start.audioConverterReset ≠ 0 then stream.state
        else StreamState.ACTIVE) ∧
    ((StopStream setError stream stop w).result ≠ paNoError →
      (StopStream setError stream stop w).stream.isTimeSet = false ∧
      (((StopStream.untilBlocking setError stream stop w).returned ≠ none ∧
          (StopStream setError stream stop w).stream.state = StreamState.STOPPING ∧
          (StopStream setError stream stop w).stream.xrunFlags = stream.xrunFlags) ∨
        ((StopStream.untilBlocking setError stream stop w).returned = none ∧
          (StopStream setError stream stop w).result = stop.resetBlioRingBuffers ∧
          (StopStream setError stream stop w).stream.state = StreamState.STOPPED ∧
          (StopStream setError stream stop w).stream.xrunFlags = 0))) := by
  constructor
  · intro _
    rw [StartStream_stream]
    exact ⟨rfl, rfl, rfl⟩
  · intro h
    rcases StopStream_cases setError stream stop w with ⟨e, h0, h1, h2⟩ | ⟨h0, h1, h2⟩
    · rw [h2]
      exact ⟨rfl, Or.inl ⟨by rw [h0]; simp, rfl, rfl⟩⟩
    · have hb : stop.resetBlioRingBuffers ≠ paNoError := by
        intro hb
        apply h
        unfold Control.result
        rw [h1, if_neg (not_not.mpr hb)]
        rfl
      refine ⟨by rw [h2]; simp, Or.inr ⟨h0, ?_, by rw [h2], by rw [h2]⟩⟩
      unfold Control.result
      rw [h1, if_pos hb]
      rfl

theorem StartStream_StopStream_after_error_witness :
    (StartStream wrapHostError idle ⟨0, -50, 0⟩ World.empty).result ≠ paNoError ∧
    (StartStream wrapHostError idle ⟨0, -50, 0⟩ World.empty).stream.isTimeSet =
      idle.isTimeSet ∧
    (StartStream wrapHostError idle ⟨0, -50, 0⟩ World.empty).stream.xrunFlags =
      idle.xrunFlags ∧
    (StartStream wrapHostError idle ⟨0, -50, 0⟩ World.empty).stream.state =
      if idle.inputSRConverter ≠ 0 ∧ toOSErr (-50) ≠ 0 then idle.state
      else StreamState.ACTIVE :=
  ⟨by decide,
    (StartStream_StopStream_after_error wrapHostError idle ⟨0, -50, 0⟩ StopReplies.success
      World.empty).1 (by decide)⟩

/-- C13 (counterexample): `StartStream` on a stopped stream whose unit refuses
to start returns an error and leaves the state `ACTIVE`; `StopStream` on a
running stream whose unit refuses to stop returns an error and leaves the state
`STOPPING` and `isTimeSet` false. In both the stream is not as it was before
the call. -/
theorem StartStream_StopStream_not_atomic :
    idle.state = StreamState.STOPPED ∧
    (StartStream wrapHostError idle ⟨0, -50, 0⟩ World.empty).result ≠ paNoError ∧
    (StartStream wrapHostError idle ⟨0, -50, 0⟩ World.empty).stream.state = StreamState.ACTIVE ∧
    running.state = StreamState.ACTIVE ∧ running.isTimeSet = true ∧
    (StopStream wrapHostError running ⟨-50, 0, 0, 0, 0, 0, 0, 0⟩ World.empty).result ≠
      paNoError ∧
    (StopStream wrapHostError running ⟨-50, 0, 0, 0, 0, 0, 0, 0⟩ World.empty).stream.state =
      StreamState.STOPPING ∧
    (StopStream wrapHostError running ⟨-50, 0, 0, 0, 0, 0, 0, 0⟩ World.empty).stream.isTimeSet =
      false := by
  decide

/-- C14: a `StartStream` that reaches its `return paNoError` has called, in
this order, `PaUtil_ResetBufferProcessor`, `AudioConverterReset` when there is
a converter, `AudioOutputUnitStart` on the input unit when there is one, and
`AudioOutputUnitStart` on the output unit when there is one and it is not the
input unit; a unit shared by input and output is started exactly once, and the
state on return is `ACTIVE`. The state is set between the reset of the
converter and the unit starts: when the reset of the converter fails the state
is as before, and once it has succeeded the state is `ACTIVE` whatever the
unit starts answer. -/
theorem StartStream_order (setError : Int → PaError) (stream : PaMacCoreStream)
    (r : StartReplies) (w : World) (h : (StartStream setError stream r w).returned = none) :
    (StartStream setError stream r w).result = paNoError ∧
    (∃ calls, (StartStream setError stream r w).world.trace = w.trace ++ calls ∧
      calls = [Call.PaUtil_ResetBufferProcessor] ++
        (if stream.inputSRConverter ≠ 0 then [Call.AudioConverterReset stream.inputSRConverter]
          else []) ++
        (if stream.inputUnit ≠ 0 then [Call.AudioOutputUnitStart stream.inputUnit] else []) ++
        (if stream.outputUnit ≠ 0 ∧ stream.outputUnit ≠ stream.inputUnit then
          [Call.AudioOutputUnitStart stream.outputUnit] else []) ∧
      (stream.inputUnit ≠ 0 → stream.outputUnit = stream.inputUnit →
        calls.count (Call.AudioOutputUnitStart stream.inputUnit) = 1)) ∧
    (StartStream setError stream r w).stream.state = StreamState.ACTIVE ∧
    (∀ r' : StartReplies, stream.inputSRConverter ≠ 0 → toOSErr r'.audioConverterReset ≠ 0 →
      (StartStream setError stream r' w).stream.state = stream.state) ∧
    (∀ r' : StartReplies, stream.inputSRConverter = 0 ∨ toOSErr r'.audioConverterReset = 0 →
      (StartStream setError stream r' w).stream.state = StreamState.ACTIVE) := by
  have hs := StartStream_stream setError stream
  have ht := StartStream_trace setError stream r w h
  refine ⟨by unfold Control.result; rw [h]; rfl, ⟨_, by rw [ht]; simp only [List.append_assoc],
    rfl, ?_⟩, ?_, ?_, ?_⟩
  · intro hi ho
    simp [hi, ho]
    split_ifs <;> simp
  · rw [hs, if_neg]
    rintro ⟨h1, h2⟩
    rcases ((StartStream_returned_eq_none_iff setError stream r w).1 h).1 with h3 | h3
    · exact h1 h3
    · exact h2 h3
  · intro r' h1 h2
    rw [hs, if_pos ⟨h1, h2⟩]
  · intro r' h1
    rw [hs, if_neg (by tauto)]

theorem StartStream_order_witness :
    (StartStream wrapHostError idle ⟨0, 0, 0⟩ World.empty).returned = none ∧
    (StartStream wrapHostError idle ⟨0, 0, 0⟩ World.empty).result = paNoError ∧
    (∃ calls, (StartStream wrapHostError idle ⟨0, 0, 0⟩ World.empty).world.trace =
        World.empty.trace ++ calls ∧
      calls = [Call.PaUtil_ResetBufferProcessor] ++
        (if idle.inputSRConverter ≠ 0 then [Call.AudioConverterReset idle.inputSRConverter]
          else []) ++
        (if idle.inputUnit ≠ 0 then [Call.AudioOutputUnitStart idle.inputUnit] else []) ++
        (if idle.outputUnit ≠ 0 ∧ idle.outputUnit ≠ idle.inputUnit then
          [Call.AudioOutputUnitStart idle.outputUnit] else []) ∧
      (idle.inputUnit ≠ 0 → idle.outputUnit = idle.inputUnit →
        calls.count (Call.AudioOutputUnitStart idle.inputUnit) = 1)) ∧
    (StartStream wrapHostError idle ⟨0, 0, 0⟩ World.empty).stream.state = StreamState.ACTIVE :=
  have h := StartStream_order wrapHostError idle ⟨0, 0, 0⟩ World.empty (by decide)
  ⟨by decide, h.1, h.2.1, h.2.2.1⟩

/-- C15 (amended): the stream state machine has no guard on the state a step
starts from. Whatever the state before, `StartStream` leaves it unchanged or
sets it to `ACTIVE`; `StopStream` and `AbortStream` end in `STOPPING` or in
`STOPPED`; a run of `AudioIOProc` leaves it unchanged or sets it to
`CALLBACK_STOPPED`. -/
theorem stream_state_changes (setError : Int → PaError) (stream : PaMacCoreStream)
    (start : StartReplies) (stop : StopReplies) (w : World) :
    ((StartStream setError stream start w).stream.state = stream.state ∨
      (StartStream setError stream start w).stream.state = StreamState.ACTIVE) ∧
    ((StopStream setError stream stop w).stream.state = StreamState.STOPPING ∨
      (StopStream setError stream stop w).stream.state = StreamState.STOPPED) ∧
    ((AbortStream setError stream stop w).stream.state = StreamState.STOPPING ∨
      (AbortStream setError stream stop w).stream.state = StreamState.STOPPED) ∧
    (∀ (inBusNumber inNumberFrames : Nat) (ioData : AudioBuffer) (r : IOReplies) (fuel : Nat)
        (out : IOState),
      AudioIOProc stream inBusNumber inNumberFrames ioData r fuel w = some out →
      out.stream.state = stream.state ∨ out.stream.state = StreamState.CALLBACK_STOPPED) := by
  have hstop : (StopStream setError stream stop w).stream.state = StreamState.STOPPING ∨
      (StopStream setError stream stop w).stream.state = StreamState.STOPPED := by
    rcases StopStream_cases setError stream stop w with ⟨e, _, _, h2⟩ | ⟨_, _, h2⟩
    · exact Or.inl (by rw [h2])
    · exact Or.inr (by rw [h2])
  refine ⟨?_, hstop, hstop, ?_⟩
  · rw [StartStream_stream]
    dsimp only
    split_ifs
    · exact Or.inl rfl
    · exact Or.inr rfl
  · intro bus n ioData r fuel out h
    exact AudioIOProc_phase stream bus n ioData r fuel w out h

/-- C15 (counterexample): changes of state outside the five of the claim.
`StartStream` takes a stream from `CALLBACK_STOPPED` to `ACTIVE`; a
`StopStream` whose unit stop fails takes it from `CALLBACK_STOPPED` to
`STOPPING`; a successful `StopStream` takes a stream from `ACTIVE` to `STOPPED`
in one step; a run of `AudioIOProc` in which the client callback returns
`paComplete` takes a stream from `STOPPING` to `CALLBACK_STOPPED`. -/
theorem stream_state_changes_outside_the_cycle :
    ({ running with state := StreamState.CALLBACK_STOPPED } : PaMacCoreStream).state =
      StreamState.CALLBACK_STOPPED ∧
    (StartStream wrapHostError { running with state := StreamState.CALLBACK_STOPPED } ⟨0, 0, 0⟩
      World.empty).result = paNoError ∧
    (StartStream wrapHostError { running with state := StreamState.CALLBACK_STOPPED } ⟨0, 0, 0⟩
      World.empty).stream.state = StreamState.ACTIVE ∧
    (StopStream wrapHostError { running with state := StreamState.CALLBACK_STOPPED }
      ⟨-50, 0, 0, 0, 0, 0, 0, 0⟩ World.empty).stream.state = StreamState.STOPPING ∧
    running.state = StreamState.ACTIVE ∧
    (StopStream wrapHostError running StopReplies.success World.empty).stream.state =
      StreamState.STOPPED ∧
    (∃ out, AudioIOProc { running with state := StreamState.STOPPING } OUTPUT_ELEMENT 64
        ⟨2, 512, 0⟩ (IOReplies.answering paComplete) 0 World.empty = some out ∧
      out.stream.state = StreamState.CALLBACK_STOPPED) := by
  refine ⟨rfl, by decide, by decide, by decide, rfl, by decide, ⟨_, rfl, by decide⟩⟩

/-- C16: `IsStreamStopped` and `IsStreamActive` depend on the state alone.
`IsStreamStopped` returns 1 exactly when the state is `STOPPED` and 0
otherwise; `IsStreamActive` returns a non-zero value (1) exactly when the state
is `ACTIVE` or `STOPPING`. They are never both non-zero, and both are 0 exactly
in `CALLBACK_STOPPED`. -/
theorem IsStreamStopped_IsStreamActive (stream : PaMacCoreStream) :
    IsStreamStopped stream = (if stream.state = StreamState.STOPPED then 1 else 0) ∧
    (IsStreamStopped stream = 1 ↔ stream.state = StreamState.STOPPED) ∧
    (IsStreamStopped stream = 0 ↔ stream.state ≠ StreamState.STOPPED) ∧
    (IsStreamActive stream ≠ 0 ↔
      stream.state = StreamState.ACTIVE ∨ stream.state = StreamState.STOPPING) ∧
    (IsStreamActive stream = 0 ∨ IsStreamActive stream = 1) ∧
    ¬(IsStreamStopped stream ≠ 0 ∧ IsStreamActive stream ≠ 0) ∧
    (IsStreamStopped stream = 0 ∧ IsStreamActive stream = 0 ↔
      stream.state = StreamState.CALLBACK_STOPPED) ∧
    ∀ other : PaMacCoreStream, other.state = stream.state →
      IsStreamStopped other = IsStreamStopped stream ∧
      IsStreamActive other = IsStreamActive stream := by
  refine ⟨rfl, ?_, ?_, ?_, ?_, ?_, ?_, ?_⟩
  · cases hst : stream.state <;> simp [IsStreamStopped, hst]
  · cases hst : stream.state <;> simp [IsStreamStopped, hst]
  · cases hst : stream.state <;> simp [IsStreamActive, hst]
  · cases hst : stream.state <;> simp [IsStreamActive, hst]
  · cases hst : stream.state <;> simp [IsStreamStopped, IsStreamActive, hst]
  · cases hst : stream.state <;> simp [IsStreamStopped, IsStreamActive, hst]
  · intro other h
    simp [IsStreamStopped, IsStreamActive, h]

/-- C17: after every `OpenStream` that returns `paNoError`, the input ring
buffer is allocated exactly when the stream has an input unit and, besides,
either an output unit that is another unit or a converter. When
`PaMacCore_SetError` reports platform errors as errors, the stream has an input
unit exactly when input parameters were given, an output unit exactly when
output parameters were given, and one unit for both exactly when both name the
same device; so there is no ring buffer for simplex output, a ring buffer
exactly when a converter was created for simplex input and for same-device
duplex, and always a ring buffer for two-device duplex. -/
theorem OpenStream_ring_buffer_allocated (setError : Int → PaError) (hostApi : PaMacAUHAL)
    (inputParameters outputParameters : Option PaStreamParameters) (sampleRate : ℚ)
    (framesPerBuffer streamFlags : Nat) (streamCallback : Bool) (r : OpenReplies) (w : World)
    (h : (OpenStream setError hostApi inputParameters outputParameters sampleRate framesPerBuffer
      streamFlags streamCallback r w).result = paNoError) :
    ∃ stream,
      (OpenStream setError hostApi inputParameters outputParameters sampleRate framesPerBuffer
        streamFlags streamCallback r w).s = some stream ∧
      (stream.inputRingBuffer.buffer ≠ 0 ↔
        stream.inputUnit ≠ 0 ∧
          ((stream.outputUnit ≠ 0 ∧ stream.inputUnit ≠ stream.outputUnit) ∨
            stream.inputSRConverter ≠ 0)) ∧
      ((∀ e : Int, e ≠ 0 → setError e ≠ paNoError) →
        (stream.inputUnit ≠ 0 ↔ inputParameters.isSome = true) ∧
        (stream.outputUnit ≠ 0 ↔ outputParameters.isSome = true) ∧
        (inputParameters.isSome = true → outputParameters.isSome = true →
          (stream.inputUnit = stream.outputUnit ↔
            outputParameters.map (·.device) = inputParameters.map (·.device))) ∧
        (inputParameters = none → stream.inputRingBuffer.buffer = 0) ∧
        (inputParameters.isSome = true → outputParameters = none →
          (stream.inputRingBuffer.buffer ≠ 0 ↔ stream.inputSRConverter ≠ 0)) ∧
        (inputParameters.isSome = true → outputParameters.isSome = true →
          outputParameters.map (·.device) = inputParameters.map (·.device) →
          (stream.inputRingBuffer.buffer ≠ 0 ↔ stream.inputSRConverter ≠ 0)) ∧
        (inputParameters.isSome = true → outputParameters.isSome = true →
          outputParameters.map (·.device) ≠ inputParameters.map (·.device) →
          stream.inputRingBuffer.buffer ≠ 0)) := by
  obtain ⟨g, _, hf, hs⟩ := OpenStream_of_result_eq_paNoError setError hostApi inputParameters
    outputParameters sampleRate framesPerBuffer streamFlags streamCallback r w h
  have hr := (OpenStream.acquire_ring setError hostApi inputParameters outputParameters
    sampleRate framesPerBuffer streamCallback r g w hf).1
  refine ⟨_, hs, hr, fun hset => ?_⟩
  obtain ⟨u1, u2, u3⟩ := OpenStream.acquire_units setError hset hostApi inputParameters
    outputParameters sampleRate framesPerBuffer streamCallback r g w hf
  generalize (OpenStream.acquire setError hostApi inputParameters outputParameters sampleRate
    framesPerBuffer streamCallback r g w).stream = st at hr u1 u2 u3 ⊢
  dsimp only
  refine ⟨u1, u2, u3, ?_, ?_, ?_, ?_⟩
  · intro hi
    by_contra hb
    have := u1.1 (hr.1 hb).1
    simp [hi] at this
  · intro hi ho
    have h0 : st.outputUnit = 0 := by
      by_contra hb
      have := u2.1 hb
      simp [ho] at this
    rw [hr]
    simp [u1.2 hi, h0]
  · intro hi ho hd
    have he := (u3 hi ho).2 hd
    rw [hr]
    constructor
    · rintro ⟨_, ⟨_, hne⟩ | hc⟩
      · exact absurd he hne
      · exact hc
    · exact fun hc => ⟨u1.2 hi, Or.inr hc⟩
  · intro hi ho hd
    rw [hr]
    exact ⟨u1.2 hi, Or.inl ⟨u2.2 ho, fun he => hd ((u3 hi ho).1 he)⟩⟩

theorem OpenStream_ring_buffer_allocated_witness :
    (OpenStream wrapHostError twoDevices (some ⟨0, 2, paFloat32, 0, none⟩)
      (some ⟨1, 2, paFloat32, 0, none⟩) 44100 256 0 true
      (OpenReplies.success 256 44100 64 4096) World.empty).result = paNoError ∧
    ∃ stream,
      (OpenStream wrapHostError twoDevices (some ⟨0, 2, paFloat32, 0, none⟩)
        (some ⟨1, 2, paFloat32, 0, none⟩) 44100 256 0 true
        (OpenReplies.success 256 44100 64 4096) World.empty).s = some stream ∧
      (stream.inputRingBuffer.buffer ≠ 0 ↔
        stream.inputUnit ≠ 0 ∧
          ((stream.outputUnit ≠ 0 ∧ stream.inputUnit ≠ stream.outputUnit) ∨
            stream.inputSRConverter ≠ 0)) ∧
      stream.inputRingBuffer.buffer ≠ 0 :=
  ⟨by decide,
    (OpenStream_ring_buffer_allocated wrapHostError twoDevices
      (some ⟨0, 2, paFloat32, 0, none⟩) (some ⟨1, 2, paFloat32, 0, none⟩) 44100 256 0 true
      (OpenReplies.success 256 44100 64 4096) World.empty (by decide)).imp
      fun _ hst => ⟨hst.1, hst.2.1,
        (hst.2.2 (fun e he => by
          simp [wrapHostError, he, paUnanticipatedHostError, paNoError])).2.2.2.2.2.2
          rfl rfl (by decide)⟩⟩

/-- C18 (amended): for every stream that has an input ring buffer and an
output unit, the write index of the ring is exactly `bufferSize / 4` bytes
ahead of the read index after an `OpenStream` that returned `paNoError` and
after a `StopStream` that reached its end, the same amount in both. For a
stream that has an input ring buffer and no output unit (simplex input with a
converter) the ring is not advanced: the two indices are equal after
`OpenStream` and after `StopStream`. -/
theorem ring_write_index_when_idle (setError : Int → PaError) (hostApi : PaMacAUHAL)
    (inputParameters outputParameters : Option PaStreamParameters) (sampleRate : ℚ)
    (framesPerBuffer streamFlags : Nat) (streamCallback : Bool) (r : OpenReplies) (w : World)
    (current : PaMacCoreStream) (stop : StopReplies) (w' : World) :
    ((OpenStream setError hostApi inputParameters outputParameters sampleRate framesPerBuffer
        streamFlags streamCallback r w).result = paNoError →
      ∃ stream,
        (OpenStream setError hostApi inputParameters outputParameters sampleRate framesPerBuffer
          streamFlags streamCallback r w).s = some stream ∧
        (stream.inputRingBuffer.buffer ≠ 0 →
          stream.inputRingBuffer.readIndex = 0 ∧
          stream.inputRingBuffer.writeIndex =
            if stream.outputUnit ≠ 0 then stream.inputRingBuffer.bufferSize / 4 else 0)) ∧
    ((StopStream setError current stop w').returned = none →
      current.inputRingBuffer.buffer ≠ 0 →
      (StopStream setError current stop w').stream.inputRingBuffer.buffer =
        current.inputRingBuffer.buffer ∧
      (StopStream setError current stop w').stream.inputRingBuffer.bufferSize =
        current.inputRingBuffer.bufferSize ∧
      (StopStream setError current stop w').stream.outputUnit = current.outputUnit ∧
      (StopStream setError current stop w').stream.inputRingBuffer.readIndex = 0 ∧
      (StopStream setError current stop w').stream.inputRingBuffer.writeIndex =
        if current.outputUnit ≠ 0 then current.inputRingBuffer.bufferSize / 4 else 0) := by
  constructor
  · intro h
    obtain ⟨g, _, hf, hs⟩ := OpenStream_of_result_eq_paNoError setError hostApi inputParameters
      outputParameters sampleRate framesPerBuffer streamFlags streamCallback r w h
    obtain ⟨_, hr⟩ := OpenStream.acquire_ring setError hostApi inputParameters outputParameters
      sampleRate framesPerBuffer streamCallback r g w hf
    refine ⟨_, hs, fun hb => ?_⟩
    obtain ⟨h1, h2, h3⟩ := hr hb
    refine ⟨h2, ?_⟩
    dsimp only
    rw [h3, h1]
  · intro h hb
    rcases StopStream_cases setError current stop w' with ⟨e, _, h1, _⟩ | ⟨_, _, h2⟩
    · rw [h1] at h
      cases h
    · rw [h2]
      have hb' : ({ current with isTimeSet := false, state := StreamState.STOPPING } :
          PaMacCoreStream).inputRingBuffer.buffer ≠ 0 := hb
      obtain ⟨r1, r2, r3, r4⟩ := StopStream.resetRing_ring _ hb'
      refine ⟨r1, r2, ?_, r3, r4⟩
      show (StopStream.resetRing _).outputUnit = _
      unfold StopStream.resetRing
      split <;> rfl

theorem ring_write_index_when_idle_witness :
    (StopStream wrapHostError runningOnTwoUnits StopReplies.success World.empty).returned =
      none ∧
    runningOnTwoUnits.inputRingBuffer.buffer ≠ 0 ∧
    (StopStream wrapHostError runningOnTwoUnits StopReplies.success
      World.empty).stream.inputRingBuffer.readIndex = 0 ∧
    (StopStream wrapHostError runningOnTwoUnits StopReplies.success
      World.empty).stream.inputRingBuffer.writeIndex =
      if runningOnTwoUnits.outputUnit ≠ 0 then runningOnTwoUnits.inputRingBuffer.bufferSize / 4
      else 0 :=
  have h := (ring_write_index_when_idle wrapHostError twoDevices none none 44100 256 0 true
    (OpenReplies.success 256 44100 64 4096) World.empty runningOnTwoUnits StopReplies.success
    World.empty).2 (by decide) (by decide)
  ⟨by decide, by decide, h.2.2.2.1, h.2.2.2.2⟩

/-- C18 (counterexample): a simplex input stream opened at 44100 Hz on a device
that runs at 48000 Hz gets a converter and a ring buffer of 16384 bytes, and no
output unit. After `OpenStream`, and again after a successful `StopStream`, the
write index equals the read index: it is not `bufferSize / 4 = 4096` bytes
ahead. -/
theorem ring_not_advanced_without_output_unit :
    ∃ stream,
      (OpenStream wrapHostError twoDevices (some ⟨0, 2, paFloat32, 0, none⟩) none 44100 256 0
        true (OpenReplies.success 256 48000 64 4096) World.empty).s = some stream ∧
      stream.inputSRConverter ≠ 0 ∧ stream.outputUnit = 0 ∧
      stream.inputRingBuffer.buffer ≠ 0 ∧ stream.inputRingBuffer.bufferSize = 16384 ∧
      stream.inputRingBuffer.readIndex = 0 ∧ stream.inputRingBuffer.writeIndex = 0 ∧
      (StopStream wrapHostError stream StopReplies.success World.empty).result = paNoError ∧
      (StopStream wrapHostError stream StopReplies.success
        World.empty).stream.inputRingBuffer.readIndex = 0 ∧
      (StopStream wrapHostError stream StopReplies.success
        World.empty).stream.inputRingBuffer.writeIndex = 0 :=
  ⟨_, rfl, by decide, by decide, by decide, by decide, by decide, by decide, by decide,
    by decide, by decide⟩

/-- C19 (failing input): same-device duplex, every call succeeds; the device
grants 512 frames per buffer and the unit reads back 256 for
`kAudioUnitProperty_MaximumFramesPerSlice` of the output. `OpenAndSetupOneAudioUnit`
returns `paNoError` with `*actualInputFramesPerBuffer = 512` and
`*actualOutputFramesPerBuffer = 256`, and the stream `OpenStream` hands out
has one unit for both directions with `inputFramesPerBuffer = 512` and
`outputFramesPerBuffer = 256`. -/
theorem OpenAndSetupOneAudioUnit_duplex_frames_differ :
    (OpenAndSetupOneAudioUnit wrapHostError (some ⟨0, 2, paFloat32, 0, none⟩)
      (some ⟨0, 2, paFloat32, 0, none⟩) 512 true true twoDevices 44100
      { UnitReplies.success 512 44100 with outputMaximumFramesPerSlice := 256 }
      World.empty).paResult = paNoError ∧
    (OpenAndSetupOneAudioUnit wrapHostError (some ⟨0, 2, paFloat32, 0, none⟩)
      (some ⟨0, 2, paFloat32, 0, none⟩) 512 true true twoDevices 44100
      { UnitReplies.success 512 44100 with outputMaximumFramesPerSlice := 256 }
      World.empty).actualInputFramesPerBuffer = 512 ∧
    (OpenAndSetupOneAudioUnit wrapHostError (some ⟨0, 2, paFloat32, 0, none⟩)
      (some ⟨0, 2, paFloat32, 0, none⟩) 512 true true twoDevices 44100
      { UnitReplies.success 512 44100 with outputMaximumFramesPerSlice := 256 }
      World.empty).actualOutputFramesPerBuffer = 256 ∧
    ∃ stream,
      (OpenStream wrapHostError twoDevices (some ⟨0, 2, paFloat32, 0, none⟩)
        (some ⟨0, 2, paFloat32, 0, none⟩) 44100 512 0 true
        { OpenReplies.success 512 44100 64 4096 with
          firstUnit :=
            { UnitReplies.success 512 44100 with outputMaximumFramesPerSlice := 256 } }
        World.empty).s = some stream ∧
      stream.inputUnit = stream.outputUnit ∧ stream.inputUnit ≠ 0 ∧
      stream.inputFramesPerBuffer = 512 ∧ stream.outputFramesPerBuffer = 256 := by
  refine ⟨by decide, by decide, by decide, _, rfl, by decide, by decide, by decide, by decide⟩

/-- C20: a render invocation of `AudioIOProc` (bus `OUTPUT_ELEMENT`) on a
stream whose input and output units are the same and which has no converter
returns, and leaves the ring buffer as it was; no `AudioConverterFillBuffer`
is called. Of the calls that drive the buffer processor it makes exactly
these, in this order: one `PaUtil_BeginBufferProcessing`, the input frame
count and the output frame count, both `mDataByteSize / (4 * mNumberChannels)`
of the output buffer, and one `PaUtil_EndBufferProcessing`. -/
theorem AudioIOProc_duplex_bypasses_ring (stream : PaMacCoreStream)
    (inBusNumber inNumberFrames : Nat) (ioData : AudioBuffer) (r : IOReplies) (fuel : Nat)
    (w : World) (hbus : inBusNumber = OUTPUT_ELEMENT)
    (hunit : stream.inputUnit = stream.outputUnit) (hsrc : stream.inputSRConverter = 0) :
    ∃ out, AudioIOProc stream inBusNumber inNumberFrames ioData r fuel w = some out ∧
      out.stream.inputRingBuffer = stream.inputRingBuffer ∧
      out.stream.inputSRConverter = 0 ∧
      ∃ calls, out.world.trace = w.trace ++ calls ∧
        calls.filter Call.drivesBufferProcessor =
          [Call.PaUtil_BeginBufferProcessing stream.xrunFlags,
            Call.PaUtil_SetInputFrameCount (ioData.mDataByteSize / (4 * ioData.mNumberChannels)),
            Call.PaUtil_SetOutputFrameCount (ioData.mDataByteSize / (4 * ioData.mNumberChannels)),
            Call.PaUtil_EndBufferProcessing] ∧
        ∀ converter size, Call.AudioConverterFillBuffer converter size ∉ calls := by
  subst hbus
  obtain ⟨queries, ts, ht, hq⟩ := AudioIOProc.timing_eq true
    ⟨stream, w.log Call.PaUtil_BeginCpuLoadMeasurement, paContinue, 0, inNumberFrames, 0, 0⟩
  have hf : queries.filter Call.drivesBufferProcessor = [] := by
    rw [List.filter_eq_nil_iff]
    intro c hc
    obtain ⟨d, rfl⟩ := hq c hc
    simp [Call.drivesBufferProcessor]
  have hn : ∀ converter size, Call.AudioConverterFillBuffer converter size ∉ queries := by
    intro converter size hc
    obtain ⟨d, hd⟩ := hq _ hc
    cases hd
  unfold AudioIOProc
  have hb : (OUTPUT_ELEMENT == OUTPUT_ELEMENT) = true := rfl
  rw [hb, ht]
  unfold AudioIOProc.body
  rw [if_pos ⟨rfl, hunit, hsrc⟩]
  refine ⟨_, rfl, ?_, ?_, ?_⟩
  · unfold AudioIOProc.onCallbackResult IOState.stopUnit
    dsimp only
    split_ifs <;> rfl
  · unfold AudioIOProc.onCallbackResult IOState.stopUnit
    dsimp only
    split_ifs <;> exact hsrc
  · unfold AudioIOProc.onCallbackResult IOState.stopUnit AudioIOProc.duplex AudioIOProc.frames
    dsimp only [IOState.callbackStopped, IOState.log, IOState.beginProcessing,
      IOState.endProcessing, World.log]
    split_ifs
    all_goals
      refine ⟨_, (by simp only [List.append_assoc]; rfl), ?_, ?_⟩
      · simp [List.filter_append, hf, Call.drivesBufferProcessor]
      · intro converter size
        simp [hn]

theorem AudioIOProc_duplex_bypasses_ring_witness :
    OUTPUT_ELEMENT = OUTPUT_ELEMENT ∧ running.inputUnit = running.outputUnit ∧
    running.inputSRConverter = 0 ∧
    ∃ out, AudioIOProc running OUTPUT_ELEMENT 64 ⟨2, 512, 0⟩ (IOReplies.answering paContinue) 0
        World.empty = some out ∧
      out.stream.inputRingBuffer = running.inputRingBuffer ∧
      out.stream.inputSRConverter = 0 ∧
      ∃ calls, out.world.trace = World.empty.trace ++ calls ∧
        calls.filter Call.drivesBufferProcessor =
          [Call.PaUtil_BeginBufferProcessing running.xrunFlags,
            Call.PaUtil_SetInputFrameCount (512 / (4 * 2)),
            Call.PaUtil_SetOutputFrameCount (512 / (4 * 2)),
            Call.PaUtil_EndBufferProcessing] ∧
        ∀ converter size, Call.AudioConverterFillBuffer converter size ∉ calls :=
  ⟨rfl, rfl, rfl,
    AudioIOProc_duplex_bypasses_ring running OUTPUT_ELEMENT 64 ⟨2, 512, 0⟩
      (IOReplies.answering paContinue) 0 World.empty rfl rfl rfl⟩

/-! ## The xrun flags in a render invocation of `AudioIOProc` -/

theorem AudioIOProc.render_flags (ioData : AudioBuffer) (r : IOReplies) (st : IOState) :
    ((AudioIOProc.render ioData r st).stream.xrunFlags = 0 ∨
      (AudioIOProc.render ioData r st).stream.xrunFlags = 0 ||| paInputUnderflow) ∧
    ∃ calls, (AudioIOProc.render ioData r st).world.trace = st.world.trace ++ calls ∧
      calls.filter Call.beginsProcessing =
        [Call.PaUtil_BeginBufferProcessing
          (if st.stream.state = STOPPING ∨ st.stream.state = CALLBACK_STOPPED then 0
            else st.stream.xrunFlags)] := by
  unfold AudioIOProc.render AudioIOProc.renderConverted AudioIOProc.renderFromRing
  generalize (if st.stream.state = STOPPING ∨ st.stream.state = CALLBACK_STOPPED then 0
            else st.stream.xrunFlags) = f
  dsimp only [IOState.log, IOState.beginProcessing, IOState.endProcessing, IOState.flag,
    IOState.setRing, IOState.fill, World.log]
  split_ifs
  all_goals
    refine ⟨by simp, _, (by simp only [List.append_assoc]; rfl), ?_⟩
    simp [List.filter_append, Call.beginsProcessing]

/-- C21: a render invocation of `AudioIOProc` (bus `OUTPUT_ELEMENT`) that does
not take the one-unit full-duplex path returns, and calls
`PaUtil_BeginBufferProcessing` exactly once: with the flags `0` when the state
is `STOPPING` or `CALLBACK_STOPPED`, with `stream->xrunFlags` otherwise. The
flags are cleared by that call: on return `stream->xrunFlags` is `0`, or `0`
with `paInputUnderflow` ORed in, whatever it was before. -/
theorem AudioIOProc_render_reports_flags_once (stream : PaMacCoreStream)
    (inBusNumber inNumberFrames : Nat) (ioData : AudioBuffer) (r : IOReplies) (fuel : Nat)
    (w : World) (hbus : inBusNumber = OUTPUT_ELEMENT)
    (hring : ¬ (stream.inputUnit = stream.outputUnit ∧ stream.inputSRConverter = 0)) :
    ∃ out, AudioIOProc stream inBusNumber inNumberFrames ioData r fuel w = some out ∧
      (out.stream.xrunFlags = 0 ∨ out.stream.xrunFlags = 0 ||| paInputUnderflow) ∧
      ∃ calls, out.world.trace = w.trace ++ calls ∧
        calls.filter Call.beginsProcessing =
          [Call.PaUtil_BeginBufferProcessing
            (if stream.state = StreamState.STOPPING ∨ stream.state = StreamState.CALLBACK_STOPPED
              then 0 else stream.xrunFlags)] := by
  subst hbus
  obtain ⟨queries, ts, ht, hq⟩ := AudioIOProc.timing_eq true
    ⟨stream, w.log Call.PaUtil_BeginCpuLoadMeasurement, paContinue, 0, inNumberFrames, 0, 0⟩
  have hf : queries.filter Call.beginsProcessing = [] := by
    rw [List.filter_eq_nil_iff]
    intro c hc
    obtain ⟨d, rfl⟩ := hq c hc
    simp [Call.beginsProcessing]
  unfold AudioIOProc
  have hb : (OUTPUT_ELEMENT == OUTPUT_ELEMENT) = true := rfl
  rw [hb, ht]
  unfold AudioIOProc.body
  rw [if_neg (fun h => hring ⟨h.2.1, h.2.2⟩), if_pos rfl]
  obtain ⟨hx, calls, hc, hfc⟩ := AudioIOProc.render_flags ioData r
    { stream := { stream with isTimeSet := ts },
      world := { (w.log Call.PaUtil_BeginCpuLoadMeasurement) with
        trace := (w.log Call.PaUtil_BeginCpuLoadMeasurement).trace ++ queries },
      callbackResult := paContinue, framesProcessed := 0, inNumberFrames := inNumberFrames,
      fills := 0, ends := 0 }
  dsimp only at hx hc hfc
  dsimp only
  generalize AudioIOProc.render ioData r _ = mid at hx hc hfc ⊢
  generalize (if stream.state = STOPPING ∨ stream.state = CALLBACK_STOPPED then 0
    else stream.xrunFlags) = fl at hfc ⊢
  refine ⟨_, rfl, ?_, ?_⟩
  · unfold AudioIOProc.onCallbackResult IOState.stopUnit
    dsimp only [Option.map, IOState.callbackStopped, IOState.log]
    split_ifs <;> exact hx
  · unfold AudioIOProc.onCallbackResult IOState.stopUnit
    dsimp only [Option.map, IOState.callbackStopped, IOState.log, World.log] at hc ⊢
    split_ifs
    all_goals
      rw [hc]
      refine ⟨_, (by simp only [List.append_assoc]; rfl), ?_⟩
      simp [List.filter_append, hf, hfc, Call.beginsProcessing]

theorem AudioIOProc_render_reports_flags_once_witness :
    OUTPUT_ELEMENT = OUTPUT_ELEMENT ∧
    ¬ (runningOnTwoUnits.inputUnit = runningOnTwoUnits.outputUnit ∧
      runningOnTwoUnits.inputSRConverter = 0) ∧
    ∃ out, AudioIOProc runningOnTwoUnits OUTPUT_ELEMENT 64 ⟨2, 512, 0⟩
        (IOReplies.answering paContinue) 0 World.empty = some out ∧
      (out.stream.xrunFlags = 0 ∨ out.stream.xrunFlags = 0 ||| paInputUnderflow) ∧
      ∃ calls, out.world.trace = World.empty.trace ++ calls ∧
        calls.filter Call.beginsProcessing =
          [Call.PaUtil_BeginBufferProcessing
            (if runningOnTwoUnits.state = StreamState.STOPPING ∨
                runningOnTwoUnits.state = StreamState.CALLBACK_STOPPED
              then 0 else runningOnTwoUnits.xrunFlags)] :=
  ⟨rfl, by decide,
    AudioIOProc_render_reports_flags_once runningOnTwoUnits OUTPUT_ELEMENT 64 ⟨2, 512, 0⟩
      (IOReplies.answering paContinue) 0 World.empty rfl (by decide)⟩

/-! ## The input read from the ring buffer without converter -/

/-- C22 (failing input): two input channels, a render of 4 frames (32 bytes of
input wanted), the ring buffer of 64 bytes holding 16 bytes that wrap: region 1
is 8 bytes at offset 56, region 2 is 8 bytes at offset 0. The branch "we
underflowed" is taken, `paInputUnderflow` is set and the read index advances
by 16. In the local array of 32 bytes, `memcpy( data+size1, ... )` writes the
8 bytes of region 2 at byte offset 32, not 8, and `bzero( data+size1+size2,
... )` zeroes 16 bytes from byte offset 64, not 16: both are past the end of
the array, and bytes 8 to 31 of it are never written. -/
theorem AudioIOProc_underflow_writes_past_scratch :
    RingBuffer_GetReadRegions ⟨64, 72, 56, 16⟩ (2 * 4 * 4) = ⟨56, 8, 0, 8⟩ ∧
    ∃ out,
      AudioIOProc (readingFromRing 2 ⟨64, 72, 56, 16⟩) OUTPUT_ELEMENT 4 ⟨2, 32, 0⟩
        (IOReplies.answering paContinue) 0 World.empty = some out ∧
      out.world.trace =
        [Call.PaUtil_BeginCpuLoadMeasurement, Call.AudioDeviceGetCurrentTime 10,
          Call.PaUtil_BeginBufferProcessing 0, Call.PaUtil_SetOutputFrameCount 4,
          Call.PaUtil_SetInterleavedOutputChannels 2, Call.memcpy 0 8, Call.memcpy 32 8,
          Call.bzero 64 16, Call.PaUtil_SetInputFrameCount 4,
          Call.PaUtil_SetInterleavedInputChannels 0 2, Call.PaUtil_EndBufferProcessing,
          Call.PaUtil_EndCpuLoadMeasurement 64] ∧
      out.stream.xrunFlags = paInputUnderflow ∧
      out.stream.inputRingBuffer.readIndex = 56 + (8 + 8) :=
  ⟨by decide, _, rfl, by decide, by decide, by decide⟩

/-- C23 (failing input): three input channels (12 bytes per frame), a render
of 4 frames (48 bytes of input wanted), the ring buffer of 64 bytes holding 48
bytes that wrap after 16: region 1 is 16 bytes, region 2 is 32 bytes. The
branch "we got all the data, but split between buffers" is taken and the
frame counts handed to the buffer processor are `16 / 12 = 1` and
`32 / 12 = 2`, three frames for the four of the output; the read index
advances by all 48 bytes. -/
theorem AudioIOProc_split_regions_lose_a_frame :
    RingBuffer_GetReadRegions ⟨64, 96, 48, 16⟩ (3 * 4 * 4) = ⟨48, 16, 0, 32⟩ ∧
    ∃ out,
      AudioIOProc (readingFromRing 3 ⟨64, 96, 48, 16⟩) OUTPUT_ELEMENT 4 ⟨2, 32, 0⟩
        (IOReplies.answering paContinue) 0 World.empty = some out ∧
      out.world.trace.filter Call.drivesBufferProcessor =
        [Call.PaUtil_BeginBufferProcessing 0, Call.PaUtil_SetOutputFrameCount 4,
          Call.PaUtil_SetInputFrameCount 1, Call.PaUtil_Set2ndInputFrameCount 2,
          Call.PaUtil_EndBufferProcessing] ∧
      out.stream.xrunFlags = 0 ∧
      out.stream.inputRingBuffer.readIndex = 48 + 48 :=
  ⟨by decide, _, rfl, by decide, by decide, by decide⟩

/-! ## The loop around `AudioUnitRender` -/

/-- The loop around `AudioUnitRender`, from any attempt on. -/
theorem AudioIOProc.captureLoop_spec (unit : Nat) (status : Nat → Int) (n : Nat) :
    ∀ (a : Nat) (w : World), ∃ k : Nat, 1 ≤ k ∧ k ≤ max 1 (Nat.log 2 n) ∧
      (AudioIOProc.captureLoop unit status a n w).2.2.trace =
        w.trace ++ (List.range k).map
          (fun j => Call.AudioUnitRender unit INPUT_ELEMENT (n / 2 ^ j)) ∧
      (∀ j, j + 1 < k → toOSErr (status (a + j)) = -10874) ∧
      (AudioIOProc.captureLoop unit status a n w).1 = toOSErr (status (a + (k - 1))) ∧
      ((toOSErr (status (a + (k - 1))) ≠ -10874 ∧
          (AudioIOProc.captureLoop unit status a n w).2.1 = n / 2 ^ (k - 1)) ∨
        (toOSErr (status (a + (k - 1))) = -10874 ∧
          (AudioIOProc.captureLoop unit status a n w).2.1 = n / 2 ^ k ∧ n / 2 ^ k ≤ 1)) := by
  induction n using Nat.strong_induction_on with
  | _ n ih =>
    intro a w
    rw [AudioIOProc.captureLoop]
    by_cases h1 : toOSErr (status a) = -10874
    · by_cases h2 : 1 < n / 2
      · rw [if_pos h1, if_pos h2]
        obtain ⟨k, hk1, hk2, ht, hall, herr, hlast⟩ :=
          ih (n / 2) (by omega) (a + 1) (w.log (Call.AudioUnitRender unit INPUT_ELEMENT n))
        have hlog : Nat.log 2 n = Nat.log 2 (n / 2) + 1 :=
          Nat.log_of_one_lt_of_le (by norm_num) (by omega)
        have hpos : 1 ≤ Nat.log 2 (n / 2) := by
          have := Nat.log_pos (b := 2) (n := n / 2) (by norm_num) (by omega)
          omega
        have hdiv : ∀ j, n / 2 / 2 ^ j = n / 2 ^ (j + 1) := by
          intro j
          rw [Nat.div_div_eq_div_mul, pow_succ, mul_comm]
        have hk : k - 1 + 1 = k := by omega
        refine ⟨k + 1, by omega, ?_, ?_, ?_, ?_, ?_⟩
        · rw [hlog]
          have : k ≤ Nat.log 2 (n / 2) := by
            rcases le_max_iff.mp hk2 with h | h <;> omega
          exact le_max_of_le_right (by omega)
        · rw [ht, List.range_succ_eq_map]
          simp [World.log, hdiv, Function.comp_def]
        · intro j hj
          rcases j with _ | j
          · simpa using h1
          · have := hall j (by omega)
            rwa [show a + 1 + j = a + (j + 1) by omega] at this
        · rw [herr]
          congr 2
          omega
        · rw [show a + (k + 1 - 1) = a + 1 + (k - 1) by omega]
          rcases hlast with ⟨hne, hv⟩ | ⟨he, hv, hle⟩
          · left
            refine ⟨hne, ?_⟩
            rw [hv, hdiv, hk]
            rfl
          · right
            rw [hdiv] at hv hle
            exact ⟨he, hv, hle⟩
      · rw [if_pos h1, if_neg h2]
        refine ⟨1, le_refl _, le_max_left _ _, by simp [World.log, List.range_succ], by intro j hj; omega,
          by simp, Or.inr ⟨by simpa using h1, by simp, by simp; omega⟩⟩
    · rw [if_neg h1]
      refine ⟨1, le_refl _, le_max_left _ _, by simp [World.log, List.range_succ], by intro j hj; omega,
        by simp, Or.inl ⟨by simpa using h1, by simp⟩⟩

theorem toOSErr_eq_of_range (s : Int) (hl : -32768 ≤ s) (hu : s < 32768) : toOSErr s = s := by
  unfold toOSErr
  omega

/-- What holds of the loop around `AudioUnitRender` on the input side in terms
of the value stored in `OSErr err`: it returns for every initial
`inNumberFrames` `n`, every sequence of statuses and every world. It
makes `k` calls with `1 ≤ k ≤ max 1 (log2 n)`, the `j`-th for `n / 2 ^ j`
frames; every reply before the last has the `OSErr` value -10874; the loop
ends either at the first reply with another `OSErr` value, `inNumberFrames`
being `n / 2 ^ (k - 1)`, or at a reply -10874 whose halving leaves
`inNumberFrames = n / 2 ^ k ≤ 1`. The value compared is the status as stored
in `OSErr err`; for a status within the range of `OSErr` it is the status
itself. -/
theorem AudioIOProc_captureLoop_terminates (unit : Nat) (status : Nat → Int) (n : Nat)
    (w : World) :
    (∃ k : Nat, 1 ≤ k ∧ k ≤ max 1 (Nat.log 2 n) ∧
      (AudioIOProc.captureLoop unit status 0 n w).2.2.trace =
        w.trace ++ (List.range k).map
          (fun j => Call.AudioUnitRender unit INPUT_ELEMENT (n / 2 ^ j)) ∧
      (∀ j, j + 1 < k → toOSErr (status j) = -10874) ∧
      (AudioIOProc.captureLoop unit status 0 n w).1 = toOSErr (status (k - 1)) ∧
      ((toOSErr (status (k - 1)) ≠ -10874 ∧
          (AudioIOProc.captureLoop unit status 0 n w).2.1 = n / 2 ^ (k - 1)) ∨
        (toOSErr (status (k - 1)) = -10874 ∧
          (AudioIOProc.captureLoop unit status 0 n w).2.1 = n / 2 ^ k ∧ n / 2 ^ k ≤ 1))) ∧
    ∀ s : Int, -32768 ≤ s → s < 32768 → toOSErr s = s := by
  refine ⟨?_, toOSErr_eq_of_range⟩
  obtain ⟨k, h1, h2, h3, h4, h5, h6⟩ := AudioIOProc.captureLoop_spec unit status n 0 w
  refine ⟨k, h1, h2, h3, ?_, ?_, ?_⟩
  · intro j hj
    simpa using h4 j hj
  · simpa using h5
  · simpa using h6

/-- C24 (failing input): `inNumberFrames` is 8 and every `AudioUnitRender`
answers the status 54662, which is not -10874 but has the value -10874 once
stored in `OSErr err`. The loop does not stop at the first reply: it halves
`inNumberFrames` at each of three calls, for 8, 4 and 2 frames, and ends with
`inNumberFrames = 1`. A reply of -50 ends the loop at the first call with
`inNumberFrames` still 8. -/
theorem AudioIOProc_captureLoop_retries_on_truncated_status :
    (54662 : Int) ≠ -10874 ∧ toOSErr 54662 = -10874 ∧
    AudioIOProc.captureLoop 1 (fun _ => 54662) 0 8 World.empty =
      (-10874, 1,
        ⟨[Call.AudioUnitRender 1 INPUT_ELEMENT 8, Call.AudioUnitRender 1 INPUT_ELEMENT 4,
          Call.AudioUnitRender 1 INPUT_ELEMENT 2], [], 0⟩) ∧
    AudioIOProc.captureLoop 1 (fun _ => -50) 0 8 World.empty =
      (-50, 8, ⟨[Call.AudioUnitRender 1 INPUT_ELEMENT 8], [], 0⟩) := by
  refine ⟨by decide, by decide, ?_, ?_⟩
  · rw [AudioIOProc.captureLoop, if_pos (by decide), if_pos (by decide),
      AudioIOProc.captureLoop, if_pos (by decide), if_pos (by decide),
      AudioIOProc.captureLoop, if_pos (by decide), if_neg (by decide)]
    rfl
  · rw [AudioIOProc.captureLoop, if_neg (by decide)]
    rfl

/-! ## The input written to the ring buffer -/

/-- C25: the input side of `AudioIOProc` on a stream that has a converter or
an output unit. With `inNumberFrames` as the loop around `AudioUnitRender`
left it, `RingBuffer_Write` is called with `4 * inNumberFrames * channels`
bytes. In the state `mid` right after the write the ring buffer is the one
that call left, no call has been made since the loop, and `xrunFlags` is the
previous `xrunFlags` with `paInputOverflow` ORed in when the number of bytes
written differs from the number offered, and the previous `xrunFlags`
otherwise. With an output unit the invocation ends in that state; without
one (simplex input with converter) the converter loop runs from it. -/
theorem AudioIOProc_capture_offers_to_ring (r : IOReplies) (fuel : Nat) (st : IOState)
    (hring : st.stream.inputSRConverter ≠ 0 ∨ st.stream.outputUnit ≠ 0) :
    ∃ mid : IOState,
      mid.stream.inputRingBuffer =
        (RingBuffer_Write st.stream.inputRingBuffer
          (4 * (st.renderInput r).inNumberFrames *
            st.stream.inputAudioBufferList.mNumberChannels)).2 ∧
      mid.stream.xrunFlags =
        (if (RingBuffer_Write st.stream.inputRingBuffer
              (4 * (st.renderInput r).inNumberFrames *
                st.stream.inputAudioBufferList.mNumberChannels)).1 ≠
            4 * (st.renderInput r).inNumberFrames *
              st.stream.inputAudioBufferList.mNumberChannels
          then st.stream.xrunFlags ||| paInputOverflow else st.stream.xrunFlags) ∧
      mid.world = (st.renderInput r).world ∧
      (st.stream.outputUnit ≠ 0 → AudioIOProc.capture r fuel st = some mid) ∧
      (st.stream.outputUnit = 0 →
        AudioIOProc.capture r fuel st =
          AudioIOProc.convertLoop st.stream.inputAudioBufferList.mNumberChannels r fuel mid) := by
  unfold AudioIOProc.capture
  have hs : (st.renderInput r).stream = st.stream := rfl
  generalize st.renderInput r = st1 at hs ⊢
  dsimp only
  rw [hs, if_pos hring]
  generalize hW : RingBuffer_Write st.stream.inputRingBuffer
    (4 * st1.inNumberFrames * st.stream.inputAudioBufferList.mNumberChannels) = W
  have hc : st.stream.outputUnit = 0 → st.stream.inputSRConverter ≠ 0 := by
    intro ho
    rcases hring with h | h
    · exact h
    · exact absurd ho h
  by_cases hw : 4 * st1.inNumberFrames * st.stream.inputAudioBufferList.mNumberChannels ≠ W.1
  · rw [if_pos hw, if_pos (Ne.symm hw)]
    refine ⟨(st1.setRing W.2).flag paInputOverflow, rfl, ?_, rfl, ?_, ?_⟩
    · simp only [IOState.flag, IOState.setRing, hs]
    · intro ho
      rw [if_neg]
      simp only [IOState.flag, IOState.setRing, hs]
      exact fun h => ho h.1
    · intro ho
      rw [if_pos]
      · simp only [IOState.flag, IOState.setRing, hs]
      · simp only [IOState.flag, IOState.setRing, hs]
        exact ⟨ho, hc ho⟩
  · rw [if_neg hw, if_neg (fun h => hw (Ne.symm h))]
    refine ⟨st1.setRing W.2, rfl, ?_, rfl, ?_, ?_⟩
    · simp only [IOState.setRing, hs]
    · intro ho
      rw [if_neg]
      simp only [IOState.setRing, hs]
      exact fun h => ho h.1
    · intro ho
      rw [if_pos]
      · simp only [IOState.setRing, hs]
      · simp only [IOState.setRing, hs]
        exact ⟨ho, hc ho⟩

theorem AudioIOProc_capture_offers_to_ring_witness :
    (runningOnTwoUnits.inputSRConverter ≠ 0 ∨ runningOnTwoUnits.outputUnit ≠ 0) ∧
    ∃ mid : IOState,
      mid.stream.inputRingBuffer =
        (RingBuffer_Write runningOnTwoUnits.inputRingBuffer
          (4 * ((⟨runningOnTwoUnits, World.empty, paContinue, 0, 64, 0, 0⟩ :
              IOState).renderInput (IOReplies.answering paContinue)).inNumberFrames *
            runningOnTwoUnits.inputAudioBufferList.mNumberChannels)).2 ∧
      mid.stream.xrunFlags =
        (if (RingBuffer_Write runningOnTwoUnits.inputRingBuffer
              (4 * ((⟨runningOnTwoUnits, World.empty, paContinue, 0, 64, 0, 0⟩ :
                  IOState).renderInput (IOReplies.answering paContinue)).inNumberFrames *
                runningOnTwoUnits.inputAudioBufferList.mNumberChannels)).1 ≠
            4 * ((⟨runningOnTwoUnits, World.empty, paContinue, 0, 64, 0, 0⟩ :
                IOState).renderInput (IOReplies.answering paContinue)).inNumberFrames *
              runningOnTwoUnits.inputAudioBufferList.mNumberChannels
          then runningOnTwoUnits.xrunFlags ||| paInputOverflow
          else runningOnTwoUnits.xrunFlags) ∧
      mid.world = ((⟨runningOnTwoUnits, World.empty, paContinue, 0, 64, 0, 0⟩ :
        IOState).renderInput (IOReplies.answering paContinue)).world ∧
      (runningOnTwoUnits.outputUnit ≠ 0 →
        AudioIOProc.capture (IOReplies.answering paContinue) 0
          ⟨runningOnTwoUnits, World.empty, paContinue, 0, 64, 0, 0⟩ = some mid) ∧
      (runningOnTwoUnits.outputUnit = 0 →
        AudioIOProc.capture (IOReplies.answering paContinue) 0
            ⟨runningOnTwoUnits, World.empty, paContinue, 0, 64, 0, 0⟩ =
          AudioIOProc.convertLoop runningOnTwoUnits.inputAudioBufferList.mNumberChannels
            (IOReplies.answering paContinue) 0 mid) :=
  ⟨by decide,
    AudioIOProc_capture_offers_to_ring (IOReplies.answering paContinue) 0
      ⟨runningOnTwoUnits, World.empty, paContinue, 0, 64, 0, 0⟩ (by decide)⟩

/-! ## The frames `AudioIOProc` asks the input unit for -/

theorem AudioIOProc.captureLoop_of_ne (unit : Nat) (status : Nat → Int) (a n : Nat) (w : World)
    (h : toOSErr (status a) ≠ -10874) :
    AudioIOProc.captureLoop unit status a n w =
      (toOSErr (status a), n, w.log (Call.AudioUnitRender unit INPUT_ELEMENT n)) := by
  rw [AudioIOProc.captureLoop, if_neg h]

/-- The loop around `AudioUnitRender` only lowers `inNumberFrames`, and asks
for at most the initial `inNumberFrames` frames in each call. -/
theorem AudioIOProc.captureLoop_le (unit : Nat) (status : Nat → Int) (n : Nat) :
    ∀ (a : Nat) (w : World),
      (AudioIOProc.captureLoop unit status a n w).2.1 ≤ n ∧
      ∃ calls, (AudioIOProc.captureLoop unit status a n w).2.2.trace = w.trace ++ calls ∧
        ∀ u element k, Call.AudioUnitRender u element k ∈ calls → k ≤ n := by
  induction n using Nat.strong_induction_on with
  | _ n ih =>
    intro a w
    rw [AudioIOProc.captureLoop]
    by_cases h1 : toOSErr (status a) = -10874
    · by_cases h2 : 1 < n / 2
      · rw [if_pos h1, if_pos h2]
        obtain ⟨hle, calls, ht, hc⟩ :=
          ih (n / 2) (by omega) (a + 1) (w.log (Call.AudioUnitRender unit INPUT_ELEMENT n))
        refine ⟨by omega, Call.AudioUnitRender unit INPUT_ELEMENT n :: calls, ?_, ?_⟩
        · rw [ht]
          simp [World.log]
        · intro u element k hk
          rcases List.mem_cons.mp hk with h | h
          · cases h
            exact le_refl _
          · have := hc u element k h
            omega
      · rw [if_pos h1, if_neg h2]
        refine ⟨Nat.div_le_self _ _, [Call.AudioUnitRender unit INPUT_ELEMENT n], rfl, ?_⟩
        intro u element k hk
        rcases List.mem_cons.mp hk with h | h
        · cases h
          exact le_refl _
        · cases h
    · rw [if_neg h1]
      refine ⟨le_refl _, [Call.AudioUnitRender unit INPUT_ELEMENT n], rfl, ?_⟩
      intro u element k hk
      rcases List.mem_cons.mp hk with h | h
      · cases h
        exact le_refl _
      · cases h

theorem IOState.rendersWithin_log (n : Nat) (w : World) (st : IOState) (c : Call)
    (hc : ∀ unit element k, c = Call.AudioUnitRender unit element k → k ≤ n)
    (h : st.RendersWithin n w) : (st.log c).RendersWithin n w := by
  obtain ⟨hn, calls, ht, hk⟩ := h
  refine ⟨hn, calls ++ [c], ?_, ?_⟩
  · simp [IOState.log, World.log, ht]
  · intro u e k hm
    rcases List.mem_append.mp hm with h | h
    · exact hk u e k h
    · exact hc u e k (List.mem_singleton.mp h).symm

theorem IOState.rendersWithin_render (n : Nat) (w : World) (st : IOState) (unit element : Nat)
    (h : st.RendersWithin n w) :
    (st.log (Call.AudioUnitRender unit element st.inNumberFrames)).RendersWithin n w :=
  IOState.rendersWithin_log n w st _ (fun _ _ _ hc => by cases hc; exact h.1) h

theorem IOState.rendersWithin_beginProcessing (n : Nat) (w : World) (st : IOState) (x : Nat)
    (h : st.RendersWithin n w) : (st.beginProcessing x).RendersWithin n w :=
  IOState.rendersWithin_log n w st (Call.PaUtil_BeginBufferProcessing x)
    (fun _ _ _ hc => by cases hc) h

theorem IOState.rendersWithin_endProcessing (n : Nat) (w : World) (st : IOState) (r : IOReplies)
    (h : st.RendersWithin n w) : (st.endProcessing r).RendersWithin n w :=
  IOState.rendersWithin_log n w st Call.PaUtil_EndBufferProcessing
    (fun _ _ _ hc => by cases hc) h

theorem IOState.rendersWithin_flag (n : Nat) (w : World) (st : IOState) (f : Nat)
    (h : st.RendersWithin n w) : (st.flag f).RendersWithin n w := h

theorem IOState.rendersWithin_setRing (n : Nat) (w : World) (st : IOState) (rb : RingBuffer)
    (h : st.RendersWithin n w) : (st.setRing rb).RendersWithin n w := h

theorem IOState.rendersWithin_fill (n : Nat) (w : World) (st : IOState) (size : Nat)
    (r : IOReplies) (h : st.RendersWithin n w) : (st.fill size r).RendersWithin n w :=
  IOState.rendersWithin_log n w st (Call.AudioConverterFillBuffer st.stream.inputSRConverter size)
    (fun _ _ _ hc => by cases hc) h

theorem IOState.rendersWithin_renderInput (n : Nat) (w : World) (st : IOState) (r : IOReplies)
    (h : st.RendersWithin n w) : (st.renderInput r).RendersWithin n w := by
  obtain ⟨hn, calls, ht, hk⟩ := h
  obtain ⟨hle, calls2, ht2, hk2⟩ :=
    AudioIOProc.captureLoop_le st.stream.inputUnit r.render st.inNumberFrames 0 st.world
  refine ⟨le_trans hle hn, calls ++ calls2, ?_, ?_⟩
  · simp only [IOState.renderInput, ht2, ht, List.append_assoc]
  · intro u e k hm
    rcases List.mem_append.mp hm with h | h
    · exact hk u e k h
    · exact le_trans (hk2 u e k h) hn

theorem IOState.rendersWithin_stopUnit (n : Nat) (w : World) (st : IOState) (unit : Nat)
    (h : st.RendersWithin n w) : (st.stopUnit unit).RendersWithin n w := by
  unfold IOState.stopUnit
  split_ifs
  · exact IOState.rendersWithin_log n w st _ (fun _ _ _ hc => by cases hc) h
  · exact h

theorem IOState.rendersWithin_callbackStopped (n : Nat) (w : World) (st : IOState)
    (h : st.RendersWithin n w) : (st.callbackStopped).RendersWithin n w := h

theorem AudioIOProc.timing_rendersWithin (n : Nat) (w : World) (b : Bool) (st : IOState)
    (h : st.RendersWithin n w) : (AudioIOProc.timing b st).RendersWithin n w := by
  obtain ⟨queries, ts, ht, hq⟩ := AudioIOProc.timing_eq b st
  obtain ⟨hn, calls, htr, hk⟩ := h
  rw [ht]
  refine ⟨hn, calls ++ queries, ?_, ?_⟩
  · simp only [htr, List.append_assoc]
  · intro u e k hm
    rcases List.mem_append.mp hm with h | h
    · exact hk u e k h
    · obtain ⟨d, hd⟩ := hq _ h
      cases hd

theorem AudioIOProc.duplex_rendersWithin (n : Nat) (w : World) (ioData : AudioBuffer)
    (r : IOReplies) (st : IOState) (h : st.RendersWithin n w) :
    (AudioIOProc.duplex ioData r st).RendersWithin n w := by
  unfold AudioIOProc.duplex
  dsimp only
  apply IOState.rendersWithin_endProcessing
  apply IOState.rendersWithin_log _ _ _ _ (fun _ _ _ hc => by cases hc)
  apply IOState.rendersWithin_log _ _ _ _ (fun _ _ _ hc => by cases hc)
  apply IOState.rendersWithin_log _ _ _ _ (fun _ _ _ hc => by cases hc)
  apply IOState.rendersWithin_log _ _ _ _ (fun _ _ _ hc => by cases hc)
  apply IOState.rendersWithin_render
  apply IOState.rendersWithin_beginProcessing
  exact h

theorem AudioIOProc.render_rendersWithin (n : Nat) (w : World) (ioData : AudioBuffer)
    (r : IOReplies) (st : IOState) (h : st.RendersWithin n w) :
    (AudioIOProc.render ioData r st).RendersWithin n w := by
  obtain ⟨hn, calls, ht, hk⟩ := h
  unfold AudioIOProc.render AudioIOProc.renderConverted AudioIOProc.renderFromRing
  dsimp only [IOState.log, IOState.beginProcessing, IOState.endProcessing, IOState.flag,
    IOState.setRing, IOState.fill, World.log]
  split_ifs
  all_goals
    refine ⟨hn, _, (by simp only [ht, List.append_assoc]; rfl), ?_⟩
    intro u e k hm
    simp only [List.mem_append, List.mem_cons, List.mem_singleton, List.not_mem_nil, or_false,
      reduceCtorEq, false_or] at hm
    exact hk u e k hm

theorem AudioIOProc.convertOnce_rendersWithin (n : Nat) (w : World) (chan : Nat)
    (r : IOReplies) (st : IOState) (h : st.RendersWithin n w) :
    (AudioIOProc.convertOnce chan r st).RendersWithin n w := by
  unfold AudioIOProc.convertOnce
  dsimp only
  split_ifs
  all_goals
    repeat' first
      | exact h
      | apply IOState.rendersWithin_endProcessing
      | apply IOState.rendersWithin_beginProcessing
      | apply IOState.rendersWithin_fill
      | apply IOState.rendersWithin_log _ _ _ _ (fun _ _ _ hc => by cases hc)

theorem AudioIOProc.convertLoop_rendersWithin (n : Nat) (w : World) (chan : Nat)
    (r : IOReplies) (fuel : Nat) (st out : IOState) (h : st.RendersWithin n w)
    (ho : AudioIOProc.convertLoop chan r fuel st = some out) : out.RendersWithin n w := by
  induction fuel generalizing st with
  | zero => simp [AudioIOProc.convertLoop] at ho
  | succ m ih =>
    simp only [AudioIOProc.convertLoop] at ho
    split_ifs at ho
    · exact ih _ (AudioIOProc.convertOnce_rendersWithin n w chan r st h) ho
    · cases ho
      exact AudioIOProc.convertOnce_rendersWithin n w chan r st h

theorem AudioIOProc.capture_rendersWithin (n : Nat) (w : World) (r : IOReplies) (fuel : Nat)
    (st out : IOState) (h : st.RendersWithin n w)
    (ho : AudioIOProc.capture r fuel st = some out) : out.RendersWithin n w := by
  have h1 := IOState.rendersWithin_renderInput n w st r h
  simp only [AudioIOProc.capture] at ho
  split_ifs at ho
  all_goals first
    | (refine AudioIOProc.convertLoop_rendersWithin n w _ r fuel _ out ?_ ho
       repeat' first
         | exact h1
         | apply IOState.rendersWithin_flag
         | apply IOState.rendersWithin_setRing
         | apply IOState.rendersWithin_endProcessing
         | apply IOState.rendersWithin_beginProcessing
         | apply IOState.rendersWithin_log _ _ _ _ (fun _ _ _ hc => by cases hc))
    | (cases ho
       repeat' first
         | exact h1
         | apply IOState.rendersWithin_flag
         | apply IOState.rendersWithin_setRing
         | apply IOState.rendersWithin_endProcessing
         | apply IOState.rendersWithin_beginProcessing
         | apply IOState.rendersWithin_log _ _ _ _ (fun _ _ _ hc => by cases hc))

theorem AudioIOProc.body_rendersWithin (n : Nat) (w : World) (b : Bool) (ioData : AudioBuffer)
    (r : IOReplies) (fuel : Nat) (st out : IOState) (h : st.RendersWithin n w)
    (ho : AudioIOProc.body b ioData r fuel st = some out) : out.RendersWithin n w := by
  unfold AudioIOProc.body at ho
  split_ifs at ho
  · cases ho
    exact AudioIOProc.duplex_rendersWithin n w ioData r st h
  · cases ho
    exact AudioIOProc.render_rendersWithin n w ioData r st h
  · exact AudioIOProc.capture_rendersWithin n w r fuel st out h ho

theorem AudioIOProc_rendersWithin (stream : PaMacCoreStream) (bus n : Nat) (ioData : AudioBuffer)
    (r : IOReplies) (fuel : Nat) (w : World) (out : IOState)
    (h : AudioIOProc stream bus n ioData r fuel w = some out) : out.RendersWithin n w := by
  unfold AudioIOProc at h
  cases hb : AudioIOProc.body (bus == OUTPUT_ELEMENT) ioData r fuel
      (AudioIOProc.timing (bus == OUTPUT_ELEMENT)
        ⟨stream, w.log Call.PaUtil_BeginCpuLoadMeasurement, paContinue, 0, n, 0, 0⟩) with
  | none => rw [hb] at h; cases h
  | some st =>
    rw [hb] at h
    have h0 : IOState.RendersWithin n w
        ⟨stream, w.log Call.PaUtil_BeginCpuLoadMeasurement, paContinue, 0, n, 0, 0⟩ :=
      ⟨le_refl _, [Call.PaUtil_BeginCpuLoadMeasurement], rfl, fun u e k hm => by
        rcases List.mem_cons.mp hm with h | h
        · cases h
        · cases h⟩
    have h1 := AudioIOProc.body_rendersWithin n w _ ioData r fuel _ st
      (AudioIOProc.timing_rendersWithin n w _ _ h0) hb
    cases h
    dsimp only
    apply IOState.rendersWithin_log _ _ _ _ (fun _ _ _ hc => by cases hc)
    unfold AudioIOProc.onCallbackResult
    split_ifs
    · apply IOState.rendersWithin_stopUnit
      apply IOState.rendersWithin_stopUnit
      apply IOState.rendersWithin_callbackStopped
      exact h1
    · exact h1

theorem OpenStream.allocateRing_scratch (r : OpenReplies) (o : Opening) :
    (OpenStream.allocateRing r o).stream.inputAudioBufferList = o.stream.inputAudioBufferList ∧
    (OpenStream.allocateRing r o).stream.inputFramesPerBuffer = o.stream.inputFramesPerBuffer ∧
    (OpenStream.allocateRing r o).stream.inputUnit = o.stream.inputUnit := by
  unfold OpenStream.allocateRing
  split_ifs <;> exact ⟨rfl, rfl, rfl⟩

/-- The input buffer of the stream after lines 1207-1266 of `OpenStream`:
`inputFramesPerBuffer * inputChannelCount * sizeof( float )` bytes. -/
theorem OpenStream.allocateInputBuffers_scratch (c : Int) (r : OpenReplies) (o : Opening)
    (hin : (OpenStream.allocateInputBuffers c r o).stream.inputUnit ≠ 0) :
    (OpenStream.allocateInputBuffers c r o).stream.inputAudioBufferList.mNumberChannels =
      c.toNat ∧
    (OpenStream.allocateInputBuffers c r o).stream.inputAudioBufferList.mDataByteSize =
      (OpenStream.allocateInputBuffers c r o).stream.inputFramesPerBuffer * c.toNat * 4 := by
  unfold OpenStream.allocateInputBuffers at hin ⊢
  split_ifs at hin ⊢ with h1 h2
  · exact ⟨rfl, rfl⟩
  · obtain ⟨e1, e2, e3⟩ := OpenStream.allocateRing_scratch r
      { o with
        world := (((o.world.bump).log (Call.calloc o.world.next)).acquire
          (Resource.memory o.world.next))
        stream :=
          { o.stream with
            inputAudioBufferList :=
              { mNumberChannels := c.toNat
                mDataByteSize := o.stream.inputFramesPerBuffer * c.toNat * 4
                mData := o.world.next } } }
    rw [e1, e2]
    exact ⟨rfl, rfl⟩
  · exact absurd (not_not.mp h1) hin

/-- The input buffer of the stream of an `OpenStream` that has not failed. -/
theorem OpenStream.acquire_scratch (setError : Int → PaError) (api : PaMacAUHAL)
    (ip op : Option PaStreamParameters) (rate : ℚ) (n : Nat) (cb : Bool) (r : OpenReplies)
    (g : PaMacCoreStream) (w : World)
    (hf : (OpenStream.acquire setError api ip op rate n cb r g w).failed = false)
    (hin : (OpenStream.acquire setError api ip op rate n cb r g w).stream.inputUnit ≠ 0) :
    (OpenStream.acquire setError api ip op rate n cb r g w).stream.inputAudioBufferList.mDataByteSize
      = (OpenStream.acquire setError api ip op rate n cb r g w).stream.inputFramesPerBuffer *
        (OpenStream.acquire setError api ip op rate n cb r g
          w).stream.inputAudioBufferList.mNumberChannels * 4 := by
  rw [OpenStream.acquire_eq] at hf hin ⊢
  generalize OpenStream.openUnits setError api ip op rate
    (OpenStream.resolveFramesPerBuffer ip op rate n r.inputRange r.outputRange) r
    (OpenStream.started api ip op n cb g w) = o2 at hf hin ⊢
  obtain ⟨f3, e4⟩ := Opening.step_of_failed_eq_false _ _ hf
  obtain ⟨f2, e3⟩ := Opening.step_of_failed_eq_false _ _ f3
  rw [e4] at hin ⊢
  rw [e3] at hin ⊢
  obtain ⟨b, p, hs⟩ := OpenStream.initializeProcessors_stream
    ((ip.map (·.channelCount)).getD 0) ((op.map (·.channelCount)).getD 0)
    (OpenStream.resolveFramesPerBuffer ip op rate n r.inputRange r.outputRange) cb r
    (OpenStream.allocateInputBuffers ((ip.map (·.channelCount)).getD 0) r o2)
  rw [hs] at hin ⊢
  obtain ⟨h1, h2⟩ := OpenStream.allocateInputBuffers_scratch _ r o2 hin
  dsimp only
  rw [h2, h1]

/-- C26 (amended): `AudioIOProc` never compares `inNumberFrames` with the size
of the input buffer; what holds is relative to the `inNumberFrames` the
platform passes. `OpenStream` gives the input buffer of every stream with an
input unit `inputFramesPerBuffer * channels * 4` bytes. In every invocation
that returns, on a stream whose input buffer has that size and with
`inNumberFrames` at most `inputFramesPerBuffer`, every `AudioUnitRender` asks
for `k` frames with `k` at most `inNumberFrames`, so for at most
`mDataByteSize` bytes, and the `inNumberFrames` the loop leaves, which sizes
the copy out of the buffer, is within the same bound. -/
theorem AudioIOProc_input_request_bounded (stream : PaMacCoreStream)
    (inBusNumber inNumberFrames : Nat) (ioData : AudioBuffer) (r : IOReplies) (fuel : Nat)
    (w : World) (out : IOState)
    (hsize : stream.inputAudioBufferList.mDataByteSize =
      stream.inputFramesPerBuffer * stream.inputAudioBufferList.mNumberChannels * 4)
    (hn : inNumberFrames ≤ stream.inputFramesPerBuffer)
    (h : AudioIOProc stream inBusNumber inNumberFrames ioData r fuel w = some out) :
    (∀ (setError : Int → PaError) (hostApi : PaMacAUHAL)
        (inputParameters outputParameters : Option PaStreamParameters) (sampleRate : ℚ)
        (framesPerBuffer streamFlags : Nat) (streamCallback : Bool) (replies : OpenReplies)
        (w0 : World) (opened : PaMacCoreStream),
      (OpenStream setError hostApi inputParameters outputParameters sampleRate framesPerBuffer
        streamFlags streamCallback replies w0).result = paNoError →
      (OpenStream setError hostApi inputParameters outputParameters sampleRate framesPerBuffer
        streamFlags streamCallback replies w0).s = some opened →
      opened.inputUnit ≠ 0 →
      opened.inputAudioBufferList.mDataByteSize =
        opened.inputFramesPerBuffer * opened.inputAudioBufferList.mNumberChannels * 4) ∧
    out.inNumberFrames ≤ inNumberFrames ∧
    4 * out.inNumberFrames * stream.inputAudioBufferList.mNumberChannels ≤
      stream.inputAudioBufferList.mDataByteSize ∧
    ∃ calls, out.world.trace = w.trace ++ calls ∧
      ∀ unit element k, Call.AudioUnitRender unit element k ∈ calls →
        k ≤ inNumberFrames ∧
        4 * k * stream.inputAudioBufferList.mNumberChannels ≤
          stream.inputAudioBufferList.mDataByteSize := by
  obtain ⟨hle, calls, ht, hk⟩ :=
    AudioIOProc_rendersWithin stream inBusNumber inNumberFrames ioData r fuel w out h
  have hb : ∀ k, k ≤ inNumberFrames →
      4 * k * stream.inputAudioBufferList.mNumberChannels ≤
        stream.inputAudioBufferList.mDataByteSize := by
    intro k hkn
    rw [hsize]
    calc 4 * k * stream.inputAudioBufferList.mNumberChannels
        = k * stream.inputAudioBufferList.mNumberChannels * 4 := by ring
      _ ≤ stream.inputFramesPerBuffer * stream.inputAudioBufferList.mNumberChannels * 4 :=
        Nat.mul_le_mul_right _ (Nat.mul_le_mul_right _ (le_trans hkn hn))
  refine ⟨?_, hle, hb _ hle, calls, ht, fun u e k hm => ⟨hk u e k hm, hb k (hk u e k hm)⟩⟩
  intro setError hostApi ip op rate fpb flags cb replies w0 opened hres hs hin
  obtain ⟨g, _, hf, he⟩ := OpenStream_of_result_eq_paNoError setError hostApi ip op rate fpb
    flags cb replies w0 hres
  rw [he] at hs
  cases hs
  exact OpenStream.acquire_scratch setError hostApi ip op rate fpb cb replies g w0 hf hin

theorem AudioIOProc_input_request_bounded_witness :
    ∃ out,
      ({ readingFromRing 2 ⟨16384, 4096, 0, 16⟩ with outputUnit := 1 } :
          PaMacCoreStream).inputAudioBufferList.mDataByteSize =
        ({ readingFromRing 2 ⟨16384, 4096, 0, 16⟩ with outputUnit := 1 } :
            PaMacCoreStream).inputFramesPerBuffer *
          ({ readingFromRing 2 ⟨16384, 4096, 0, 16⟩ with outputUnit := 1 } :
            PaMacCoreStream).inputAudioBufferList.mNumberChannels * 4 ∧
      64 ≤ ({ readingFromRing 2 ⟨16384, 4096, 0, 16⟩ with outputUnit := 1 } :
          PaMacCoreStream).inputFramesPerBuffer ∧
      AudioIOProc { readingFromRing 2 ⟨16384, 4096, 0, 16⟩ with outputUnit := 1 } OUTPUT_ELEMENT
        64 ⟨2, 512, 0⟩ (IOReplies.answering paContinue) 0 World.empty = some out ∧
      Call.AudioUnitRender 1 INPUT_ELEMENT 64 ∈ out.world.trace ∧
      out.inNumberFrames ≤ 64 ∧
      4 * out.inNumberFrames * 2 ≤ 512 ∧
      ∃ calls, out.world.trace = World.empty.trace ++ calls ∧
        ∀ unit element k, Call.AudioUnitRender unit element k ∈ calls →
          k ≤ 64 ∧ 4 * k * 2 ≤ 512 :=
  ⟨_, by decide, by decide, rfl, by decide,
    (AudioIOProc_input_request_bounded
      { readingFromRing 2 ⟨16384, 4096, 0, 16⟩ with outputUnit := 1 } OUTPUT_ELEMENT 64
      ⟨2, 512, 0⟩ (IOReplies.answering paContinue) 0 World.empty _ (by decide) (by decide)
      rfl).2⟩

/-- C26 (counterexample): a full-duplex stream opened on two devices with 64
frames per buffer and two input channels has an input buffer of 512 bytes.
The platform invokes the input callback with `inNumberFrames = 128` and the
render succeeds: `AudioUnitRender` is asked for 128 frames, which are 1024
bytes, into that buffer, and 1024 bytes are then written from it to the ring
buffer. -/
theorem AudioIOProc_requests_more_than_provisioned :
    (OpenStream wrapHostError twoDevices (some ⟨0, 2, paFloat32, 0, none⟩)
      (some ⟨1, 2, paFloat32, 0, none⟩) 44100 64 0 true (OpenReplies.success 64 44100 64 4096)
      World.empty).s = some openedOnTwoDevices ∧
    openedOnTwoDevices.inputFramesPerBuffer = 64 ∧
    openedOnTwoDevices.inputAudioBufferList.mNumberChannels = 2 ∧
    openedOnTwoDevices.inputAudioBufferList.mDataByteSize = 512 ∧
    openedOnTwoDevices.inputRingBuffer.writeIndex = 4096 ∧
    ∃ out,
      AudioIOProc { openedOnTwoDevices with state := StreamState.ACTIVE } INPUT_ELEMENT 128
        ⟨2, 512, 0⟩ (IOReplies.answering paContinue) 0 World.empty = some out ∧
      Call.AudioUnitRender openedOnTwoDevices.inputUnit INPUT_ELEMENT 128 ∈ out.world.trace ∧
      openedOnTwoDevices.inputAudioBufferList.mDataByteSize < 4 * 128 * 2 ∧
      out.stream.inputRingBuffer.writeIndex = 4096 + 4 * 128 * 2 := by
  refine ⟨by decide, by decide, by decide, by decide, by decide, ?_⟩
  unfold AudioIOProc AudioIOProc.body AudioIOProc.capture IOState.renderInput
  simp only [AudioIOProc.captureLoop_of_ne _ (IOReplies.answering paContinue).render 0 _ _
    (by decide)]
  exact ⟨_, rfl, by decide, by decide, by decide⟩

/-! ## The device list of `PaMacCore_Initialize` -/

theorem PaMacCore_Initialize.shiftDown_apply (remaining : Nat) :
    ∀ (devIds : Nat → Nat) (j k : Nat),
      PaMacCore_Initialize.shiftDown devIds remaining j k =
        if j ≤ k ∧ k < j + remaining then devIds (k + 1) else devIds k := by
  induction remaining with
  | zero =>
    intro devIds j k
    rw [PaMacCore_Initialize.shiftDown, if_neg (by omega)]
  | succ m ih =>
    intro devIds j k
    rw [PaMacCore_Initialize.shiftDown, ih]
    by_cases h1 : j + 1 ≤ k ∧ k < j + 1 + m
    · rw [if_pos h1, if_pos ⟨by omega, by omega⟩, Function.update_noteq (by omega)]
    · rw [if_neg h1]
      by_cases h2 : k = j
      · subst h2
        rw [if_pos ⟨le_refl _, by omega⟩, Function.update_same]
      · rw [if_neg (by omega), Function.update_noteq h2]

/-- The loop over the devices keeps the list in order: started at index `i`
with the first `i` devices listed and the devices `call`, `call + 1`, ... of
the list `ids` still to come at `devIds[i]`, `devIds[i + 1]`, ..., it ends
with all `devCount` devices listed. -/
theorem PaMacCore_Initialize.devices_listed (setError : Int → PaError)
    (replies : Nat → Nat → DeviceReplies) (ids : Nat → Nat) (total : Nat) (m : Nat) :
    ∀ (i call : Nat) (h : HostApiState), h.devCount - i = m → i ≤ h.devCount →
      call + (h.devCount - i) = total →
      (∀ j, i + j < h.devCount → h.devIds (i + j) = ids (call + j)) →
      h.Listed setError replies ids total i →
      (PaMacCore_Initialize.devices setError replies i call h).Listed setError replies ids total
        (PaMacCore_Initialize.devices setError replies i call h).devCount ∧
      (PaMacCore_Initialize.devices setError replies i call h).devCount ≤ h.devCount ∧
      (PaMacCore_Initialize.devices setError replies i call h).defaultIn = h.defaultIn ∧
      (PaMacCore_Initialize.devices setError replies i call h).defaultOut = h.defaultOut := by
  induction m with
  | zero =>
    intro i call h hm hi hc hids hl
    rw [PaMacCore_Initialize.devices, if_neg (by omega)]
    have : h.devCount = i := by omega
    rw [this]
    exact ⟨hl, le_refl _, rfl, rfl⟩
  | succ m ih =>
    intro i call h hm hi hc hids hl
    have l1 := hl.1
    have l2 := hl.2.1
    have hlt : i < h.devCount := by omega
    rw [PaMacCore_Initialize.devices, if_pos hlt]
    have hid : h.devIds i = ids call := by simpa using hids 0 (by omega)
    by_cases hok : (InitializeDeviceInfo setError (h.deviceInfoArray i)
        (replies call (h.devIds i))).1 = paNoError
    · rw [if_pos hok]
      refine ih (i + 1) (call + 1) _ (by simp only; omega) (by simp only; omega)
        (by simp only; omega) ?_ ⟨by simp only; omega, ?_, ?_, ?_⟩
      · intro j hj
        simp only at hj ⊢
        rw [show i + 1 + j = i + (j + 1) by omega, show call + 1 + j = call + (j + 1) by omega]
        exact hids (j + 1) (by omega)
      · intro k hk
        simp only
        by_cases hki : k = i
        · subst hki
          rw [l1, Function.update_same, Function.update_same]
          exact ⟨rfl, call, by omega, hid, h.deviceInfoArray k, Prod.ext hok rfl⟩
        · obtain ⟨d1, d2⟩ := l2 k (by omega)
          rw [l1, Function.update_noteq hki, Function.update_noteq hki]
          exact ⟨d1, d2⟩
      · simp only
        split_ifs with hd
        · exact Or.inr ⟨i, by omega, by rw [l1], hd⟩
        · rcases hl.2.2.1 with l3 | ⟨k, hk, e1, e2⟩
          · exact Or.inl l3
          · exact Or.inr ⟨k, by omega, e1, e2⟩
      · simp only
        split_ifs with hd
        · exact Or.inr ⟨i, by omega, by rw [l1], hd⟩
        · rcases hl.2.2.2 with l4 | ⟨k, hk, e1, e2⟩
          · exact Or.inl l4
          · exact Or.inr ⟨k, by omega, e1, e2⟩
    · rw [if_neg hok]
      have hshift : ∀ k, k < i →
          PaMacCore_Initialize.shiftDown h.devIds (h.devCount - 1 - i) i k = h.devIds k := by
        intro k hk
        rw [PaMacCore_Initialize.shiftDown_apply, if_neg (by omega)]
      have hids2 : ∀ j, i + j < h.devCount - 1 →
          PaMacCore_Initialize.shiftDown h.devIds (h.devCount - 1 - i) i (i + j) =
            ids (call + 1 + j) := by
        intro j hj
        rw [PaMacCore_Initialize.shiftDown_apply, if_pos ⟨by omega, by omega⟩,
          show call + 1 + j = call + (j + 1) by omega]
        exact hids (j + 1) (by omega)
      have hl2 : HostApiState.Listed setError replies ids total i
          { h with
            deviceInfoArray := Function.update h.deviceInfoArray i
              (InitializeDeviceInfo setError (h.deviceInfoArray i) (replies call (h.devIds i))).2
            devCount := h.devCount - 1
            devIds := PaMacCore_Initialize.shiftDown h.devIds (h.devCount - 1 - i) i } := by
        refine ⟨l1, ?_, ?_, ?_⟩
        · intro k hk
          simp only
          obtain ⟨d1, d2⟩ := l2 k hk
          rw [hshift k hk, Function.update_noteq (by omega)]
          exact ⟨d1, d2⟩
        · simp only
          rcases hl.2.2.1 with l3 | ⟨k, hk, e1, e2⟩
          · exact Or.inl l3
          · exact Or.inr ⟨k, hk, e1, by rw [hshift k hk]; exact e2⟩
        · simp only
          rcases hl.2.2.2 with l4 | ⟨k, hk, e1, e2⟩
          · exact Or.inl l4
          · exact Or.inr ⟨k, hk, e1, by rw [hshift k hk]; exact e2⟩
      have hm2 : h.devCount - 1 - i = m := by omega
      have hi2 : i ≤ h.devCount - 1 := by omega
      have hc2 : call + 1 + (h.devCount - 1 - i) = total := by omega
      obtain ⟨r1, r2, r3, r4⟩ := ih i (call + 1)
        { h with
          deviceInfoArray := Function.update h.deviceInfoArray i
            (InitializeDeviceInfo setError (h.deviceInfoArray i) (replies call (h.devIds i))).2
          devCount := h.devCount - 1
          devIds := PaMacCore_Initialize.shiftDown h.devIds (h.devCount - 1 - i) i }
        hm2 hi2 hc2 hids2 hl2
      exact ⟨r1, le_trans r2 (Nat.sub_le _ _), r3, r4⟩

theorem gatherDeviceInfo_of_allocate (setError : Int → PaError) (r : HardwareReplies)
    (h : HostApiState) (ha : r.allocateDevIds = true) :
    (gatherDeviceInfo setError r h).1 = paNoError ∧
    (gatherDeviceInfo setError r h).2.devIds = (fun i => r.devices.getD i 0) ∧
    (gatherDeviceInfo setError r h).2.devCount = r.devices.length := by
  unfold gatherDeviceInfo
  rw [if_neg (by simp [ha])]
  dsimp only
  split_ifs <;> exact ⟨rfl, rfl, rfl⟩

/-- C27 (failing input): the devices are 101 and 102; the query for the
default input device succeeds and answers 102, the query for the default
output device fails. `gatherDeviceInfo` returns `paNoError` with `defaultIn`
reset to `kAudioDeviceUnknown`; with the same platform answering the output
query, `defaultIn` is 102. Whenever the output query fails, `defaultIn` is
`kAudioDeviceUnknown` on return, whatever the input query gave. -/
theorem gatherDeviceInfo_output_fallback_resets_defaultIn :
    (gatherDeviceInfo wrapHostError (HardwareReplies.twoDevices (-1, 0)) HostApiState.blank).1 =
      paNoError ∧
    (gatherDeviceInfo wrapHostError (HardwareReplies.twoDevices (-1, 0))
      HostApiState.blank).2.defaultIn = kAudioDeviceUnknown ∧
    (gatherDeviceInfo wrapHostError (HardwareReplies.twoDevices (0, 101))
      HostApiState.blank).2.defaultIn = 102 ∧
    (∀ (setError : Int → PaError) (r : HardwareReplies) (auhalHostApi : HostApiState),
      r.allocateDevIds = true → r.defaultOutput.1 ≠ 0 →
      (gatherDeviceInfo setError r auhalHostApi).2.defaultIn = kAudioDeviceUnknown) := by
  refine ⟨by decide, by decide, by decide, ?_⟩
  intro setError r h ha ho
  unfold gatherDeviceInfo
  rw [if_neg (by simp [ha])]
  dsimp only
  rw [if_pos ho]

/-- C28: when every allocation of `PaMacCore_Initialize` succeeds, it reaches
the end of the loop over the devices with `paNoError`, whichever calls of
`InitializeDeviceInfo` fail (the loop is defined by recursion on
`devCount - i`). Then `info.deviceCount` equals `devCount`, which is at most
the number of devices the platform listed; for every `k < deviceCount`,
`deviceInfos[k]` points at `deviceInfoArray[k]`, the record a successful
`InitializeDeviceInfo` made for the device `devIds[k]` has left, and
`devIds[k]` is one of the ids the platform listed; so the device info and the
device id `OpenStream` reads for a device index belong to the same device; and
`defaultInputDevice` and `defaultOutputDevice` are `paNoDevice` or an index
`k < deviceCount` with `devIds[k]` equal to `defaultIn` and `defaultOut`. -/
theorem PaMacCore_Initialize_lists_devices (setError : Int → PaError) (r : InitializeReplies)
    (garbage : HostApiState) (hhost : r.allocateHostApi = some garbage)
    (hgroup : r.createAllocationGroup = true) (hids : r.hardware.allocateDevIds = true)
    (hinfos : r.allocateDeviceInfos.isSome = true)
    (harray : r.allocateDeviceInfoArray.isSome = true) :
    ∃ hostApi : HostApiState,
      PaMacCore_Initialize setError r = (paNoError, some hostApi) ∧
      hostApi.deviceCount = hostApi.devCount ∧
      hostApi.devCount ≤ r.hardware.devices.length ∧
      (∀ k, k < hostApi.deviceCount →
        hostApi.deviceInfos k = k ∧
        ∃ call, call < r.hardware.devices.length ∧
          hostApi.devIds k = r.hardware.devices.getD call 0 ∧
          ∃ before,
            InitializeDeviceInfo setError before (r.device call (hostApi.devIds k)) =
              (paNoError, hostApi.deviceInfoArray k)) ∧
      (∀ device : Int, 0 ≤ device → device < hostApi.deviceCount →
        ∃ call before,
          InitializeDeviceInfo setError before
              (r.device call (hostApi.hostApi.devId device)) =
            (paNoError, hostApi.hostApi.deviceInfo device)) ∧
      (hostApi.defaultInputDevice = paNoDevice ∨
        ∃ k, k < hostApi.deviceCount ∧ hostApi.defaultInputDevice = (k : Int) ∧
          hostApi.devIds k = hostApi.defaultIn) ∧
      (hostApi.defaultOutputDevice = paNoDevice ∨
        ∃ k, k < hostApi.deviceCount ∧ hostApi.defaultOutputDevice = (k : Int) ∧
          hostApi.devIds k = hostApi.defaultOut) := by
  obtain ⟨g1, g2, g3⟩ := gatherDeviceInfo_of_allocate setError r.hardware
    { garbage with devIds := fun _ => 0, devCount := 0 } hids
  obtain ⟨infos, hinfos⟩ := Option.isSome_iff_exists.mp hinfos
  obtain ⟨array, harray⟩ := Option.isSome_iff_exists.mp harray
  have key : ∀ hostApi : HostApiState,
      hostApi.Listed setError r.device (fun i => r.hardware.devices.getD i 0)
        r.hardware.devices.length hostApi.devCount →
      hostApi.devCount ≤ r.hardware.devices.length →
      hostApi.deviceCount = hostApi.devCount ∧
      hostApi.devCount ≤ r.hardware.devices.length ∧
      (∀ k, k < hostApi.deviceCount →
        hostApi.deviceInfos k = k ∧
        ∃ call, call < r.hardware.devices.length ∧
          hostApi.devIds k = r.hardware.devices.getD call 0 ∧
          ∃ before,
            InitializeDeviceInfo setError before (r.device call (hostApi.devIds k)) =
              (paNoError, hostApi.deviceInfoArray k)) ∧
      (∀ device : Int, 0 ≤ device → device < hostApi.deviceCount →
        ∃ call before,
          InitializeDeviceInfo setError before
              (r.device call (hostApi.hostApi.devId device)) =
            (paNoError, hostApi.hostApi.deviceInfo device)) ∧
      (hostApi.defaultInputDevice = paNoDevice ∨
        ∃ k, k < hostApi.deviceCount ∧ hostApi.defaultInputDevice = (k : Int) ∧
          hostApi.devIds k = hostApi.defaultIn) ∧
      (hostApi.defaultOutputDevice = paNoDevice ∨
        ∃ k, k < hostApi.deviceCount ∧ hostApi.defaultOutputDevice = (k : Int) ∧
          hostApi.devIds k = hostApi.defaultOut) := by
    intro hostApi hl hle
    obtain ⟨l1, l2, l3, l4⟩ := hl
    refine ⟨l1, hle, ?_, ?_, ?_, ?_⟩
    · intro k hk
      exact l2 k (l1 ▸ hk)
    · intro device h0 hlt
      obtain ⟨k, rfl⟩ := Int.eq_ofNat_of_zero_le h0
      have hk : k < hostApi.devCount := by
        rw [l1] at hlt
        exact_mod_cast hlt
      obtain ⟨d1, call, _, _, before, hb⟩ := l2 k hk
      refine ⟨call, before, ?_⟩
      have e1 : hostApi.hostApi.devId (k : Int) = hostApi.devIds k := by
        simp [HostApiState.hostApi, PaMacAUHAL.devId, List.getD_eq_getElem?_getD, hk]
      have e2 : hostApi.hostApi.deviceInfo (k : Int) = hostApi.deviceInfoArray k := by
        simp [HostApiState.hostApi, PaMacAUHAL.deviceInfo, List.getD_eq_getElem?_getD, hk, l1, d1]
      rw [e1, e2]
      exact hb
    · rw [l1]
      exact l3
    · rw [l1]
      exact l4
  unfold PaMacCore_Initialize
  rw [hhost]
  dsimp only
  rw [if_neg (by simp [hgroup]), if_neg (not_not.mpr g1)]
  by_cases hpos : 0 < (gatherDeviceInfo setError r.hardware
      { garbage with devIds := fun _ => 0, devCount := 0 }).2.devCount
  · rw [if_pos hpos, hinfos, harray]
    dsimp only
    obtain ⟨r1, r2, _, _⟩ := PaMacCore_Initialize.devices_listed setError r.device
      (fun i => r.hardware.devices.getD i 0) r.hardware.devices.length r.hardware.devices.length
      0 0
      { (gatherDeviceInfo setError r.hardware
          { garbage with devIds := fun _ => 0, devCount := 0 }).2 with
        defaultInputDevice := paNoDevice, defaultOutputDevice := paNoDevice, deviceCount := 0,
        deviceInfos := infos, deviceInfoArray := array }
      (by simp [g3]) (Nat.zero_le _) (by simp [g3])
      (by intro j hj; simp [g2])
      ⟨rfl, fun k hk => absurd hk (Nat.not_lt_zero k), Or.inl rfl, Or.inl rfl⟩
    exact ⟨_, rfl, key _ r1 (le_trans r2 (by simp [g3]))⟩
  · rw [if_neg hpos]
    have hz : (gatherDeviceInfo setError r.hardware
        { garbage with devIds := fun _ => 0, devCount := 0 }).2.devCount = 0 := by omega
    refine ⟨_, rfl, key _ ?_ (by simp [hz])⟩
    simp only [hz]
    exact ⟨rfl, fun k hk => absurd hk (Nat.not_lt_zero k), Or.inl rfl, Or.inl rfl⟩

theorem PaMacCore_Initialize_lists_devices_witness :
    InitializeReplies.threeDevices.allocateHostApi = some HostApiState.blank ∧
    InitializeReplies.threeDevices.createAllocationGroup = true ∧
    InitializeReplies.threeDevices.hardware.allocateDevIds = true ∧
    InitializeReplies.threeDevices.allocateDeviceInfos.isSome = true ∧
    InitializeReplies.threeDevices.allocateDeviceInfoArray.isSome = true ∧
    ∃ hostApi : HostApiState,
      PaMacCore_Initialize wrapHostError InitializeReplies.threeDevices =
        (paNoError, some hostApi) ∧
      hostApi.deviceCount = hostApi.devCount ∧
      hostApi.devCount ≤ InitializeReplies.threeDevices.hardware.devices.length ∧
      (∀ k, k < hostApi.deviceCount →
        hostApi.deviceInfos k = k ∧
        ∃ call, call < InitializeReplies.threeDevices.hardware.devices.length ∧
          hostApi.devIds k = InitializeReplies.threeDevices.hardware.devices.getD call 0 ∧
          ∃ before,
            InitializeDeviceInfo wrapHostError before
                (InitializeReplies.threeDevices.device call (hostApi.devIds k)) =
              (paNoError, hostApi.deviceInfoArray k)) ∧
      (∀ device : Int, 0 ≤ device → device < hostApi.deviceCount →
        ∃ call before,
          InitializeDeviceInfo wrapHostError before
              (InitializeReplies.threeDevices.device call (hostApi.hostApi.devId device)) =
            (paNoError, hostApi.hostApi.deviceInfo device)) ∧
      (hostApi.defaultInputDevice = paNoDevice ∨
        ∃ k, k < hostApi.deviceCount ∧ hostApi.defaultInputDevice = (k : Int) ∧
          hostApi.devIds k = hostApi.defaultIn) ∧
      (hostApi.defaultOutputDevice = paNoDevice ∨
        ∃ k, k < hostApi.deviceCount ∧ hostApi.defaultOutputDevice = (k : Int) ∧
          hostApi.devIds k = hostApi.defaultOut) :=
  ⟨rfl, rfl, rfl, rfl, rfl,
    PaMacCore_Initialize_lists_devices wrapHostError InitializeReplies.threeDevices
      HostApiState.blank rfl rfl rfl rfl rfl⟩

/-! ## Platform statuses in `StartStream` and `StopStream` -/

/-- C29 (failing input): the status `65536` is `0` once stored in the `OSErr`
`result`. `StartStream` on a stopped stream whose `AudioOutputUnitStart`
answers `65536` returns `paNoError`, and so does `StopStream` on a running
stream whose `AudioOutputUnitStop` answers `65536`, going on to reset the unit
and to set the state to `STOPPED`; `PaMacCore_SetError` is not called, though
it turns `65536` into an error. -/
theorem StartStream_StopStream_truncate_status :
    toOSErr 65536 = 0 ∧ wrapHostError 65536 ≠ paNoError ∧
    (StartStream wrapHostError idle ⟨0, 65536, 0⟩ World.empty).result = paNoError ∧
    (StartStream wrapHostError idle ⟨0, 65536, 0⟩ World.empty).world.trace =
      [Call.PaUtil_ResetBufferProcessor, Call.AudioOutputUnitStart 1] ∧
    (StopStream wrapHostError running ⟨65536, 0, 0, 0, 0, 0, 0, paNoError⟩
      World.empty).result = paNoError ∧
    (StopStream wrapHostError running ⟨65536, 0, 0, 0, 0, 0, 0, paNoError⟩
      World.empty).stream.state = StreamState.STOPPED ∧
    (StopStream wrapHostError running ⟨65536, 0, 0, 0, 0, 0, 0, paNoError⟩
      World.empty).world.trace =
      [Call.waitUntilBlioWriteBufferIsFlushed, Call.AudioOutputUnitStop 1,
        Call.AudioUnitReset 1 Scope.Global 1, Call.AudioUnitReset 1 Scope.Global 0,
        Call.resetBlioRingBuffers] := by
  refine ⟨by decide, by decide, by decide, by decide, by decide, by decide, by decide⟩

/-! ## The calls of `CloseComponent` -/

theorem World.closes_log (w : World) (c : Call) (u : Nat) :
    (w.log c).closes u = w.closes u + if c = Call.CloseComponent u then 1 else 0 := by
  unfold World.closes World.log
  by_cases h : c = Call.CloseComponent u
  · subst h
    simp
  · simp [h, List.count_cons]

@[simp] theorem World.closes_bump (w : World) (u : Nat) : w.bump.closes u = w.closes u := rfl

@[simp] theorem World.closes_acquire (w : World) (r : Resource) (u : Nat) :
    (w.acquire r).closes u = w.closes u := rfl

@[simp] theorem World.closes_release (w : World) (r : Resource) (u : Nat) :
    (w.release r).closes u = w.closes u := rfl

/-- What the count of `CloseComponent` needs of a `Setup`. -/
theorem Setup.closes_ERR_WRAP (s : Setup) (c : Call) (e : Int) (u : Nat)
    (hc : c ≠ Call.CloseComponent u) : (s.ERR_WRAP c e).world.closes u = s.world.closes u := by
  unfold Setup.ERR_WRAP Setup.step
  split
  · rfl
  · simp [World.closes_log, hc]

theorem Setup.closes_paCheck (s : Setup) (c : Call) (e : PaError) (u : Nat)
    (hc : c ≠ Call.CloseComponent u) : (s.paCheck c e).world.closes u = s.world.closes u := by
  unfold Setup.paCheck Setup.step
  split
  · rfl
  · simp [World.closes_log, hc]

@[simp] theorem Setup.closes_setAudioDevice (s : Setup) (d : Nat) (u : Nat) :
    (s.setAudioDevice d).world.closes u = s.world.closes u := by
  unfold Setup.setAudioDevice Setup.step; split <;> rfl

@[simp] theorem Setup.closes_clearResult (s : Setup) (u : Nat) :
    s.clearResult.world.closes u = s.world.closes u := by
  unfold Setup.clearResult Setup.step; split <;> rfl

@[simp] theorem Setup.closes_setActualInput (s : Setup) (n : Nat) (u : Nat) :
    (s.setActualInput n).world.closes u = s.world.closes u := by
  unfold Setup.setActualInput Setup.step; split <;> rfl

@[simp] theorem Setup.closes_setActualOutput (s : Setup) (n : Nat) (u : Nat) :
    (s.setActualOutput n).world.closes u = s.world.closes u := by
  unfold Setup.setActualOutput Setup.step; split <;> rfl

@[simp] theorem Setup.closes_copyActualInputToOutput (s : Setup) (u : Nat) :
    s.copyActualInputToOutput.world.closes u = s.world.closes u := by
  unfold Setup.copyActualInputToOutput Setup.step; split <;> rfl

theorem Setup.closes_ite (c : Prop) [Decidable c] (a b : Setup) (u : Nat) :
    (if c then a else b).world.closes u = if c then a.world.closes u else b.world.closes u := by
  split <;> rfl

theorem setDevices_closes (ip op : Option PaStreamParameters) (api : PaMacAUHAL)
    (r : UnitReplies) (unit : Nat) (s : Setup) (u : Nat) :
    (OpenAndSetupOneAudioUnit.setDevices ip op api r unit s).world.closes u =
      s.world.closes u := by
  cases ip <;> cases op <;>
    simp [OpenAndSetupOneAudioUnit.setDevices, Setup.closes_ERR_WRAP]

theorem setDeviceFormat_closes (ip op : Option PaStreamParameters) (n : Nat) (a b : Bool)
    (r : UnitReplies) (s : Setup) (u : Nat) :
    (OpenAndSetupOneAudioUnit.setDeviceFormat ip op n a b r s).world.closes u =
      s.world.closes u := by
  cases ip <;> cases op <;>
    simp [OpenAndSetupOneAudioUnit.setDeviceFormat, Setup.closes_paCheck, Setup.closes_ite]

theorem setUnitFormat_closes (ip op : Option PaStreamParameters)
    (r : UnitReplies) (unit : Nat) (s : Setup) (u : Nat) :
    (OpenAndSetupOneAudioUnit.setUnitFormat ip op r unit s).world.closes u =
      s.world.closes u := by
  cases ip <;> cases op <;>
    simp [OpenAndSetupOneAudioUnit.setUnitFormat, Setup.closes_ERR_WRAP]

theorem Setup.closes_audioConverterNew (s : Setup) (status : Int) (u : Nat) :
    (s.audioConverterNew status).world.closes u = s.world.closes u := by
  unfold Setup.audioConverterNew
  dsimp only
  rw [Setup.closes_ERR_WRAP _ _ _ _ (by simp)]
  unfold Setup.step
  split_ifs <;> rfl

theorem setConverterAndCallbacks_closes (ip op : Option PaStreamParameters) (rate : ℚ)
    (r : UnitReplies) (unit : Nat) (s : Setup) (u : Nat) :
    (OpenAndSetupOneAudioUnit.setConverterAndCallbacks ip op rate r unit s).world.closes u =
      s.world.closes u := by
  cases ip <;> cases op <;>
    simp [OpenAndSetupOneAudioUnit.setConverterAndCallbacks, Setup.closes_ERR_WRAP,
      Setup.closes_ite, Setup.closes_audioConverterNew]

/-- `OpenAndSetupOneAudioUnit` calls `CloseComponent` at most once, on the
unit it has just opened, and then hands back no unit. -/
theorem OpenAndSetupOneAudioUnit_closes (setError : Int → PaError)
    (ip op : Option PaStreamParameters) (n : Nat) (a b : Bool) (api : PaMacAUHAL) (rate : ℚ)
    (r : UnitReplies) (w : World) (res : UnitResult) (u : Nat)
    (hu : OpenAndSetupOneAudioUnit setError ip op n a b api rate r w = res) :
    (res.world.closes u = w.closes u ∨
      (res.world.closes u = w.closes u + 1 ∧ u = w.fresh + 1 ∧ res.audioUnit = 0 ∧
        w.fresh + 1 ≤ res.world.fresh)) ∧
    (res.audioUnit ≠ 0 → res.world.closes u = w.closes u) := by
  obtain ⟨_, _, e3⟩ := OpenAndSetupOneAudioUnit_held setError ip op n a b api rate r w res hu
  unfold OpenAndSetupOneAudioUnit at hu
  split_ifs at hu with h1 h2 h3
  · subst hu; simp
  · subst hu; simp [World.closes_log]
  · subst hu; simp [World.closes_log]
  · generalize hs0 : (⟨(((w.log Call.FindNextComponent).bump).log (Call.OpenAComponent w.next)).acquire
        (Resource.audioUnit w.next), w.next, 0, kAudioDeviceUnknown, 0, 0, toOSErr r.openAComponent,
        paNoError, false⟩ : Setup) = s0 at hu
    have h0 : s0.world.closes u = w.closes u := by
      subst hs0
      simp [World.closes_log]
    have h0c : s0.core = (Resource.audioUnit (w.fresh + 1) :: w.held, w.fresh + 1, 0, w.fresh + 1) := by
      subst hs0; rfl
    generalize hs3 : OpenAndSetupOneAudioUnit.setUnitFormat ip op r w.next
      (OpenAndSetupOneAudioUnit.setDeviceFormat ip op n a b r
        (OpenAndSetupOneAudioUnit.setDevices ip op api r w.next s0)) = s3 at hu
    have h3 : s3.world.closes u = w.closes u := by
      subst hs3
      rw [setUnitFormat_closes, setDeviceFormat_closes, setDevices_closes, h0]
    have h3c : s3.core = s0.core := by subst hs3; simp
    have h4 := setConverterAndCallbacks_closes ip op rate r w.next s3 u
    have h4c := setConverterAndCallbacks_core ip op rate r w.next s3
    generalize OpenAndSetupOneAudioUnit.setConverterAndCallbacks ip op rate r w.next s3 = s4
      at h4 h4c hu
    rw [h3] at h4
    rw [h3c, h0c] at h4c
    simp only [Setup.core, Prod.mk.injEq] at h3c h0c h4c
    unfold OpenAndSetupOneAudioUnit.finish at hu
    have ha : s4.audioUnit = w.fresh + 1 := by
      rcases h4c with ⟨_, _, _, e⟩ | ⟨_, _, _, e⟩
      · exact e
      · rw [e]; exact h3c.2.2.2.trans h0c.2.2.2
    have hfr : w.fresh + 1 ≤ s4.world.fresh := by
      rcases h4c with ⟨_, e, _, _⟩ | ⟨_, e, _, _⟩
      · omega
      · rw [e, h3c.2.1, h0c.2.1]; omega
    by_cases hf : (!s4.failed) = true
    · rw [if_pos hf] at hu
      subst hu
      exact ⟨Or.inl h4, fun _ => h4⟩
    · rw [if_neg hf] at hu
      subst hu
      refine ⟨?_, fun h => absurd rfl h⟩
      dsimp only
      rw [World.closes_release, World.closes_log, h4]
      by_cases hcu : u = w.fresh + 1
      · right
        subst hcu
        simp [ha, World.release, World.log, hfr]
      · left
        simp [ha, Ne.symm hcu]

theorem Opening.closesOnce_of_eq (u c0 : Nat) (o o' : Opening) (h : o.ClosesOnce u c0)
    (hi : o'.stream.inputUnit = o.stream.inputUnit)
    (ho : o'.stream.outputUnit = o.stream.outputUnit)
    (hc : o'.world.closes u = o.world.closes u) (hf : o.world.fresh ≤ o'.world.fresh) :
    o'.ClosesOnce u c0 := by
  obtain ⟨h1, h2, h3, h4, h5⟩ := h
  refine ⟨by omega, fun hlt => ?_, fun hu hm => ?_, by omega, by omega⟩
  · rw [hc]
    exact h2 (by omega)
  · rw [hc]
    rw [hi, ho] at hm
    exact h3 hu hm

theorem Opening.closesOnce_step (u c0 : Nat) (o : Opening) (f : Opening → Opening)
    (h : o.ClosesOnce u c0) (hf : o.ClosesOnce u c0 → (f o).ClosesOnce u c0) :
    (o.step f).ClosesOnce u c0 := by
  unfold Opening.step
  split_ifs
  · exact h
  · exact hf h

theorem OpenStream.started_closesOnce (api : PaMacAUHAL) (ip op : Option PaStreamParameters)
    (n : Nat) (cb : Bool) (g : PaMacCoreStream) (w : World) (u : Nat) :
    (OpenStream.started api ip op n cb g w).ClosesOnce u (w.closes u) ∧
    (OpenStream.started api ip op n cb g w).stream.inputUnit = 0 ∧
    (OpenStream.started api ip op n cb g w).stream.outputUnit = 0 := by
  unfold OpenStream.started
  split_ifs
  · cases ip <;> cases op <;>
      simp [Opening.ClosesOnce, OpenStream.prepare, OpenStream.logRangeQueries, World.closes,
        World.log, World.acquire, World.bump, List.count_cons]
  · simp [Opening.ClosesOnce, OpenStream.prepare, World.closes, World.log, World.acquire,
      World.bump, List.count_cons]

theorem OpenStream.allocateRing_closes (r : OpenReplies) (o : Opening) (u : Nat) :
    (OpenStream.allocateRing r o).stream.inputUnit = o.stream.inputUnit ∧
    (OpenStream.allocateRing r o).stream.outputUnit = o.stream.outputUnit ∧
    (OpenStream.allocateRing r o).world.closes u = o.world.closes u ∧
    o.world.fresh ≤ (OpenStream.allocateRing r o).world.fresh := by
  unfold OpenStream.allocateRing
  split_ifs <;>
    simp [Opening.fail, World.closes, World.log, World.acquire, World.bump, List.count_cons]

theorem OpenStream.allocateInputBuffers_closes (c : Int) (r : OpenReplies) (o : Opening)
    (u : Nat) :
    (OpenStream.allocateInputBuffers c r o).stream.inputUnit = o.stream.inputUnit ∧
    (OpenStream.allocateInputBuffers c r o).stream.outputUnit = o.stream.outputUnit ∧
    (OpenStream.allocateInputBuffers c r o).world.closes u = o.world.closes u ∧
    o.world.fresh ≤ (OpenStream.allocateInputBuffers c r o).world.fresh := by
  unfold OpenStream.allocateInputBuffers
  split_ifs
  · simp [Opening.fail, World.closes_log]
    rfl
  · obtain ⟨e1, e2, e3, e4⟩ := OpenStream.allocateRing_closes r
      { o with
        world := (((o.world.bump).log (Call.calloc o.world.next)).acquire
          (Resource.memory o.world.next))
        stream :=
          { o.stream with
            inputAudioBufferList :=
              { mNumberChannels := c.toNat
                mDataByteSize := o.stream.inputFramesPerBuffer * c.toNat * 4
                mData := o.world.next } } } u
    rw [e1, e2, e3]
    refine ⟨rfl, rfl, by simp [World.closes_log], le_trans ?_ e4⟩
    simp [World.log, World.acquire, World.bump]
  · exact ⟨rfl, rfl, rfl, le_refl _⟩

theorem OpenStream.initializeProcessors_closes (ci co : Int) (n : Nat) (cb : Bool)
    (r : OpenReplies) (o : Opening) (u : Nat) :
    (OpenStream.initializeProcessors ci co n cb r o).world.closes u = o.world.closes u ∧
    o.world.fresh ≤ (OpenStream.initializeProcessors ci co n cb r o).world.fresh := by
  unfold OpenStream.initializeProcessors
  cases cb <;> by_cases hb : r.initializeBlioRingBuffers = 0 <;>
    by_cases hp : r.initializeBufferProcessor = 0 <;> by_cases hf : o.failed = true <;>
    simp [Opening.check, Opening.step, hb, hp, hf, paNoError, World.closes, World.log,
      World.acquire, List.count_cons]

/-- The trace after `World.releaseIf`. -/
theorem World.count_releaseIf (w : World) (c : Prop) [Decidable c] (calls : List Call)
    (r : Resource) (x : Call) :
    (w.releaseIf c calls r).trace.count x = w.trace.count x + if c then calls.count x else 0 := by
  unfold World.releaseIf
  split_ifs <;> simp

/-- `CloseStream` on a stream: how often it calls `x`, when `x` is
`CloseComponent( u )` or `AudioUnitUninitialize( u )`. -/
theorem CloseStream_count (stream : PaMacCoreStream) (d : PaError) (w : World) (u : Nat)
    (x : Call) (hx : x = Call.CloseComponent u ∨ x = Call.AudioUnitUninitialize u) :
    (CloseStream (some stream) d w).2.trace.count x =
      w.trace.count x +
        if u ≠ 0 ∧ (u = stream.inputUnit ∨ u = stream.outputUnit) then 1 else 0 := by
  have hrel : (CloseStream.release stream d w).trace.count x =
      w.trace.count x +
        if u ≠ 0 ∧ (u = stream.inputUnit ∨ u = stream.outputUnit) then 1 else 0 := by
    unfold CloseStream.release destroyBlioRingBuffers
    dsimp only
    rw [World.count_releaseIf]
    simp only [World.log]
    rw [List.count_append, World.count_releaseIf, World.count_releaseIf, World.count_releaseIf,
      World.count_releaseIf, World.count_releaseIf]
    rcases hx with rfl | rfl
    · by_cases hi : stream.inputUnit = 0 <;> by_cases ho : stream.outputUnit = 0 <;>
        by_cases hio : stream.outputUnit = stream.inputUnit <;>
        by_cases h1 : u = stream.inputUnit <;> by_cases h2 : u = stream.outputUnit <;>
        simp_all [List.count_cons]
    · by_cases hi : stream.inputUnit = 0 <;> by_cases ho : stream.outputUnit = 0 <;>
        by_cases hio : stream.outputUnit = stream.inputUnit <;>
        by_cases h1 : u = stream.inputUnit <;> by_cases h2 : u = stream.outputUnit <;>
        simp_all [List.count_cons]
  generalize (if u ≠ 0 ∧ (u = stream.inputUnit ∨ u = stream.outputUnit) then 1 else 0) = k
    at hrel ⊢
  unfold CloseStream
  dsimp only
  by_cases hd : d ≠ paNoError
  · rw [if_pos hd]
    exact hrel
  · rw [if_neg hd]
    unfold CloseStream.terminate
    dsimp only
    simp only [World.release, World.log]
    rw [List.count_append, List.count_append, World.count_releaseIf, hrel]
    rcases hx with rfl | rfl <;> simp [List.count_cons]

/-- Opening one more unit keeps the count of `CloseComponent` in order: `o'`
is `o` after `OpenAndSetupOneAudioUnit`, with the new unit in one or both of
the unit fields. -/
theorem Opening.closesOnce_open (setError : Int → PaError)
    (ip op : Option PaStreamParameters) (n : Nat) (a b : Bool) (api : PaMacAUHAL) (rate : ℚ)
    (r : UnitReplies) (u c0 : Nat) (o o' : Opening) (res : UnitResult)
    (hres : OpenAndSetupOneAudioUnit setError ip op n a b api rate r o.world = res)
    (h : o.ClosesOnce u c0) (hw : o'.world = res.world)
    (hin : o'.stream.inputUnit = res.audioUnit ∨ o'.stream.inputUnit = o.stream.inputUnit)
    (hout : o'.stream.outputUnit = res.audioUnit ∨ o'.stream.outputUnit = o.stream.outputUnit) :
    o'.ClosesOnce u c0 := by
  obtain ⟨h1, h2, h3, h4, h5⟩ := h
  obtain ⟨_, e2, e3⟩ := OpenAndSetupOneAudioUnit_held setError ip op n a b api rate r o.world
    res hres
  obtain ⟨c1, c2⟩ := OpenAndSetupOneAudioUnit_closes setError ip op n a b api rate r o.world
    res u hres
  unfold Opening.ClosesOnce
  rw [hw]
  have hunit : ∀ x : Nat, (x = res.audioUnit ∨ x = o.stream.inputUnit ∨ x = o.stream.outputUnit) →
      x ≤ res.world.fresh ∧ (u ≠ 0 → u = x → res.world.closes u = c0) := by
    intro x hx
    rcases hx with hx | hx | hx
    · subst hx
      by_cases hz : res.audioUnit = 0
      · exact ⟨by omega, fun hu he => absurd (he.trans hz) hu⟩
      · obtain ⟨e4, e5⟩ := e3 hz
        refine ⟨by omega, fun _ he => ?_⟩
        rw [c2 hz]
        exact h2 (by omega)
    · subst hx
      refine ⟨by omega, fun hu he => ?_⟩
      have hc := h3 hu (Or.inl he)
      rcases c1 with c | ⟨_, c, _, _⟩
      · rw [c, hc]
      · omega
    · subst hx
      refine ⟨by omega, fun hu he => ?_⟩
      have hc := h3 hu (Or.inr he)
      rcases c1 with c | ⟨_, c, _, _⟩
      · rw [c, hc]
      · omega
  have hi := hunit o'.stream.inputUnit (by rcases hin with h | h <;> simp [h])
  have ho := hunit o'.stream.outputUnit (by rcases hout with h | h <;> simp [h])
  refine ⟨?_, ?_, ?_, hi.1, ho.1⟩
  · rcases c1 with c | ⟨c, cu, _, _⟩
    · omega
    · have := h2 (by omega)
      omega
  · intro hlt
    have := h2 (by omega)
    rcases c1 with c | ⟨c, cu, _, cf⟩
    · omega
    · omega
  · intro hu hm
    rcases hm with hm | hm
    · exact hi.2 hu hm
    · exact ho.2 hu hm

theorem Opening.closesOnce_check (u c0 : Nat) (o : Opening) (e : PaError) :
    (o.check e).ClosesOnce u c0 ↔ o.ClosesOnce u c0 := Iff.rfl

theorem OpenStream.openUnits_closesOnce (setError : Int → PaError) (api : PaMacAUHAL)
    (ip op : Option PaStreamParameters) (rate : ℚ) (n : Nat) (r : OpenReplies) (o : Opening)
    (u c0 : Nat) (h : o.ClosesOnce u c0) :
    (OpenStream.openUnits setError api ip op rate n r o).ClosesOnce u c0 := by
  unfold OpenStream.openUnits
  split_ifs with hd
  · dsimp only
    rw [Opening.closesOnce_check]
    exact Opening.closesOnce_open setError ip op n true true api rate r.firstUnit u c0 o _ _ rfl h
      rfl (Or.inl rfl) (Or.inl rfl)
  · dsimp only
    apply Opening.closesOnce_step
    · rw [Opening.closesOnce_check]
      exact Opening.closesOnce_open setError none op n false true api rate r.firstUnit u c0 o _ _
        rfl h rfl (Or.inr rfl) (Or.inl rfl)
    · intro h1
      rw [Opening.closesOnce_check]
      exact Opening.closesOnce_open setError ip none n true false api rate r.secondUnit u c0 _ _ _
        rfl h1 rfl (Or.inl rfl) (Or.inr rfl)

theorem OpenStream.acquire_closesOnce (setError : Int → PaError) (api : PaMacAUHAL)
    (ip op : Option PaStreamParameters) (rate : ℚ) (n : Nat) (cb : Bool) (r : OpenReplies)
    (g : PaMacCoreStream) (w : World) (u : Nat) :
    (OpenStream.acquire setError api ip op rate n cb r g w).ClosesOnce u (w.closes u) := by
  rw [OpenStream.acquire_eq]
  apply Opening.closesOnce_step
  · apply Opening.closesOnce_step
    · exact OpenStream.openUnits_closesOnce setError api ip op rate _ r _ u _
        (OpenStream.started_closesOnce api ip op n cb g w u).1
    · intro h
      obtain ⟨e1, e2, e3, e4⟩ := OpenStream.allocateInputBuffers_closes
        ((ip.map (·.channelCount)).getD 0) r
        (OpenStream.openUnits setError api ip op rate
          (OpenStream.resolveFramesPerBuffer ip op rate n r.inputRange r.outputRange) r
          (OpenStream.started api ip op n cb g w)) u
      exact Opening.closesOnce_of_eq u _ _ _ h e1 e2 e3 e4
  · intro h
    obtain ⟨e3, e4⟩ := OpenStream.initializeProcessors_closes
      ((ip.map (·.channelCount)).getD 0) ((op.map (·.channelCount)).getD 0)
      (OpenStream.resolveFramesPerBuffer ip op rate n r.inputRange r.outputRange) cb r
      (Opening.step (OpenStream.openUnits setError api ip op rate
          (OpenStream.resolveFramesPerBuffer ip op rate n r.inputRange r.outputRange) r
          (OpenStream.started api ip op n cb g w))
        (OpenStream.allocateInputBuffers ((ip.map (·.channelCount)).getD 0) r)) u
    obtain ⟨bl, p, hs⟩ := OpenStream.initializeProcessors_stream
      ((ip.map (·.channelCount)).getD 0) ((op.map (·.channelCount)).getD 0)
      (OpenStream.resolveFramesPerBuffer ip op rate n r.inputRange r.outputRange) cb r
      (Opening.step (OpenStream.openUnits setError api ip op rate
          (OpenStream.resolveFramesPerBuffer ip op rate n r.inputRange r.outputRange) r
          (OpenStream.started api ip op n cb g w))
        (OpenStream.allocateInputBuffers ((ip.map (·.channelCount)).getD 0) r))
    exact Opening.closesOnce_of_eq u _ _ _ h (by rw [hs]) (by rw [hs]) e3 e4

/-- `OpenStream`, whatever fails in it, calls `CloseComponent` at most once
on any one unit. -/
theorem OpenStream_closes_le (setError : Int → PaError) (api : PaMacAUHAL)
    (ip op : Option PaStreamParameters) (rate : ℚ) (n flags : Nat) (cb : Bool) (r : OpenReplies)
    (w : World) (u : Nat) :
    (OpenStream setError api ip op rate n flags cb r w).world.closes u ≤ w.closes u + 1 := by
  unfold OpenStream
  split
  · exact Nat.le_succ _
  · split
    · exact Nat.le_succ _
    · split_ifs
      · exact Nat.le_succ _
      · unfold OpenStream.open
        split
        · simp [CloseStream, World.closes_log]
        · rename_i g hg
          obtain ⟨h1, h2, h3, h4, h5⟩ :=
            OpenStream.acquire_closesOnce setError api ip op rate n cb r g w u
          dsimp only
          split_ifs
          · exact h1
          · dsimp only
            unfold World.closes at h1 h3 ⊢
            rw [CloseStream_count _ _ _ u _ (Or.inl rfl)]
            split_ifs with hc
            · rw [h3 hc.1 hc.2]
            · exact h1

/-- C30: `CloseStream` on a stream calls `CloseComponent( unit )` and
`AudioUnitUninitialize( unit )` exactly once when `unit` is a unit of the
stream (input, output or both at once), and not at all otherwise, `NULL`
included; on a `NULL` stream it returns `paNoError` and does nothing. A run of
`OpenAndSetupOneAudioUnit` calls `CloseComponent` at most once, on the unit it
has opened, and hands back `NULL` for it when it has; and over a whole
`OpenStream`, failed or not, `CloseComponent( unit )` is called at most once
for every `unit`. -/
theorem CloseStream_closes_each_unit_once (stream : PaMacCoreStream) (destroyBlio : PaError)
    (w : World) (unit : Nat) :
    (CloseStream (some stream) destroyBlio w).2.trace.count (Call.CloseComponent unit) =
      w.trace.count (Call.CloseComponent unit) +
        (if unit ≠ 0 ∧ (unit = stream.inputUnit ∨ unit = stream.outputUnit) then 1 else 0) ∧
    (CloseStream (some stream) destroyBlio w).2.trace.count (Call.AudioUnitUninitialize unit) =
      w.trace.count (Call.AudioUnitUninitialize unit) +
        (if unit ≠ 0 ∧ (unit = stream.inputUnit ∨ unit = stream.outputUnit) then 1 else 0) ∧
    CloseStream none destroyBlio w = (paNoError, w) ∧
    (∀ (setError : Int → PaError) (inStreamParams outStreamParams : Option PaStreamParameters)
        (requestedFramesPerBuffer : Nat) (hasActualIn hasActualOut : Bool)
        (auhalHostApi : PaMacAUHAL) (sampleRate : ℚ) (r : UnitReplies),
      (OpenAndSetupOneAudioUnit setError inStreamParams outStreamParams requestedFramesPerBuffer
          hasActualIn hasActualOut auhalHostApi sampleRate r w).world.closes unit =
        w.closes unit ∨
      ((OpenAndSetupOneAudioUnit setError inStreamParams outStreamParams requestedFramesPerBuffer
          hasActualIn hasActualOut auhalHostApi sampleRate r w).world.closes unit =
        w.closes unit + 1 ∧ unit = w.next ∧
      (OpenAndSetupOneAudioUnit setError inStreamParams outStreamParams requestedFramesPerBuffer
          hasActualIn hasActualOut auhalHostApi sampleRate r w).audioUnit = 0)) ∧
    (∀ (setError : Int → PaError) (hostApi : PaMacAUHAL)
        (inputParameters outputParameters : Option PaStreamParameters) (sampleRate : ℚ)
        (framesPerBuffer streamFlags : Nat) (streamCallback : Bool) (r : OpenReplies),
      (OpenStream setError hostApi inputParameters outputParameters sampleRate framesPerBuffer
        streamFlags streamCallback r w).world.closes unit ≤ w.closes unit + 1) := by
  refine ⟨CloseStream_count stream destroyBlio w unit _ (Or.inl rfl),
    CloseStream_count stream destroyBlio w unit _ (Or.inr rfl), rfl, ?_, ?_⟩
  · intro setError ip op n a b api rate r
    rcases (OpenAndSetupOneAudioUnit_closes setError ip op n a b api rate r w _ unit rfl).1 with
      h | ⟨h1, h2, h3, _⟩
    · exact Or.inl h
    · exact Or.inr ⟨h1, h2, h3⟩
  · intro setError hostApi ip op rate n flags cb r
    exact OpenStream_closes_le setError hostApi ip op rate n flags cb r w unit

end PaMacCore
